import Mathlib

/-!
Emergency dashboard front end: map styling, list rendering and refresh cycle.

A shallow embedding of the pure parts of `frontend/js/map.js`,
`frontend/js/app.js` and `frontend/js/auth.js`, and of the state changes their
renderers, handlers and session functions make.

Conventions of the embedding.

* A JavaScript number that the code only uses as an integer (a severity, a
  crowd size, a rank) is an `Int`; the result of arithmetic that may be `NaN`
  is a `Num`. Where the rounding of doubles can show (the radius of a crowd
  circle), the function is given a second time over doubles (`toDouble`), and
  the two are proved to agree on the integers of magnitude at most `2 ^ 53`.
* A property lookup `table[key]` on an object literal follows the prototype
  chain: a key that is not an own property of the literal but names a member
  of `Object.prototype` yields that inherited member, not `undefined`.
* A step that can throw returns an `Outcome`: the state it leaves behind and
  the exception, if any. A pure computation that can throw returns
  `Except JSError _`.
* The HTML a renderer writes is given by the values its template interpolates,
  one record per item; placeholders are literal strings.
-/

set_option autoImplicit false

namespace GisEmergency

/-! ## JavaScript values used by the lookup tables -/

/-- A JavaScript number restricted to the values the modelled code produces:
an integer or `NaN`. -/
inductive Num where
  | int (n : Int)
  | nan
  deriving DecidableEq, Repr

/-- The names every object literal inherits from `Object.prototype`. -/
def objectPrototypeKeys : List String :=
  ["constructor", "__defineGetter__", "__defineSetter__", "hasOwnProperty",
   "__lookupGetter__", "__lookupSetter__", "isPrototypeOf", "propertyIsEnumerable",
   "toString", "valueOf", "__proto__", "toLocaleString"]

/-- The outcome of `table[key]` for an object literal `table` and a string key. -/
inductive Lookup (α : Type) where
  /-- The key is an own property of the literal. -/
  | own (v : α)
  /-- The key is not an own property but names a member of `Object.prototype`;
  the value is that function (or, for `__proto__`, the prototype object). -/
  | inherited (key : String)
  /-- The key is found nowhere on the chain: the result is `undefined`. -/
  | undefined
  deriving DecidableEq, Repr

/-- Property lookup `table[key]` on an object literal with the given own
properties. -/
def getProperty {α : Type} (table : List (String × α)) (key : String) : Lookup α :=
  match table.lookup key with
  | some v => Lookup.own v
  | none => if key ∈ objectPrototypeKeys then Lookup.inherited key else Lookup.undefined

/-! ## Severity styling (`map.js`, `getSeverityStyle`) -/

/-- One entry of the severity style table. -/
structure SeverityStyle where
  color : String
  size : Nat
  pulse : Bool
  deriving DecidableEq, Repr

/-- The object literal `styles` of `getSeverityStyle`. Its keys are the numeric
literals 5..1; a number indexes it through its canonical decimal string, which
equals the string of one of these keys only for the same number, and no member
of `Object.prototype` has a numeric name, so the table is keyed by `Int`. -/
def severityStyles : List (Int × SeverityStyle) :=
  [(5, { color := "#ff0000", size := 40, pulse := true }),
   (4, { color := "#ff6600", size := 35, pulse := true }),
   (3, { color := "#ffcc00", size := 30, pulse := false }),
   (2, { color := "#00cc00", size := 25, pulse := false }),
   (1, { color := "#009900", size := 20, pulse := false })]

/-- The entry `styles[3]`. -/
def severityStyle3 : SeverityStyle :=
  { color := "#ffcc00", size := 30, pulse := false }

/-- The function `getSeverityStyle(severity)`: `styles[severity] || styles[3]`. -/
def getSeverityStyle (severity : Int) : SeverityStyle :=
  match severityStyles.lookup severity with
  | some s => s
  | none => severityStyle3

/-! ## Crowd styling (`map.js`, `getCrowdStyle`) -/

/-- One entry of the crowd style table. -/
structure CrowdStyleEntry where
  color : String
  baseRadius : Int
  deriving DecidableEq, Repr

/-- The object literal `styles` of `getCrowdStyle`. -/
def crowdStyles : List (String × CrowdStyleEntry) :=
  [("critical", { color := "#8B0000", baseRadius := 24 }),
   ("high", { color := "#FF4500", baseRadius := 20 }),
   ("moderate", { color := "#FFA500", baseRadius := 16 }),
   ("low", { color := "#32CD32", baseRadius := 12 })]

/-- The entry `styles.moderate`. -/
def crowdStyleModerate : CrowdStyleEntry :=
  { color := "#FFA500", baseRadius := 16 }

/-- The object `getCrowdStyle` returns. `color` is `none` when the property
read gives `undefined`. -/
structure CrowdStyle where
  color : Option String
  radius : Num
  deriving DecidableEq, Repr

/-- The size bonus `Math.min(Math.floor(crowdSize / 1000), 8)`. Integer
division by the positive literal 1000 rounds down, as `Math.floor` does.
The code computes in doubles; for `|crowdSize| ≤ 2 ^ 53` the division, the
floor and the later sum give exactly these integers
(`crowdRadiusDouble_exact`), and for larger positive sizes the bonus is 8 in
both. Only a negative size below `-2 ^ 53` can make the two differ; see
`crowdBonusDouble`. -/
def crowdBonus (crowdSize : Int) : Int :=
  min (crowdSize / 1000) 8

/-- The function `getCrowdStyle(density, crowdSize)`.
`s = styles[density] || styles.moderate`: an own entry and an inherited member
are both truthy, so only `undefined` falls back to `styles.moderate`. An
inherited member has neither `color` nor `baseRadius`, so the colour read is
`undefined` and `undefined + bonus` is `NaN`. The arithmetic is exact integer
arithmetic, which is what the code's doubles give for `|crowdSize| ≤ 2 ^ 53`;
`getCrowdStyleDouble` is the same function with the rounding of doubles. -/
def getCrowdStyle (density : String) (crowdSize : Int) : CrowdStyle :=
  let bonus := crowdBonus crowdSize
  match getProperty crowdStyles density with
  | Lookup.own s => { color := some s.color, radius := Num.int (s.baseRadius + bonus) }
  | Lookup.inherited _ => { color := none, radius := Num.nan }
  | Lookup.undefined =>
      { color := some crowdStyleModerate.color,
        radius := Num.int (crowdStyleModerate.baseRadius + bonus) }

/-! ### The same function in double precision

JavaScript numbers are IEEE 754 binary64 values: every arithmetic operation
returns the double nearest to the exact result, a tie going to the double whose
last significand bit is 0. A finite double is given here by its exact rational
value. -/

/-- Rounding a rational to the nearest integer, a tie going to the even
neighbour. -/
def roundHalfEven (q : ℚ) : Int :=
  let f := ⌊q⌋
  if q - f < 1 / 2 then f
  else if 1 / 2 < q - f then f + 1
  else if f % 2 = 0 then f else f + 1

/-- The double nearest to the exact value `x`: with `2 ^ e ≤ |x| < 2 ^ (e + 1)`
the doubles around `x` are the multiples of `2 ^ (e - 52)` (53 significant
bits), and `x` is rounded to the nearest of them, ties to even. The exponent is
not bounded, so this is the rounding of the code for `2 ^ -1022 ≤ |x| < 2 ^ 1024`
and for 0, which covers every quotient `crowdSize / 1000` and every sum
`baseRadius + bonus` of an integer-valued double `crowdSize`. -/
def toDouble (x : ℚ) : ℚ :=
  if x = 0 then 0
  else
    let ulp : ℚ := 2 ^ (Int.log 2 |x| - 52)
    roundHalfEven (x / ulp) * ulp

/-- The size bonus `Math.min(Math.floor(crowdSize / 1000), 8)` in doubles: the
quotient is rounded; `Math.floor` and `Math.min` are exact. -/
def crowdBonusDouble (crowdSize : ℚ) : ℚ :=
  min (⌊toDouble (crowdSize / 1000)⌋ : ℚ) 8

/-- The object `getCrowdStyle` returns, the radius being a double: `none` is
`NaN`. -/
structure CrowdStyleDouble where
  color : Option String
  radius : Option ℚ
  deriving DecidableEq, Repr

/-- The function `getCrowdStyle(density, crowdSize)` in doubles, `crowdSize`
being the value of a finite double: as `getCrowdStyle`, with the quotient
`crowdSize / 1000` and the sum `s.baseRadius + bonus` rounded. -/
def getCrowdStyleDouble (density : String) (crowdSize : ℚ) : CrowdStyleDouble :=
  let bonus := crowdBonusDouble crowdSize
  match getProperty crowdStyles density with
  | Lookup.own s => { color := some s.color, radius := some (toDouble (s.baseRadius + bonus)) }
  | Lookup.inherited _ => { color := none, radius := none }
  | Lookup.undefined =>
      { color := some crowdStyleModerate.color,
        radius := some (toDouble (crowdStyleModerate.baseRadius + bonus)) }

/-- The four density categories of the data model. -/
def densityCategories : List String := ["critical", "high", "moderate", "low"]

/-! ## Feature collections (the data model of the REST responses) -/

/-- The point geometry of a feature: `coordinates = [lng, lat]`. -/
structure Geometry where
  lng : Rat
  lat : Rat
  deriving DecidableEq, Repr

/-- A feature. `geometry` is `none` when the JSON record has no geometry, in
which case `feature.geometry.coordinates` throws. -/
structure Feature (P : Type) where
  geometry : Option Geometry
  properties : P
  deriving DecidableEq, Repr

/-- A feature collection. `features` is `none` when the object has no
`features` field. -/
structure FeatureCollection (P : Type) where
  features : Option (List (Feature P))
  deriving DecidableEq, Repr

/-- Properties of an incident feature. Times are milliseconds since the epoch.
`severity`, `address` and `description` may be absent from the record. -/
structure IncidentProps where
  id : Int
  type : String
  severity : Option Int
  address : Option String
  reported_at : Int
  status : String
  description : Option String
  deriving DecidableEq, Repr

/-- Properties of a resource feature. -/
structure ResourceProps where
  id : Int
  type : String
  status : String
  capacity : Option Int
  deriving DecidableEq, Repr

/-- Properties of a crowd-detection feature. -/
structure CrowdProps where
  id : Int
  address : String
  place_type : String
  estimated_crowd_size : Int
  crowd_density : String
  density_score : Rat
  detection_source : String
  detection_confidence : Rat
  is_anomalous : Bool
  risk_level : String
  detected_at : Int
  event : Option String
  deriving DecidableEq, Repr

abbrev IncidentFeature := Feature IncidentProps
abbrev ResourceFeature := Feature ResourceProps
abbrev CrowdFeature := Feature CrowdProps

/-- An exception thrown by the modelled code. -/
inductive JSError where
  /-- A property was read from `null` or `undefined`. -/
  | typeError (what : String)
  /-- A `fetch` rejected. -/
  | networkError
  /-- A response body did not decode as JSON. -/
  | syntaxError
  deriving DecidableEq, Repr

/-- The state a piece of code leaves behind, with the exception it threw, if
any. -/
structure Outcome (σ : Type) where
  state : σ
  error : Option JSError
  deriving DecidableEq, Repr

/-- Normal completion. -/
def Outcome.done {σ : Type} (s : σ) : Outcome σ := { state := s, error := none }

/-- Sequencing: the second step runs only when the first did not throw. -/
def Outcome.andThen {σ : Type} (r : Outcome σ) (f : σ → Outcome σ) : Outcome σ :=
  match r.error with
  | none => f r.state
  | some _ => r

/-- The loop `xs.forEach(x => body)` over a state: it stops at the first
iteration that throws. -/
def forEachFrom {α σ : Type} (body : α → σ → Outcome σ) : List α → σ → Outcome σ
  | [], s => Outcome.done s
  | x :: xs, s =>
    match (body x s).error with
    | none => forEachFrom body xs (body x s).state
    | some e => { state := (body x s).state, error := some e }

/-- The read `feature.geometry.coordinates`. -/
def coordinatesOf {P : Type} (f : Feature P) : Except JSError Geometry :=
  match f.geometry with
  | some g => Except.ok g
  | none => Except.error (JSError.typeError "geometry")

/-! ## Crowd panel ordering (`app.js`, `updateCrowdPanel`) -/

/-- The value of `table[key] ?? d` or `table[key] || d` when the own values of
the table are truthy: an own value, the default, or an inherited member of
`Object.prototype`. -/
inductive Member (α : Type) where
  | value (v : α)
  | inherited (key : String)
  deriving DecidableEq, Repr

/-- The expression `table[key] ?? d`; it is also `table[key] || d` for a table
whose own values are all truthy. -/
def getPropertyOr {α : Type} (table : List (String × α)) (key : String) (d : α) : Member α :=
  match getProperty table key with
  | Lookup.own v => Member.value v
  | Lookup.inherited k => Member.inherited k
  | Lookup.undefined => Member.value d

/-- The object literal `order` of the sort comparator. -/
def riskOrder : List (String × Int) :=
  [("critical", 0), ("high", 1), ("moderate", 2), ("low", 3), ("safe", 4)]

/-- The numeric subtraction `ao - bo`: an inherited member converts to `NaN`. -/
def rankSub : Member Int → Member Int → Num
  | Member.value a, Member.value b => Num.int (a - b)
  | _, _ => Num.nan

/-- The comparator `updateCrowdPanel` passes to `sort`. Two ranks are strictly
equal when they are the same number or the same inherited member. -/
def crowdCompare (a b : CrowdFeature) : Num :=
  let ao := getPropertyOr riskOrder a.properties.risk_level 5
  let bo := getPropertyOr riskOrder b.properties.risk_level 5
  if ao ≠ bo then rankSub ao bo
  else if b.properties.is_anomalous ≠ a.properties.is_anomalous then
    (if b.properties.is_anomalous then Num.int 1 else Num.int (-1))
  else Num.int (b.properties.estimated_crowd_size - a.properties.estimated_crowd_size)

/-- The number `Array.prototype.sort` works with: the comparator's result, with
`NaN` read as `+0`. -/
def sortCompare {α : Type} (cmp : α → α → Num) (x y : α) : Int :=
  match cmp x y with
  | Num.int n => n
  | Num.nan => 0

/-- The builtin `[...xs].sort(cmp)`, a stable sort: an element stays before a
later one unless the comparator puts the later one strictly first. It is
modelled by a stable insertion sort. -/
def jsSort {α : Type} (cmp : α → α → Num) (xs : List α) : List α :=
  xs.insertionSort (fun x y => sortCompare cmp x y ≤ 0)

/-- Following the spec's words, the rank of a risk level: critical 0, high 1,
moderate 2, low 3, safe 4, any other value 5. -/
def specRiskRank (level : String) : Int :=
  if level = "critical" then 0
  else if level = "high" then 1
  else if level = "moderate" then 2
  else if level = "low" then 3
  else if level = "safe" then 4
  else 5

/-- Following the spec's words, the order of the crowd panel: by risk rank, then
anomalous before non-anomalous, then by descending crowd size. -/
def specCrowdBefore (a b : CrowdFeature) : Prop :=
  specRiskRank a.properties.risk_level < specRiskRank b.properties.risk_level ∨
  (specRiskRank a.properties.risk_level = specRiskRank b.properties.risk_level ∧
    ((a.properties.is_anomalous = true ∧ b.properties.is_anomalous = false) ∨
     (a.properties.is_anomalous = b.properties.is_anomalous ∧
       b.properties.estimated_crowd_size ≤ a.properties.estimated_crowd_size)))

instance (a b : CrowdFeature) : Decidable (specCrowdBefore a b) := by
  unfold specCrowdBefore
  infer_instance

/-! ## Severity colours and relative times (`map.js`) -/

/-- The object literal `colors` of `getSeverityColor`, keyed like
`severityStyles`. -/
def severityColors : List (Int × String) :=
  [(5, "#ff0000"), (4, "#ff6600"), (3, "#ffcc00"), (2, "#00cc00"), (1, "#009900")]

/-- The function `getSeverityColor(severity)`: `colors[severity] || '#ffcc00'`. -/
def getSeverityColor (severity : Int) : String :=
  match severityColors.lookup severity with
  | some c => c
  | none => "#ffcc00"

/-- The function `getTimeAgo(timestamp)`, with the current time `now` as an
argument; both are milliseconds since the epoch. -/
def getTimeAgo (now timestamp : Int) : String :=
  let diffMs := now - timestamp
  let diffMins := diffMs / 60000
  if diffMins < 1 then "just now"
  else if diffMins < 60 then toString diffMins ++ " min ago"
  else
    let diffHours := diffMins / 60
    if diffHours < 24 then
      toString diffHours ++ " hour" ++ (if diffHours > 1 then "s" else "") ++ " ago"
    else
      let diffDays := diffHours / 24
      toString diffDays ++ " day" ++ (if diffDays > 1 then "s" else "") ++ " ago"

/-- The expression `props.severity || d`: an absent severity and the severity 0
are both falsy. -/
def severityOr (severity : Option Int) (d : Int) : Int :=
  match severity with
  | some n => if n = 0 then d else n
  | none => d

/-- The expression `text || d` for an optional string: an absent string and the
empty string are both falsy. -/
def stringOr (text : Option String) (d : String) : String :=
  match text with
  | some t => if t = "" then d else t
  | none => d

/-! ## The map instance (`map.js`, class `EmergencyMap`) -/

/-- A Leaflet `divIcon` of the resources layer, given by its `html`; the class
name and the icon size are the same for all three. -/
structure DivIcon where
  html : String
  deriving DecidableEq, Repr

/-- A Leaflet layer created by the modelled code. Popup contents and hover
handlers are not part of the model. -/
inductive MapLayer where
  /-- The marker `renderIncidents` makes: position, the severity shown, its style. -/
  | incidentMarker (lat lng : Rat) (severity : Int) (style : SeverityStyle)
  /-- The marker `renderResources` makes. -/
  | resourceMarker (lat lng : Rat) (icon : Member DivIcon)
  /-- The circle `renderCrowds` makes; `anomalous` selects weight 3 and a dashed
  outline instead of weight 1.5 and a solid one. -/
  | crowdCircle (lat lng : Rat) (style : CrowdStyle) (anomalous : Bool)
  /-- The icon marker `renderCrowds` makes. -/
  | crowdMarker (lat lng : Rat) (color : Option String) (anomalous : Bool)
  /-- The circle marker `addTempMarker` makes. -/
  | tempMarker (lat lng : Rat)
  deriving DecidableEq, Repr

/-- The fields of the `EmergencyMap` instance together with the Leaflet state
they refer to. -/
structure EmergencyMap where
  /-- Content of the layer group `incidentsLayer`. -/
  incidentsLayer : List MapLayer
  /-- Content of the layer group `resourcesLayer`. -/
  resourcesLayer : List MapLayer
  /-- Content of the layer group `crowdLayer`. -/
  crowdLayer : List MapLayer
  /-- Transient markers currently added to the map itself. -/
  mapLayers : List MapLayer
  tempMarker : Option MapLayer
  selectedLocation : Option (Rat × Rat)
  activeIncidents : List IncidentFeature
  activeCrowds : List CrowdFeature
  isReportModalOpen : Bool
  /-- The points of the last `fitBounds` call, as `(lat, lng)`. -/
  fittedBounds : Option (List (Rat × Rat))
  deriving DecidableEq, Repr

namespace EmergencyMap

/-- The object literal `icons` of the map's `getResourceIcon`. -/
def resourceIcons : List (String × DivIcon) :=
  [("ambulance",
     { html := "<i class=\"fas fa-ambulance\" style=\"color: #dc3545; font-size: 24px;\"></i>" }),
   ("fire_truck",
     { html := "<i class=\"fas fa-fire-extinguisher\" style=\"color: #ffc107; font-size: 24px;\"></i>" }),
   ("police",
     { html := "<i class=\"fas fa-car\" style=\"color: #28a745; font-size: 24px;\"></i>" })]

/-- The map's `getResourceIcon(type)`: `icons[type] || icons.ambulance`. -/
def getResourceIcon (type : String) : Member DivIcon :=
  getPropertyOr resourceIcons type
    { html := "<i class=\"fas fa-ambulance\" style=\"color: #dc3545; font-size: 24px;\"></i>" }

/-- One iteration of the loop of `renderIncidents`. -/
def addIncidentMarker (f : IncidentFeature) (m : EmergencyMap) : Outcome EmergencyMap :=
  match coordinatesOf f with
  | Except.error e => { state := m, error := some e }
  | Except.ok coords =>
    let severity := severityOr f.properties.severity 3
    let style := getSeverityStyle severity
    Outcome.done
      { m with incidentsLayer :=
          m.incidentsLayer ++ [MapLayer.incidentMarker coords.lat coords.lng severity style] }

/-- The argument of `L.latLngBounds` in `renderIncidents`. -/
def boundsOf (fs : List IncidentFeature) : Except JSError (List (Rat × Rat)) :=
  fs.mapM (fun f => (coordinatesOf f).map (fun c => (c.lat, c.lng)))

/-- The method `renderIncidents(data)`. -/
def renderIncidents (data : FeatureCollection IncidentProps) (m : EmergencyMap) :
    Outcome EmergencyMap :=
  let cleared := { m with incidentsLayer := [] }
  match data.features with
  | none => Outcome.done cleared
  | some fs =>
    if fs.length = 0 then Outcome.done cleared
    else
      (forEachFrom addIncidentMarker fs cleared).andThen (fun st =>
        if fs.length > 0 then
          match boundsOf fs with
          | Except.ok bounds => Outcome.done { st with fittedBounds := some bounds }
          | Except.error e => { state := st, error := some e }
        else Outcome.done st)

/-- One iteration of the loop of `renderResources`. -/
def addResourceMarker (f : ResourceFeature) (m : EmergencyMap) : Outcome EmergencyMap :=
  match coordinatesOf f with
  | Except.error e => { state := m, error := some e }
  | Except.ok coords =>
    let icon := getResourceIcon f.properties.type
    Outcome.done
      { m with resourcesLayer :=
          m.resourcesLayer ++ [MapLayer.resourceMarker coords.lat coords.lng icon] }

/-- The method `renderResources(data)`. -/
def renderResources (data : FeatureCollection ResourceProps) (m : EmergencyMap) :
    Outcome EmergencyMap :=
  let cleared := { m with resourcesLayer := [] }
  match data.features with
  | none => Outcome.done cleared
  | some fs =>
    if fs.length = 0 then Outcome.done cleared
    else forEachFrom addResourceMarker fs cleared

/-- One iteration of the loop of `renderCrowds`: a circle, then an icon marker. -/
def addCrowdMarkers (f : CrowdFeature) (m : EmergencyMap) : Outcome EmergencyMap :=
  match coordinatesOf f with
  | Except.error e => { state := m, error := some e }
  | Except.ok coords =>
    let props := f.properties
    let style := getCrowdStyle props.crowd_density props.estimated_crowd_size
    Outcome.done
      { m with crowdLayer :=
          m.crowdLayer ++
            [MapLayer.crowdCircle coords.lat coords.lng style props.is_anomalous,
             MapLayer.crowdMarker coords.lat coords.lng style.color props.is_anomalous] }

/-- The method `renderCrowds(data)`. -/
def renderCrowds (data : FeatureCollection CrowdProps) (m : EmergencyMap) :
    Outcome EmergencyMap :=
  let cleared := { m with crowdLayer := [] }
  match data.features with
  | none => Outcome.done cleared
  | some fs =>
    if fs.length = 0 then Outcome.done cleared
    else forEachFrom addCrowdMarkers fs cleared

end EmergencyMap

/-! ## The page (`app.js` and the elements it writes) -/

/-- One entry of the crowd panel: the feature, the coordinates passed to
`zoomToLocation`, and the colour `riskColors[p.risk_level] || '#FFA500'`. -/
structure CrowdItem where
  feature : CrowdFeature
  lat : Rat
  lng : Rat
  color : Member String
  deriving DecidableEq, Repr

/-- One entry of the incident list: the feature, its coordinates, the badge
class (`danger` or `warning`) and the address shown. -/
structure IncidentItem where
  feature : IncidentFeature
  lat : Rat
  lng : Rat
  badge : String
  address : String
  deriving DecidableEq, Repr

/-- One row of the resource table: the feature, its coordinates and the icon
class. -/
structure ResourceRow where
  feature : ResourceFeature
  lat : Rat
  lng : Rat
  icon : Member String
  deriving DecidableEq, Repr

/-- One entry of the live emergency list of the map: the feature, its
coordinates, the severity shown in the badge, its colour and the relative
time. -/
structure EmergencyItem where
  feature : IncidentFeature
  lat : Rat
  lng : Rat
  severity : Int
  severityColor : String
  timeAgo : String
  deriving DecidableEq, Repr

/-- The `innerHTML` of a container: a literal string, or the concatenation of
one instance of a fixed template per item, given by the values the template
interpolates. -/
inductive Html where
  | raw (html : String)
  | crowdItems (items : List CrowdItem)
  | incidentItems (items : List IncidentItem)
  | resourceRows (rows : List ResourceRow)
  | emergencyItems (items : List EmergencyItem)
  deriving DecidableEq, Repr

/-- The badge `#crowd-count`. -/
structure CountBadge where
  textContent : String
  className : String
  deriving DecidableEq, Repr

/-- The loading overlay. -/
structure Overlay where
  message : String
  visible : Bool
  deriving DecidableEq, Repr

/-- A toast shown by `showToast(message, type)`. -/
structure Toast where
  message : String
  type : String
  deriving DecidableEq, Repr

/-- The fields of the report form, as the strings the page holds. -/
structure ReportForm where
  emergencyType : String
  selectedLat : String
  selectedLng : String
  locationType : String
  description : String
  severity : String
  callerType : String
  locationInput : String
  deriving DecidableEq, Repr

/-- The elements of the page the modelled code reads and writes. An element
given as an `Option` is `none` when the page has no element with that id. -/
structure Dom where
  /-- Text of `#active-incidents`. -/
  activeIncidents : Option String
  /-- Text of `#available-resources`. -/
  availableResources : Option String
  /-- Content of `#incident-list-container`. -/
  incidentListContainer : Option Html
  /-- Content of `#resource-table-body`. -/
  resourceTableBody : Option Html
  /-- Content of `#crowd-list-container`. -/
  crowdListContainer : Option Html
  /-- Content of `#live-emergency-list`. -/
  liveEmergencyList : Option Html
  /-- Appearance of the badge `#crowd-count`. -/
  crowdCount : Option CountBadge
  /-- Time written into `#last-updated`. -/
  lastUpdated : Option Int
  /-- State of `#loadingOverlay`. -/
  loadingOverlay : Option Overlay
  /-- Every toast shown so far, oldest first. -/
  toasts : List Toast
  form : ReportForm
  reportModalShown : Bool
  /-- The `disabled` flag of `#submit-btn`. -/
  submitDisabled : Option Bool
  /-- Whether the tab `#map-tab` is the one shown. -/
  mapTabShown : Option Bool
  deriving DecidableEq, Repr

/-- The function `showToast(message, type)`. -/
def showToast (message type : String) (dom : Dom) : Dom :=
  { dom with toasts := dom.toasts ++ [{ message := message, type := type }] }

/-- The function `showLoading(message)`: it creates the overlay when the page
has none, and otherwise sets its message and displays it. -/
def showLoading (message : String) (dom : Dom) : Dom :=
  { dom with loadingOverlay := some { message := message, visible := true } }

/-- The function `hideLoading()`. -/
def hideLoading (dom : Dom) : Dom :=
  match dom.loadingOverlay with
  | some o => { dom with loadingOverlay := some { o with visible := false } }
  | none => dom

/-- The function `updateLastUpdated()`, at time `now`. -/
def updateLastUpdated (now : Int) (dom : Dom) : Outcome Dom :=
  match dom.lastUpdated with
  | some _ => Outcome.done { dom with lastUpdated := some now }
  | none => { state := dom, error := some (JSError.typeError "last-updated") }

/-- The object literal `icons` of the dashboard's `getResourceIcon`. -/
def resourceIconClasses : List (String × String) :=
  [("ambulance", "fa-ambulance"), ("fire_truck", "fa-truck"), ("police", "fa-car"),
   ("default", "fa-truck")]

/-- The dashboard's `getResourceIcon(type)`: `icons[type] || icons.default`. -/
def getResourceIcon (type : String) : Member String :=
  getPropertyOr resourceIconClasses type "fa-truck"

/-- The object literal `riskColors` of `updateCrowdPanel`. -/
def riskColors : List (String × String) :=
  [("critical", "#8B0000"), ("high", "#FF4500"), ("moderate", "#FFA500"),
   ("safe", "#32CD32"), ("low", "#32CD32")]

/-- The template instance `updateCrowdPanel` makes for one feature. -/
def crowdItemOf (f : CrowdFeature) : Except JSError CrowdItem :=
  (coordinatesOf f).map (fun coords =>
    { feature := f, lat := coords.lat, lng := coords.lng,
      color := getPropertyOr riskColors f.properties.risk_level "#FFA500" })

/-- The placeholder of the crowd panel. -/
def crowdPlaceholder : String :=
  "<p class=\"text-muted text-center small\">No crowd detections</p>"

/-- The function `updateCrowdPanel(crowds)`. -/
def updateCrowdPanel (crowds : FeatureCollection CrowdProps) (dom : Dom) : Outcome Dom :=
  match dom.crowdListContainer with
  | none => Outcome.done dom
  | some _ =>
    let features := crowds.features.getD []
    if features.length = 0 then
      Outcome.done { dom with crowdListContainer := some (Html.raw crowdPlaceholder) }
    else
      let sorted := jsSort crowdCompare features
      match sorted.mapM crowdItemOf with
      | Except.error e => { state := dom, error := some e }
      | Except.ok items =>
        let dom1 := { dom with crowdListContainer := some (Html.crowdItems items) }
        match dom1.crowdCount with
        | none => Outcome.done dom1
        | some _ =>
          let critical :=
            (features.filter (fun f => f.properties.risk_level = "critical")).length
          let badge : CountBadge :=
            { textContent := toString features.length,
              className := if critical > 0 then "badge bg-danger" else "badge bg-warning" }
          Outcome.done { dom1 with crowdCount := some badge }

/-- The template instance `updateIncidentList` makes for one feature. An absent
severity compares false with 3. -/
def incidentItemOf (f : IncidentFeature) : Except JSError IncidentItem :=
  (coordinatesOf f).map (fun coords =>
    { feature := f, lat := coords.lat, lng := coords.lng,
      badge := if (match f.properties.severity with
                   | some n => decide (n > 3)
                   | none => false) then "danger" else "warning",
      address := stringOr f.properties.address "Unknown location" })

/-- The placeholder of the incident list. -/
def incidentPlaceholder : String :=
  "<p class=\"text-muted text-center\">No active incidents</p>"

/-- The function `updateIncidentList(incidents)`. Writing to the container
throws when the page has none. -/
def updateIncidentList (incidents : FeatureCollection IncidentProps) (dom : Dom) :
    Outcome Dom :=
  let noFeatures : Bool :=
    match incidents.features with
    | none => true
    | some fs => fs.length = 0
  if noFeatures then
    match dom.incidentListContainer with
    | none => { state := dom, error := some (JSError.typeError "incident-list-container") }
    | some _ => Outcome.done { dom with incidentListContainer := some (Html.raw incidentPlaceholder) }
  else
    match (incidents.features.getD []).mapM incidentItemOf with
    | Except.error e => { state := dom, error := some e }
    | Except.ok items =>
      match dom.incidentListContainer with
      | none => { state := dom, error := some (JSError.typeError "incident-list-container") }
      | some _ => Outcome.done { dom with incidentListContainer := some (Html.incidentItems items) }

/-- The template instance `updateResourceTable` makes for one feature. -/
def resourceRowOf (f : ResourceFeature) : Except JSError ResourceRow :=
  (coordinatesOf f).map (fun coords =>
    { feature := f, lat := coords.lat, lng := coords.lng,
      icon := getResourceIcon f.properties.type })

/-- The placeholder of the resource table. -/
def resourcePlaceholder : String :=
  "<tr><td colspan=\"5\" class=\"text-center text-muted\">No resources available</td></tr>"

/-- The function `updateResourceTable(resources)`. Writing to the table body
throws when the page has none. -/
def updateResourceTable (resources : FeatureCollection ResourceProps) (dom : Dom) :
    Outcome Dom :=
  let noFeatures : Bool :=
    match resources.features with
    | none => true
    | some fs => fs.length = 0
  if noFeatures then
    match dom.resourceTableBody with
    | none => { state := dom, error := some (JSError.typeError "resource-table-body") }
    | some _ => Outcome.done { dom with resourceTableBody := some (Html.raw resourcePlaceholder) }
  else
    match (resources.features.getD []).mapM resourceRowOf with
    | Except.error e => { state := dom, error := some e }
    | Except.ok rows =>
      match dom.resourceTableBody with
      | none => { state := dom, error := some (JSError.typeError "resource-table-body") }
      | some _ => Outcome.done { dom with resourceTableBody := some (Html.resourceRows rows) }

/-- The number of features `updateDashboard` displays for a collection. -/
def featureCount {P : Type} (c : FeatureCollection P) : Nat :=
  match c.features with
  | some fs => fs.length
  | none => 0

/-- The function `updateDashboard(incidents, resources, crowds)`. -/
def updateDashboard (incidents : FeatureCollection IncidentProps)
    (resources : FeatureCollection ResourceProps) (crowds : FeatureCollection CrowdProps)
    (dom : Dom) : Outcome Dom :=
  match dom.activeIncidents with
  | none => { state := dom, error := some (JSError.typeError "active-incidents") }
  | some _ =>
    let dom1 := { dom with activeIncidents := some (toString (featureCount incidents)) }
    match dom1.availableResources with
    | none => { state := dom1, error := some (JSError.typeError "available-resources") }
    | some _ =>
      let dom2 := { dom1 with availableResources := some (toString (featureCount resources)) }
      ((updateIncidentList incidents dom2).andThen (updateResourceTable resources)).andThen
        (updateCrowdPanel crowds)

/-! ## Mock collections (`map.js`) -/

namespace EmergencyMap

/-- The method `getMockIncidents()`, called at time `now`. -/
def getMockIncidents (now : Int) : FeatureCollection IncidentProps :=
  { features := some
      [{ geometry := some { lng := 77.2090, lat := 28.6139 },
         properties :=
           { id := 1, type := "fire", severity := some 5,
             address := some "Connaught Place, Central Delhi",
             reported_at := now - 5 * 60000, status := "active",
             description := some "Building fire, 3rd floor, people trapped" } },
       { geometry := some { lng := 77.2190, lat := 28.6239 },
         properties :=
           { id := 2, type := "medical", severity := some 4,
             address := some "Preet Vihar, East Delhi",
             reported_at := now - 15 * 60000, status := "active",
             description := some "Heart attack patient needs immediate attention" } },
       { geometry := some { lng := 77.2290, lat := 28.6099 },
         properties :=
           { id := 3, type := "accident", severity := some 4,
             address := some "Saket, South Delhi",
             reported_at := now - 25 * 60000, status := "active",
             description := some "Multiple vehicle collision, injuries reported" } }] }

/-- The method `getMockResources()`. -/
def getMockResources : FeatureCollection ResourceProps :=
  { features := some
      [{ geometry := some { lng := 77.1990, lat := 28.6039 },
         properties := { id := 1, type := "ambulance", status := "available", capacity := some 4 } },
       { geometry := some { lng := 77.2290, lat := 28.6339 },
         properties := { id := 2, type := "fire_truck", status := "available", capacity := some 6 } }] }

/-- The method `getMockCrowds()`, called at time `now`. -/
def getMockCrowds (now : Int) : FeatureCollection CrowdProps :=
  { features := some
      [{ geometry := some { lng := 77.2090, lat := 28.6139 },
         properties :=
           { id := 1, address := "Connaught Place, Delhi", place_type := "commercial",
             estimated_crowd_size := 1200, crowd_density := "high", density_score := 0.78,
             detection_source := "camera", detection_confidence := 0.91,
             is_anomalous := false, risk_level := "high", detected_at := now, event := none } },
       { geometry := some { lng := 77.2167, lat := 28.6448 },
         properties :=
           { id := 2, address := "Chandni Chowk, Delhi", place_type := "market",
             estimated_crowd_size := 3400, crowd_density := "critical", density_score := 0.95,
             detection_source := "satellite", detection_confidence := 0.87,
             is_anomalous := true, risk_level := "critical", detected_at := now,
             event := some "festival" } },
       { geometry := some { lng := 77.2295, lat := 28.6129 },
         properties :=
           { id := 3, address := "India Gate Lawns, Delhi", place_type := "open_field",
             estimated_crowd_size := 450, crowd_density := "moderate", density_score := 0.42,
             detection_source := "drone", detection_confidence := 0.95,
             is_anomalous := false, risk_level := "moderate", detected_at := now,
             event := none } },
       { geometry := some { lng := 77.2588, lat := 28.5535 },
         properties :=
           { id := 4, address := "Nehru Stadium, Delhi", place_type := "stadium",
             estimated_crowd_size := 28000, crowd_density := "critical", density_score := 0.98,
             detection_source := "sensor", detection_confidence := 0.99,
             is_anomalous := false, risk_level := "critical", detected_at := now,
             event := some "sports_event" } },
       { geometry := some { lng := 77.0514, lat := 28.5921 },
         properties :=
           { id := 5, address := "Dwarka Sector 10 Ground", place_type := "open_field",
             estimated_crowd_size := 80, crowd_density := "low", density_score := 0.12,
             detection_source := "drone", detection_confidence := 0.82,
             is_anomalous := false, risk_level := "safe", detected_at := now, event := none } }] }

end EmergencyMap

/-! ## The refresh cycle (`map.js`, `loadData`) -/

/-- How a `fetch` of a JSON resource ends: the request rejects, or it resolves
with a status that is OK or not and a body that decodes as JSON (`some`) or
does not (`none`). -/
inductive FetchOutcome (β : Type) where
  | rejected
  | resolved (ok : Bool) (json : Option β)
  deriving DecidableEq, Repr

/-- The body of an incident report, as `submitReport` builds it. A coordinate
is `none` when `parseFloat` gives `NaN`. -/
structure ReportData where
  type : String
  /-- The pair `[longitude, latitude]`. -/
  location : Option Rat × Option Rat
  location_type : String
  description : String
  severity : Num
  caller_type : String
  address : String
  deriving DecidableEq, Repr

/-- A request issued with `fetch`. -/
structure Request where
  method : String
  url : String
  body : Option ReportData
  deriving DecidableEq, Repr

/-- The whole state: the map instance, the page, the requests issued so far
(oldest first) and the number of refresh cycles started without being
awaited. -/
structure World where
  map : EmergencyMap
  dom : Dom
  requests : List Request
  refreshesStarted : Nat
  deriving DecidableEq, Repr

/-- Runs a step of the map instance inside the whole state. -/
def onMap (step : EmergencyMap → Outcome EmergencyMap) (w : World) : Outcome World :=
  { state := { w with map := (step w.map).state }, error := (step w.map).error }

/-- Runs a step of the page inside the whole state. -/
def onDom (step : Dom → Outcome Dom) (w : World) : Outcome World :=
  { state := { w with dom := (step w.dom).state }, error := (step w.dom).error }

namespace EmergencyMap

/-- The comparator of `updateEmergencyList`:
`(b.properties.severity || 0) - (a.properties.severity || 0)`. -/
def severityCompare (a b : IncidentFeature) : Num :=
  Num.int (severityOr b.properties.severity 0 - severityOr a.properties.severity 0)

/-- The template instance `updateEmergencyList` makes for one feature. -/
def emergencyItemOf (now : Int) (f : IncidentFeature) : Except JSError EmergencyItem :=
  (coordinatesOf f).map (fun coords =>
    let severity := severityOr f.properties.severity 3
    { feature := f, lat := coords.lat, lng := coords.lng, severity := severity,
      severityColor := getSeverityColor severity,
      timeAgo := getTimeAgo now f.properties.reported_at })

/-- The placeholder of the live emergency list. -/
def emergencyPlaceholder : String :=
  "<p class=\"text-muted small mb-0\">No active emergencies</p>"

/-- The method `updateEmergencyList(incidents)`, at time `now`. -/
def updateEmergencyList (now : Int) (incidents : FeatureCollection IncidentProps)
    (dom : Dom) : Outcome Dom :=
  match dom.liveEmergencyList with
  | none => Outcome.done dom
  | some _ =>
    match incidents.features with
    | none => Outcome.done { dom with liveEmergencyList := some (Html.raw emergencyPlaceholder) }
    | some fs =>
      if fs.length = 0 then
        Outcome.done { dom with liveEmergencyList := some (Html.raw emergencyPlaceholder) }
      else
        match (jsSort severityCompare fs).mapM (emergencyItemOf now) with
        | Except.error e => { state := dom, error := some e }
        | Except.ok items =>
          Outcome.done { dom with liveEmergencyList := some (Html.emergencyItems items) }

/-- The method `fetchIncidents()`: the response body when the request resolves
with an OK status and the body decodes; every failure inside the `try` block is
caught and answered with the mock collection. -/
def fetchIncidents (now : Int) (o : FetchOutcome (FeatureCollection IncidentProps)) :
    FeatureCollection IncidentProps :=
  match o with
  | FetchOutcome.rejected => getMockIncidents now
  | FetchOutcome.resolved ok json =>
    if !ok then getMockIncidents now
    else
      match json with
      | some body => body
      | none => getMockIncidents now

/-- The method `fetchResources()`. -/
def fetchResources (o : FetchOutcome (FeatureCollection ResourceProps)) :
    FeatureCollection ResourceProps :=
  match o with
  | FetchOutcome.rejected => getMockResources
  | FetchOutcome.resolved ok json =>
    if !ok then getMockResources
    else
      match json with
      | some body => body
      | none => getMockResources

/-- The method `fetchCrowds()`. -/
def fetchCrowds (now : Int) (o : FetchOutcome (FeatureCollection CrowdProps)) :
    FeatureCollection CrowdProps :=
  match o with
  | FetchOutcome.rejected => getMockCrowds now
  | FetchOutcome.resolved ok json =>
    if !ok then getMockCrowds now
    else
      match json with
      | some body => body
      | none => getMockCrowds now

/-- The summary toast at the end of the `try` block of `loadData`. -/
def summaryToast (w : World) : World :=
  if w.map.activeIncidents.length > 0 then
    let message := toString w.map.activeIncidents.length ++ " active emergency/emergencies"
    { w with dom := showToast message "warning" w.dom }
  else w

/-- The part of the `try` block of `loadData` that follows the three fetches:
it stores, renders and lists the three collections it is given. -/
def renderCycle (now : Int) (incidents : FeatureCollection IncidentProps)
    (resources : FeatureCollection ResourceProps) (crowds : FeatureCollection CrowdProps)
    (w : World) : Outcome World :=
  let stored : World :=
    { w with map :=
        { w.map with activeIncidents := incidents.features.getD [],
                     activeCrowds := crowds.features.getD [] } }
  ((((((onMap (renderIncidents incidents) stored).andThen
    (onMap (renderResources resources))).andThen
    (onMap (renderCrowds crowds))).andThen
    (onDom (updateDashboard incidents resources crowds))).andThen
    (onDom (updateEmergencyList now incidents))).andThen
    (fun w1 => onDom (updateLastUpdated now) { w1 with dom := hideLoading w1.dom })).andThen
    (fun w2 => Outcome.done (summaryToast w2))

/-- The three requests of a refresh cycle. -/
def refreshRequests : List Request :=
  [{ method := "GET", url := "http://localhost:5000/api/incidents/active", body := none },
   { method := "GET", url := "http://localhost:5000/api/resources/available", body := none },
   { method := "GET", url := "http://localhost:5000/api/crowd/geojson", body := none }]

/-- The start of `loadData()`: the loading overlay is shown and the three
requests are issued. -/
def beginLoad (w : World) : World :=
  { w with dom := showLoading "Loading emergency data..." w.dom,
           requests := w.requests ++ refreshRequests }

/-- The `catch` block of `loadData()`: an exception of the `try` block is
answered with a warning toast and the loading overlay is hidden. -/
def recover (r : Outcome World) : World :=
  match r.error with
  | none => r.state
  | some _ =>
    let warning := "Failed to load data. Using cached data."
    { r.state with dom := hideLoading (showToast warning "warning" r.state.dom) }

/-- The method `loadData()`, run at time `now` with the given outcomes of its
three requests. -/
def loadData (now : Int) (oi : FetchOutcome (FeatureCollection IncidentProps))
    (ors : FetchOutcome (FeatureCollection ResourceProps))
    (oc : FetchOutcome (FeatureCollection CrowdProps)) (w : World) : World :=
  recover
    (renderCycle now (fetchIncidents now oi) (fetchResources ors) (fetchCrowds now oc)
      (beginLoad w))

end EmergencyMap

/-! ## Reporting an incident (`app.js`, `submitReport`) -/

/-- The builtins `parseFloat` and `parseInt` as `submitReport` uses them. -/
structure Builtins where
  parseFloat : String → Option Rat
  parseInt : String → Num

/-- The call `reportModal.hide()`; the listener of `setupModalTracking` then
clears `isReportModalOpen`. -/
def hideReportModal (w : World) : World :=
  { w with dom := { w.dom with reportModalShown := false },
           map := { w.map with isReportModalOpen := false } }

/-- The object `data` that `submitReport` builds from the form. -/
def reportDataOf (b : Builtins) (form : ReportForm) : ReportData :=
  { type := form.emergencyType,
    location := (b.parseFloat form.selectedLng, b.parseFloat form.selectedLat),
    location_type := form.locationType,
    description := form.description,
    severity := b.parseInt form.severity,
    caller_type := form.callerType,
    address := if form.locationInput = "" then "Unknown location" else form.locationInput }

/-- The function `submitReport()`. `post` is the outcome of the report request,
its body reduced to whether it decodes as JSON; `mockId` is the random number
of the mock toast. -/
def submitReport (b : Builtins) (mockId : Nat) (post : FetchOutcome Unit) (w : World) : World :=
  if w.dom.form.emergencyType = "" then
    { w with dom := showToast "Please select emergency type" "error" w.dom }
  else
    let data := reportDataOf b w.dom.form
    let sent : World :=
      { w with dom := showLoading "Submitting report..." w.dom,
               requests := w.requests ++
                 [{ method := "POST", url := "http://localhost:5000/api/incidents/report",
                    body := some data }] }
    match post with
    | FetchOutcome.resolved _ (some _) =>
      let shown : World :=
        { sent with
          dom := showToast "Emergency reported successfully!" "success" (hideLoading sent.dom) }
      let hidden := hideReportModal shown
      { hidden with refreshesStarted := hidden.refreshesStarted + 1 }
    | _ =>
      let warning := "Failed to submit report. Using mock response."
      let warned : World :=
        { sent with dom := hideLoading (showToast warning "warning" sent.dom) }
      let mock := "Mock: Emergency reported (ID: " ++ toString mockId ++ ")"
      let mocked : World :=
        { warned with dom := showToast mock "success" warned.dom }
      hideReportModal mocked

/-- The features listed in the crowd panel, top entry first; empty when the
panel shows no entries. -/
def panelFeatures (dom : Dom) : List CrowdFeature :=
  match dom.crowdListContainer with
  | some (Html.crowdItems items) => items.map (fun i => i.feature)
  | _ => []

/-! ## Sample states -/

/-- A crowd feature with the given risk level, anomaly flag and crowd size. -/
def sampleCrowd (risk : String) (anomalous : Bool) (size : Int) : CrowdFeature :=
  { geometry := some { lng := 77.2090, lat := 28.6139 },
    properties :=
      { id := 1, address := "Connaught Place, Delhi", place_type := "commercial",
        estimated_crowd_size := size, crowd_density := "high", density_score := 0.78,
        detection_source := "camera", detection_confidence := 0.91,
        is_anomalous := anomalous, risk_level := risk, detected_at := 0, event := none } }

/-- A page that has every element the code looks up, showing its initial
texts. -/
def samplePage : Dom :=
  { activeIncidents := some "0",
    availableResources := some "0",
    incidentListContainer := some (Html.raw ""),
    resourceTableBody := some (Html.raw ""),
    crowdListContainer := some (Html.raw ""),
    liveEmergencyList :=
      some (Html.raw "<p class=\"text-muted small mb-0\">Loading emergencies...</p>"),
    crowdCount := some { textContent := "0", className := "badge bg-warning" },
    lastUpdated := some 0,
    loadingOverlay := none,
    toasts := [],
    form :=
      { emergencyType := "", selectedLat := "28.6139", selectedLng := "77.2090",
        locationType := "residential", description := "smoke on the stairs", severity := "4",
        callerType := "witness", locationInput := "" },
    reportModalShown := true,
    submitDisabled := some true,
    mapTabShown := some false }

/-- A map instance whose three overlay layers hold markers of an earlier
refresh. -/
def sampleMap : EmergencyMap :=
  { incidentsLayer :=
      [MapLayer.incidentMarker 28.6139 77.2090 5 { color := "#ff0000", size := 40, pulse := true }],
    resourcesLayer :=
      [MapLayer.resourceMarker 28.6039 77.1990 (EmergencyMap.getResourceIcon "ambulance")],
    crowdLayer :=
      [MapLayer.crowdCircle 28.6139 77.2090 (getCrowdStyle "high" 1200) false,
       MapLayer.crowdMarker 28.6139 77.2090 (some "#FF4500") false],
    mapLayers := [],
    tempMarker := none,
    selectedLocation := none,
    activeIncidents := [],
    activeCrowds := [],
    isReportModalOpen := true,
    fittedBounds := none }

/-- A state made of the sample map and the sample page. -/
def sampleWorld : World :=
  { map := sampleMap, dom := samplePage, requests := [], refreshesStarted := 0 }

/-- Builtins for the sample runs: every string parses to `NaN`. -/
def sampleBuiltins : Builtins :=
  { parseFloat := fun _ => none, parseInt := fun _ => Num.nan }

/-! ## Location selection and the transient marker (`map.js`, `app.js`) -/

/-- The decimal digits of `n`, padded with zeros on the left to `width`
characters. -/
def padZeros (width n : Nat) : String :=
  String.mk (List.replicate (width - (toString n).length) '0') ++ toString n

/-- The string `x.toFixed(6)` for a number of magnitude below `10^21`: the sign,
then the integer nearest to `|x| * 10^6` (the larger one on a tie) written with
six digits after the point. -/
def toFixed6 (x : Rat) : String :=
  let sign := if x < 0 then "-" else ""
  let magnitude := if x < 0 then -x else x
  let scaled := (Rat.floor (magnitude * 1000000 + 1 / 2)).toNat
  sign ++ toString (scaled / 1000000) ++ "." ++ padZeros 6 (scaled % 1000000)

namespace EmergencyMap

/-- The method `addTempMarker(lat, lng)`: the marker held in `tempMarker`, if
any, is removed from the map, then a new one is added and held. A layer is
identified with its value; removing it removes one occurrence. -/
def addTempMarker (lat lng : Rat) (m : EmergencyMap) : EmergencyMap :=
  let remaining :=
    match m.tempMarker with
    | some t => m.mapLayers.erase t
    | none => m.mapLayers
  let marker := MapLayer.tempMarker lat lng
  { m with mapLayers := remaining ++ [marker], tempMarker := some marker }

/-- The method `clearTempMarker()`. -/
def clearTempMarker (m : EmergencyMap) : EmergencyMap :=
  match m.tempMarker with
  | some t => { m with mapLayers := m.mapLayers.erase t, tempMarker := none }
  | none => m

/-- The method `selectLocationForReport(lat, lng)`: the coordinate is written
into the report form, the transient marker is placed, the submit button is
enabled when the page has one, a toast is shown and the map tab is shown when
the page has one. -/
def selectLocationForReport (lat lng : Rat) (w : World) : World :=
  let location := "Lat: " ++ toFixed6 lat ++ ", Lng: " ++ toFixed6 lng
  let form : ReportForm :=
    { w.dom.form with selectedLat := toFixed6 lat, selectedLng := toFixed6 lng,
                      locationInput := location }
  let dom1 : Dom := { w.dom with form := form }
  let dom2 : Dom := { dom1 with submitDisabled := dom1.submitDisabled.map (fun _ => false) }
  let dom3 := showToast "Location selected! Click Submit to continue" "success" dom2
  let dom4 : Dom := { dom3 with mapTabShown := dom3.mapTabShown.map (fun _ => true) }
  { w with map := addTempMarker lat lng w.map, dom := dom4 }

/-- The method `handleMapClick(e)` for a click at `(lat, lng)`. -/
def handleMapClick (lat lng : Rat) (w : World) : World :=
  let stored : World := { w with map := { w.map with selectedLocation := some (lat, lng) } }
  if stored.map.isReportModalOpen then selectLocationForReport lat lng stored
  else { stored with map := addTempMarker lat lng stored.map }

end EmergencyMap

/-- The function `showReportModal()` of `app.js`. `defaults` holds the values
the form controls are reset to. The marker held in `tempMarker` is removed from
the map but stays held; showing the modal makes the listener of
`setupModalTracking` set `isReportModalOpen`. -/
def showReportModal (defaults : ReportForm) (w : World) : World :=
  let form : ReportForm :=
    { defaults with selectedLat := "28.6139", selectedLng := "77.2090", locationInput := "" }
  let remaining :=
    match w.map.tempMarker with
    | some t => w.map.mapLayers.erase t
    | none => w.map.mapLayers
  { w with dom := { w.dom with form := form, reportModalShown := true },
           map := { w.map with mapLayers := remaining, isReportModalOpen := true } }

/-- A call that touches the transient marker or the report modal. -/
inductive MarkerAction where
  | addTempMarker (lat lng : Rat)
  | clearTempMarker
  | handleMapClick (lat lng : Rat)
  | showReportModal (defaults : ReportForm)
  | hideReportModal
  deriving DecidableEq, Repr

/-- The effect of one call. -/
def MarkerAction.apply (a : MarkerAction) (w : World) : World :=
  match a with
  | MarkerAction.addTempMarker lat lng => { w with map := EmergencyMap.addTempMarker lat lng w.map }
  | MarkerAction.clearTempMarker => { w with map := EmergencyMap.clearTempMarker w.map }
  | MarkerAction.handleMapClick lat lng => EmergencyMap.handleMapClick lat lng w
  | MarkerAction.showReportModal defaults => GisEmergency.showReportModal defaults w
  | MarkerAction.hideReportModal => GisEmergency.hideReportModal w

/-- The effect of a sequence of calls, first call first. -/
def runActions (actions : List MarkerAction) (w : World) : World :=
  actions.foldl (fun st a => a.apply st) w

/-- The invariant of the transient marker: the map shows no transient marker,
or exactly the one held in `tempMarker`. -/
def markerInvariant (m : EmergencyMap) : Prop :=
  m.mapLayers = [] ∨ ∃ t, m.mapLayers = [t] ∧ m.tempMarker = some t

/-- The sample state with the report modal closed. -/
def sampleWorldClosed : World :=
  { sampleWorld with map := { sampleMap with isReportModalOpen := false } }

/-- The steps of `renderCycle` that come before the summary toast. -/
def renderSteps (now : Int) (incidents : FeatureCollection IncidentProps)
    (resources : FeatureCollection ResourceProps) (crowds : FeatureCollection CrowdProps)
    (w : World) : Outcome World :=
  let stored : World :=
    { w with map :=
        { w.map with activeIncidents := incidents.features.getD [],
                     activeCrowds := crowds.features.getD [] } }
  (((((onMap (EmergencyMap.renderIncidents incidents) stored).andThen
    (onMap (EmergencyMap.renderResources resources))).andThen
    (onMap (EmergencyMap.renderCrowds crowds))).andThen
    (onDom (updateDashboard incidents resources crowds))).andThen
    (onDom (EmergencyMap.updateEmergencyList now incidents))).andThen
    (fun w1 => onDom (updateLastUpdated now) { w1 with dom := hideLoading w1.dom })

/-! ## Authentication (`auth.js`) -/

/-- A user profile as the backend returns it. `permissions` lists the own
properties of the `permissions` object, each name once; it is `none` when the
profile has no such object. -/
structure User where
  username : String
  role : String
  permissions : Option (List (String × Bool))
  email : Option String
  department : Option String
  phone : Option String
  created_at : Option Int
  last_login : Option Int
  deriving DecidableEq, Repr

/-- The module-level state of `auth.js` and the `authToken` entry of local
storage. -/
structure Session where
  currentUser : Option User
  authToken : Option String
  /-- The entry `authToken` of `localStorage`; `none` when there is none. -/
  storedToken : Option String
  deriving DecidableEq, Repr

/-- The decoded body of a login or registration response. -/
structure AuthResponse where
  token : Option String
  user : Option User
  error : Option String
  deriving DecidableEq, Repr

/-- The content of `#user-role`: what the page came with, or the role badge
written by `updateUIBasedOnAuth`. -/
inductive RoleContent where
  | initial
  | badge (color : Member String) (role : String)
  deriving DecidableEq, Repr

/-- The values of the login form. -/
structure LoginForm where
  username : String
  password : String
  deriving DecidableEq, Repr

/-- The values of the registration form. -/
structure RegisterForm where
  username : String
  email : String
  password : String
  confirmPassword : String
  phone : String
  department : String
  deriving DecidableEq, Repr

/-- The elements of the page that `auth.js` reads and writes. A display value
or text given as an `Option` is `none` when the page has no such element; a
modal is `none` when it has no Bootstrap instance, and otherwise tells whether
it is shown. -/
structure AuthPage where
  /-- The `style.display` of `#auth-buttons`. -/
  authButtons : Option String
  /-- The `style.display` of `#user-menu`. -/
  userMenu : Option String
  /-- The `style.display` of `#user-info-card`. -/
  userInfoCard : Option String
  /-- The `style.display` of `#operator-actions`. -/
  operatorActions : Option String
  /-- The `style.display` of `#admin-actions`. -/
  adminActions : Option String
  /-- The text of `#username-display`. -/
  usernameDisplay : Option String
  /-- The text of `#user-name`. -/
  userName : Option String
  userRole : Option RoleContent
  loginForm : LoginForm
  /-- The values `#login-form` is reset to. -/
  loginDefaults : LoginForm
  registerForm : RegisterForm
  /-- The values `#register-form` is reset to. -/
  registerDefaults : RegisterForm
  loginModal : Option Bool
  registerModal : Option Bool
  /-- The number of pending `setTimeout(() => showLoginModal(), 500)` timers. -/
  loginModalTimers : Nat
  deriving DecidableEq, Repr

/-- A request issued by `auth.js`. -/
inductive AuthRequest where
  /-- The request `POST /api/auth/login` with its body. -/
  | login (username password : String)
  /-- The request `POST /api/auth/register` with its body. -/
  | register (username email password phone department : String)
  /-- The request `GET /api/auth/profile`, authorised with the given token. -/
  | profile (bearer : Option String)
  deriving DecidableEq, Repr

/-- The state `auth.js` works on: the session, its part of the page, the page
elements shared with `app.js` (toasts, loading overlay) and the requests issued
so far, oldest first. -/
structure AuthWorld where
  session : Session
  page : AuthPage
  dom : Dom
  requests : List AuthRequest
  deriving DecidableEq, Repr

/-- Runs a step of the authentication page inside the whole state. -/
def onPage (step : AuthPage → Outcome AuthPage) (w : AuthWorld) : Outcome AuthWorld :=
  { state := { w with page := (step w.page).state }, error := (step w.page).error }

/-- The object literal `colors` of `getRoleBadgeColor`. -/
def roleBadgeColors : List (String × String) :=
  [("admin", "danger"), ("operator", "warning"), ("field_responder", "success"),
   ("viewer", "info"), ("public", "secondary")]

/-- The function `getRoleBadgeColor(role)`: `colors[role] || 'secondary'`. -/
def getRoleBadgeColor (role : String) : Member String :=
  getPropertyOr roleBadgeColors role "secondary"

/-- A write to a property of the element with the given id: it throws when the
page has no such element. -/
def writeElement {α : Type} (id : String) (element : Option α) (p written : AuthPage) :
    Outcome AuthPage :=
  match element with
  | some _ => Outcome.done written
  | none => { state := p, error := some (JSError.typeError id) }

/-- The function `updateUIBasedOnAuth()`. -/
def updateUIBasedOnAuth (s : Session) (p : AuthPage) : Outcome AuthPage :=
  match s.currentUser with
  | some user =>
    let badge := RoleContent.badge (getRoleBadgeColor user.role) user.role
    let operatorDisplay :=
      if user.role = "admin" ∨ user.role = "operator" then "block" else "none"
    let adminDisplay := if user.role = "admin" then "block" else "none"
    (((((((writeElement "auth-buttons" p.authButtons p { p with authButtons := some "none" }).andThen
      (fun q => writeElement "user-menu" q.userMenu q { q with userMenu := some "block" })).andThen
      (fun q => writeElement "user-info-card" q.userInfoCard q
        { q with userInfoCard := some "block" })).andThen
      (fun q => writeElement "username-display" q.usernameDisplay q
        { q with usernameDisplay := some user.username })).andThen
      (fun q => writeElement "user-name" q.userName q { q with userName := some user.username })).andThen
      (fun q => writeElement "user-role" q.userRole q { q with userRole := some badge })).andThen
      (fun q => writeElement "operator-actions" q.operatorActions q
        { q with operatorActions := some operatorDisplay })).andThen
      (fun q => writeElement "admin-actions" q.adminActions q
        { q with adminActions := some adminDisplay })
  | none =>
    ((((writeElement "auth-buttons" p.authButtons p { p with authButtons := some "block" }).andThen
      (fun q => writeElement "user-menu" q.userMenu q { q with userMenu := some "none" })).andThen
      (fun q => writeElement "user-info-card" q.userInfoCard q
        { q with userInfoCard := some "none" })).andThen
      (fun q => writeElement "operator-actions" q.operatorActions q
        { q with operatorActions := some "none" })).andThen
      (fun q => writeElement "admin-actions" q.adminActions q
        { q with adminActions := some "none" })

/-- The function `logout()`: the session is cleared first, then the page is
updated and a toast is shown. -/
def logout (w : AuthWorld) : Outcome AuthWorld :=
  let cleared : AuthWorld :=
    { w with session := { currentUser := none, authToken := none, storedToken := none } }
  (onPage (updateUIBasedOnAuth cleared.session) cleared).andThen
    (fun w1 => Outcome.done { w1 with dom := showToast "Logged out successfully" "info" w1.dom })

/-- The function `validateToken()`, given the outcome of the profile request.
An exception of the `try` block, also one thrown by the `logout()` call in it,
is answered with `logout()`. -/
def validateToken (o : FetchOutcome User) (w : AuthWorld) : Outcome AuthWorld :=
  let sent : AuthWorld :=
    { w with requests := w.requests ++ [AuthRequest.profile w.session.authToken] }
  let tried : Outcome AuthWorld :=
    match o with
    | FetchOutcome.rejected => { state := sent, error := some JSError.networkError }
    | FetchOutcome.resolved ok json =>
      if ok then
        match json with
        | none => { state := sent, error := some JSError.syntaxError }
        | some userData =>
          let known : AuthWorld := { sent with session := { sent.session with currentUser := some userData } }
          (onPage (updateUIBasedOnAuth known.session) known).andThen (fun w1 =>
            let welcome := "Welcome back, " ++ userData.username ++ "!"
            Outcome.done { w1 with dom := showToast welcome "success" w1.dom })
      else logout sent
  match tried.error with
  | none => tried
  | some _ => logout tried.state

/-- The call `bootstrap.Modal.getInstance(el).hide()` on the login modal. -/
def hideLoginModal (w : AuthWorld) : Outcome AuthWorld :=
  match w.page.loginModal with
  | some _ => Outcome.done { w with page := { w.page with loginModal := some false } }
  | none => { state := w, error := some (JSError.typeError "loginModal") }

/-- The call `bootstrap.Modal.getInstance(el).hide()` on the register modal. -/
def hideRegisterModal (w : AuthWorld) : Outcome AuthWorld :=
  match w.page.registerModal with
  | some _ => Outcome.done { w with page := { w.page with registerModal := some false } }
  | none => { state := w, error := some (JSError.typeError "registerModal") }

/-- The welcome toast of `login()`; reading the user name throws when the
response carried no user. -/
def welcomeToast (w : AuthWorld) : Outcome AuthWorld :=
  match w.session.currentUser with
  | some user =>
    let welcome := "Welcome, " ++ user.username ++ "!"
    Outcome.done { w with dom := showToast welcome "success" w.dom }
  | none => { state := w, error := some (JSError.typeError "currentUser") }

/-- The `catch` and `finally` blocks shared by `login()` and `register()`: an
exception is answered with the toast `Connection error`, and the loading
overlay is hidden in every case. -/
def settle (tried : Outcome AuthWorld) : AuthWorld :=
  let caught : AuthWorld :=
    match tried.error with
    | none => tried.state
    | some _ => { tried.state with dom := showToast "Connection error" "error" tried.state.dom }
  { caught with dom := hideLoading caught.dom }

/-- The function `login()`, given the outcome of the login request. -/
def login (o : FetchOutcome AuthResponse) (w : AuthWorld) : AuthWorld :=
  let username := w.page.loginForm.username
  let password := w.page.loginForm.password
  if username = "" ∨ password = "" then
    { w with dom := showToast "Please enter username and password" "error" w.dom }
  else
    let sent : AuthWorld :=
      { w with dom := showLoading "Logging in..." w.dom,
               requests := w.requests ++ [AuthRequest.login username password] }
    let tried : Outcome AuthWorld :=
      match o with
      | FetchOutcome.rejected => { state := sent, error := some JSError.networkError }
      | FetchOutcome.resolved _ none => { state := sent, error := some JSError.syntaxError }
      | FetchOutcome.resolved ok (some data) =>
        if ok then
          let stored : Session :=
            { currentUser := data.user, authToken := data.token,
              storedToken := some (data.token.getD "undefined") }
          let signedIn : AuthWorld := { sent with session := stored }
          (((onPage (updateUIBasedOnAuth signedIn.session) signedIn).andThen
            hideLoginModal).andThen welcomeToast).andThen
            (fun w1 => Outcome.done { w1 with page := { w1.page with loginForm := w1.page.loginDefaults } })
        else
          Outcome.done { sent with dom := showToast (stringOr data.error "Login failed") "error" sent.dom }
    settle tried

/-- The value of `text.length`: the number of UTF-16 code units. -/
def jsLength (text : String) : Nat :=
  (text.toList.map (fun c => if c.toNat < 65536 then 1 else 2)).sum

/-- The function `register()`, given the outcome of the registration request. -/
def register (o : FetchOutcome AuthResponse) (w : AuthWorld) : AuthWorld :=
  let form := w.page.registerForm
  if form.username = "" ∨ form.email = "" ∨ form.password = "" then
    { w with dom := showToast "Please fill all required fields" "error" w.dom }
  else if form.password ≠ form.confirmPassword then
    { w with dom := showToast "Passwords do not match" "error" w.dom }
  else if jsLength form.password < 6 then
    { w with dom := showToast "Password must be at least 6 characters" "error" w.dom }
  else
    let request :=
      AuthRequest.register form.username form.email form.password form.phone form.department
    let sent : AuthWorld :=
      { w with dom := showLoading "Creating account..." w.dom,
               requests := w.requests ++ [request] }
    let tried : Outcome AuthWorld :=
      match o with
      | FetchOutcome.rejected => { state := sent, error := some JSError.networkError }
      | FetchOutcome.resolved _ none => { state := sent, error := some JSError.syntaxError }
      | FetchOutcome.resolved ok (some data) =>
        if ok then
          let success := "Registration successful! Please login."
          let told : AuthWorld := { sent with dom := showToast success "success" sent.dom }
          (hideRegisterModal told).andThen (fun w1 =>
            let reset : AuthPage := { w1.page with registerForm := w1.page.registerDefaults }
            Outcome.done { w1 with page := { reset with loginModalTimers := reset.loginModalTimers + 1 } })
        else
          Outcome.done { sent with dom := showToast (stringOr data.error "Registration failed") "error" sent.dom }
    settle tried

/-- The argument of `hasRole`: one role name or an array of role names. -/
inductive RoleArg where
  | one (role : String)
  | many (roles : List String)
  deriving DecidableEq, Repr

/-- The function `hasPermission(permission)`:
`currentUser.permissions[permission] || false`, or `false` without a current
user or a permissions object. -/
def hasPermission (permission : String) (s : Session) : Member Bool :=
  match s.currentUser with
  | none => Member.value false
  | some user =>
    match user.permissions with
    | none => Member.value false
    | some permissions => getPropertyOr permissions permission false

/-- The function `hasRole(role)`. -/
def hasRole (role : RoleArg) (s : Session) : Bool :=
  match s.currentUser with
  | none => false
  | some user =>
    match role with
    | RoleArg.many roles => decide (user.role ∈ roles)
    | RoleArg.one name => decide (user.role = name)

/-- A page has every element that `updateUIBasedOnAuth` writes. -/
def AuthPage.complete (p : AuthPage) : Prop :=
  p.authButtons ≠ none ∧ p.userMenu ≠ none ∧ p.userInfoCard ≠ none ∧
  p.operatorActions ≠ none ∧ p.adminActions ≠ none ∧ p.usernameDisplay ≠ none ∧
  p.userName ≠ none ∧ p.userRole ≠ none

instance (p : AuthPage) : Decidable p.complete := by
  unfold AuthPage.complete
  infer_instance

/-- An operator profile. -/
def sampleUser : User :=
  { username := "asha", role := "operator",
    permissions := some [("dispatch_resources", true), ("manage_users", false)],
    email := some "asha@example.org", department := some "control room", phone := none,
    created_at := none, last_login := none }

/-- A page of a signed-out visitor who has filled in both forms and opened the
login modal. -/
def sampleAuthPage : AuthPage :=
  { authButtons := some "block", userMenu := some "none", userInfoCard := some "none",
    operatorActions := some "none", adminActions := some "none",
    usernameDisplay := some "", userName := some "", userRole := some RoleContent.initial,
    loginForm := { username := "asha", password := "s3cret!" },
    loginDefaults := { username := "", password := "" },
    registerForm :=
      { username := "asha", email := "asha@example.org", password := "s3cret!",
        confirmPassword := "s3cret!", phone := "", department := "control room" },
    registerDefaults :=
      { username := "", email := "", password := "", confirmPassword := "", phone := "",
        department := "" },
    loginModal := some true, registerModal := some true, loginModalTimers := 0 }

/-- A signed-out state on the sample pages. -/
def sampleAuthWorld : AuthWorld :=
  { session := { currentUser := none, authToken := none, storedToken := none },
    page := sampleAuthPage, dom := samplePage, requests := [] }

/-- A signed-in state on the sample pages, with a stored token. -/
def sampleSignedIn : AuthWorld :=
  { sampleAuthWorld with
    session := { currentUser := some sampleUser, authToken := some "t-0", storedToken := some "t-0" } }

/-! ## Further definitions for the popups, lists and sample runs -/

/-- The object literal `densityColors` of `createCrowdPopup`. -/
def densityColors : List (String × String) :=
  [("critical", "#8B0000"), ("high", "#FF4500"), ("moderate", "#FFA500"), ("low", "#32CD32")]

/-- The constant `color` of `createCrowdPopup(props, lat, lng)`, the header
colour of the popup: `densityColors[props.crowd_density] || '#FFA500'`. -/
def crowdPopupColor (density : String) : Member String :=
  getPropertyOr densityColors density "#FFA500"

/-- The severity numbers shown in the badges of the live emergency list, top
entry first; empty when the list shows no entries. -/
def listedSeverities (dom : Dom) : List Int :=
  match dom.liveEmergencyList with
  | some (Html.emergencyItems items) => items.map (fun i => i.severity)
  | _ => []

/-- An incident feature with the given severity. -/
def sampleIncident (severity : Option Int) : IncidentFeature :=
  { geometry := some { lng := 77.2090, lat := 28.6139 },
    properties :=
      { id := 1, type := "fire", severity := severity,
        address := some "Connaught Place, Central Delhi", reported_at := 0, status := "active",
        description := none } }

/-- The sample state with a filled-in report form. -/
def sampleReportWorld : World :=
  { sampleWorld with
    dom := { samplePage with form := { samplePage.form with emergencyType := "fire" } } }

/-- The validation of `register()`: the three required fields are non-empty,
the password equals its confirmation and has a length of at least 6. -/
def RegisterForm.valid (form : RegisterForm) : Prop :=
  form.username ≠ "" ∧ form.email ≠ "" ∧ form.password ≠ "" ∧
  form.password = form.confirmPassword ∧ 6 ≤ jsLength form.password

instance (form : RegisterForm) : Decidable form.valid := by
  unfold RegisterForm.valid
  infer_instance

/-- The sample visitor with a password of five characters. -/
def sampleShortPassword : AuthWorld :=
  let form : RegisterForm := { sampleAuthPage.registerForm with password := "s3cre", confirmPassword := "s3cre" }
  { sampleAuthWorld with page := { sampleAuthPage with registerForm := form } }

/-- Every feature of the list has a geometry. -/
def allLocated {P : Type} (fs : List (Feature P)) : Prop :=
  ∀ f ∈ fs, f.geometry ≠ none

instance {P : Type} (fs : List (Feature P)) : Decidable (allLocated fs) := by
  unfold allLocated
  infer_instance

/-- No resource of the list has a type that names a member of
`Object.prototype`; for such a type `getResourceIcon` returns no icon, and what
Leaflet does with it is outside the model. -/
def iconsKnown (fs : List ResourceFeature) : Prop :=
  ∀ f ∈ fs, f.properties.type ∉ objectPrototypeKeys

instance (fs : List ResourceFeature) : Decidable (iconsKnown fs) := by
  unfold iconsKnown
  infer_instance

/-- A layer is a resource marker that carries one of the icons of the icon
table. -/
def MapLayer.hasIcon : MapLayer → Prop
  | MapLayer.resourceMarker _ _ (Member.value _) => True
  | _ => False

/-! ## Arrays as mutable objects -/

/-- A store of array objects: the content of each array, by address. It makes
the difference between sorting an array and sorting a copy of it visible. -/
structure ArrayStore (α : Type) where
  cells : List (List α)
  deriving DecidableEq, Repr

namespace ArrayStore

/-- The content of the array at an address. -/
def read {α : Type} (store : ArrayStore α) (address : Nat) : List α :=
  (store.cells.get? address).getD []

/-- The store after a new array with the given content is created. -/
def alloc {α : Type} (store : ArrayStore α) (content : List α) : ArrayStore α :=
  { cells := store.cells ++ [content] }

/-- The address a newly created array gets. -/
def fresh {α : Type} (store : ArrayStore α) : Nat :=
  store.cells.length

/-- The call `array.sort(cmp)`: the array at the address is sorted in place. -/
def sortInPlace {α : Type} (cmp : α → α → Num) (address : Nat) (store : ArrayStore α) :
    ArrayStore α :=
  { cells := store.cells.set address (jsSort cmp (store.read address)) }

end ArrayStore

/-- The function `updateCrowdPanel(crowds)` with its arrays kept in a store.
`features` is the address of the array `crowds.features`, or `none` when the
object has no such field. The result is the outcome on the page and the store
after the call. -/
def updateCrowdPanelInStore (features : Option Nat) (store : ArrayStore CrowdFeature)
    (dom : Dom) : Outcome Dom × ArrayStore CrowdFeature :=
  match dom.crowdListContainer with
  | none => (Outcome.done dom, store)
  | some _ =>
    -- `crowds.features || []`
    let store1 := if features.isSome then store else store.alloc []
    let array := features.getD store.fresh
    if (store1.read array).length = 0 then
      (Outcome.done { dom with crowdListContainer := some (Html.raw crowdPlaceholder) }, store1)
    else
      -- `[...features]`, then `.sort(...)` on the copy
      let copy := store1.fresh
      let store2 := store1.alloc (store1.read array)
      let store3 := store2.sortInPlace crowdCompare copy
      match (store3.read copy).mapM crowdItemOf with
      | Except.error e => ({ state := dom, error := some e }, store3)
      | Except.ok items =>
        let dom1 := { dom with crowdListContainer := some (Html.crowdItems items) }
        match dom1.crowdCount with
        | none => (Outcome.done dom1, store3)
        | some _ =>
          -- `features.filter(...)` creates one more array
          let selected := store3.fresh
          let critical := fun (f : CrowdFeature) => decide (f.properties.risk_level = "critical")
          let store4 := store3.alloc ((store3.read array).filter critical)
          let badge : CountBadge :=
            { textContent := toString (store4.read array).length,
              className :=
                if (store4.read selected).length > 0 then "badge bg-danger"
                else "badge bg-warning" }
          (Outcome.done { dom1 with crowdCount := some badge }, store4)

/-- The method `updateEmergencyList(incidents)` with its arrays kept in a
store. `features` is the address of the array `incidents.features`, or `none`
when the object has no such field. -/
def updateEmergencyListInStore (now : Int) (features : Option Nat)
    (store : ArrayStore IncidentFeature) (dom : Dom) :
    Outcome Dom × ArrayStore IncidentFeature :=
  match dom.liveEmergencyList with
  | none => (Outcome.done dom, store)
  | some _ =>
    match features with
    | none =>
      (Outcome.done { dom with liveEmergencyList := some (Html.raw EmergencyMap.emergencyPlaceholder) },
        store)
    | some array =>
      if (store.read array).length = 0 then
        (Outcome.done
          { dom with liveEmergencyList := some (Html.raw EmergencyMap.emergencyPlaceholder) },
          store)
      else
        -- `[...incidents.features]`, then `.sort(...)` on the copy
        let copy := store.fresh
        let store1 := store.alloc (store.read array)
        let store2 := store1.sortInPlace EmergencyMap.severityCompare copy
        match (store2.read copy).mapM (EmergencyMap.emergencyItemOf now) with
        | Except.error e => ({ state := dom, error := some e }, store2)
        | Except.ok items =>
          (Outcome.done { dom with liveEmergencyList := some (Html.emergencyItems items) },
            store2)

/-- A store that holds the mock crowd detections at address 0. -/
def sampleCrowdStore : ArrayStore CrowdFeature :=
  { cells := [(EmergencyMap.getMockCrowds 0).features.getD []] }

/-- A store that holds the mock incidents at address 0. -/
def sampleIncidentStore : ArrayStore IncidentFeature :=
  { cells := [(EmergencyMap.getMockIncidents 0).features.getD []] }

/-! ## Theorems -/

/-- C1: for each severity 1..5 `getSeverityStyle` returns the entry of the fixed
table, and for every integer severity outside 1..5 it returns the severity-3
style (`#ffcc00`, size 30, no pulse). -/
theorem getSeverityStyle_table :
    getSeverityStyle 5 = { color := "#ff0000", size := 40, pulse := true } ∧
    getSeverityStyle 4 = { color := "#ff6600", size := 35, pulse := true } ∧
    getSeverityStyle 3 = { color := "#ffcc00", size := 30, pulse := false } ∧
    getSeverityStyle 2 = { color := "#00cc00", size := 25, pulse := false } ∧
    getSeverityStyle 1 = { color := "#009900", size := 20, pulse := false } ∧
    ∀ s : Int, ¬ (1 ≤ s ∧ s ≤ 5) →
      getSeverityStyle s = { color := "#ffcc00", size := 30, pulse := false } := by
  refine ⟨rfl, rfl, rfl, rfl, rfl, ?_⟩
  intro s hs
  have h5 : (s == 5) = false := by simp; omega
  have h4 : (s == 4) = false := by simp; omega
  have h3 : (s == 3) = false := by simp; omega
  have h2 : (s == 2) = false := by simp; omega
  have h1 : (s == 1) = false := by simp; omega
  simp [getSeverityStyle, severityStyles, List.lookup, h5, h4, h3, h2, h1, severityStyle3]

/-- Witness for C1: severity 9 and severity 0 get the severity-3 style. -/
theorem getSeverityStyle_table_witness :
    getSeverityStyle 9 = { color := "#ffcc00", size := 30, pulse := false } ∧
    getSeverityStyle 0 = { color := "#ffcc00", size := 30, pulse := false } :=
  ⟨getSeverityStyle_table.2.2.2.2.2 9 (by decide),
   getSeverityStyle_table.2.2.2.2.2 0 (by decide)⟩

/-- Integer division by 1000 is the floor of the exact quotient, also for a
negative dividend. -/
theorem ediv_thousand_eq_floor (n : Int) : n / 1000 = ⌊(n : ℚ) / 1000⌋ := by
  have h := Rat.floor_intCast_div_natCast n 1000
  simpa using h.symm

/-- A density that is neither one of the four categories nor the name of a
member of `Object.prototype` gets the moderate style. -/
theorem getCrowdStyle_fallback (density : String) (n : Int)
    (hcat : density ∉ densityCategories) (hproto : density ∉ objectPrototypeKeys) :
    getCrowdStyle density n =
      { color := some "#FFA500", radius := Num.int (16 + min ⌊(n : ℚ) / 1000⌋ 8) } := by
  simp [densityCategories] at hcat
  obtain ⟨h1, h2, h3, h4⟩ := hcat
  have b1 : (density == "critical") = false := by simpa using h1
  have b2 : (density == "high") = false := by simpa using h2
  have b3 : (density == "moderate") = false := by simpa using h3
  have b4 : (density == "low") = false := by simpa using h4
  simp [getCrowdStyle, getProperty, crowdStyles, List.lookup, b1, b2, b3, b4, hproto,
    crowdStyleModerate, crowdBonus, ediv_thousand_eq_floor]

/-- A density that names a member of `Object.prototype` gets neither a colour
nor a radius, whatever the crowd size. -/
theorem getCrowdStyle_inherited (density : String) (n : Int)
    (h : density ∈ objectPrototypeKeys) :
    getCrowdStyle density n = { color := none, radius := Num.nan } := by
  simp only [objectPrototypeKeys, List.mem_cons, List.mem_singleton, List.mem_nil_iff,
    or_false] at h
  rcases h with h | h | h | h | h | h | h | h | h | h | h | h <;> subst h <;> rfl

/-- C2 (the code at the failing input): `constructor` is a string outside the
four density categories, yet `getCrowdStyle` does not return the moderate style
for it: `styles["constructor"]` is the inherited constructor function, which is
truthy, so the colour is `undefined` and the radius is `NaN`. -/
theorem getCrowdStyle_constructor :
    "constructor" ∉ densityCategories ∧
    getCrowdStyle "constructor" 1200 = { color := none, radius := Num.nan } ∧
    getCrowdStyle "constructor" 1200 ≠
      { color := some "#FFA500", radius := Num.int (16 + 1) } := by
  decide

/-! ### The radius in double precision -/

/-- An integer is its own rounding. -/
theorem roundHalfEven_intCast (z : Int) : roundHalfEven (z : ℚ) = z := by
  simp [roundHalfEven]

/-- Rounding moves a value by at most one half. -/
theorem abs_roundHalfEven_sub_le (q : ℚ) : |(roundHalfEven q : ℚ) - q| ≤ 1 / 2 := by
  have h1 : (⌊q⌋ : ℚ) ≤ q := Int.floor_le q
  have h2 : q < ⌊q⌋ + 1 := Int.lt_floor_add_one q
  unfold roundHalfEven
  simp only
  rw [abs_le]
  split_ifs with a b c
  · constructor <;> linarith
  · push_cast; constructor <;> linarith
  · constructor <;> linarith
  · push_cast; constructor <;> linarith

/-- Rounding never goes below the floor. -/
theorem floor_le_roundHalfEven (q : ℚ) : ⌊q⌋ ≤ roundHalfEven q := by
  unfold roundHalfEven
  simp only
  split_ifs <;> omega

/-- A value less than one half above its floor rounds down to it. -/
theorem roundHalfEven_of_floor (q : ℚ) (f : Int) (hf : ⌊q⌋ = f) (h : q - f < 1 / 2) :
    roundHalfEven q = f := by
  unfold roundHalfEven
  simp only [hf, if_pos h]

/-- The binary exponent of `r` is the `e` with `2 ^ e ≤ r < 2 ^ (e + 1)`. -/
theorem log_two_eq (r : ℚ) (e : Int) (h1 : (2 : ℚ) ^ e ≤ r) (h2 : r < 2 ^ (e + 1)) :
    Int.log 2 r = e := by
  have hr : 0 < r := lt_of_lt_of_le (by positivity) h1
  have a : e ≤ Int.log 2 r := (Int.zpow_le_iff_le_log (by norm_num) hr).1 (by exact_mod_cast h1)
  have b : Int.log 2 r < e + 1 :=
    (Int.lt_zpow_iff_log_lt (by norm_num) hr).1 (by exact_mod_cast h2)
  omega

/-- The double of a value whose binary exponent is known. -/
theorem toDouble_of_exponent (x : ℚ) (e z : Int) (h1 : (2 : ℚ) ^ e ≤ |x|)
    (h2 : |x| < 2 ^ (e + 1)) (hz : roundHalfEven (x / 2 ^ (e - 52)) = z) :
    toDouble x = z * 2 ^ (e - 52) := by
  have hx : x ≠ 0 := by
    intro h
    rw [h, abs_zero] at h1
    exact absurd h1 (not_le.2 (by positivity))
  unfold toDouble
  simp only [if_neg hx, log_two_eq _ e h1 h2, hz]

/-- Every integer of magnitude below `2 ^ 53` is a double. -/
theorem toDouble_intCast (m : Int) (h : |m| < 2 ^ 53) : toDouble (m : ℚ) = m := by
  by_cases hm : m = 0
  · simp [hm, toDouble]
  have hx : (m : ℚ) ≠ 0 := by exact_mod_cast hm
  have hpos : 0 < |(m : ℚ)| := abs_pos.2 hx
  have h1 : (1 : ℚ) ≤ |(m : ℚ)| := by
    have : 1 ≤ |m| := Int.one_le_abs hm
    exact_mod_cast this
  have h53 : |(m : ℚ)| < 2 ^ 53 := by exact_mod_cast h
  have e0 : 0 ≤ Int.log 2 |(m : ℚ)| :=
    (Int.zpow_le_iff_le_log (by norm_num) hpos).1 (by simpa using h1)
  have e53 : Int.log 2 |(m : ℚ)| < 53 :=
    (Int.lt_zpow_iff_log_lt (by norm_num) hpos).1 (by exact_mod_cast h53)
  obtain ⟨k, hk⟩ : ∃ k : ℕ, Int.log 2 |(m : ℚ)| - 52 = -(k : Int) :=
    ⟨(52 - Int.log 2 |(m : ℚ)|).toNat, by omega⟩
  unfold toDouble
  simp only [if_neg hx, hk, zpow_neg, zpow_natCast]
  have hq : (m : ℚ) / (2 ^ k)⁻¹ = ((m * 2 ^ k : Int) : ℚ) := by
    push_cast
    field_simp
  rw [hq, roundHalfEven_intCast]
  push_cast
  field_simp

/-- Below `2 ^ 44` in magnitude the doubles are at most `2 ^ -9` apart, so
rounding moves a value by at most `2 ^ -10`. -/
theorem abs_toDouble_sub_le (x : ℚ) (hx : |x| < 2 ^ 44) : |toDouble x - x| ≤ 1 / 1024 := by
  by_cases h0 : x = 0
  · simp [h0, toDouble]
  have hpos : 0 < |x| := abs_pos.2 h0
  have e44 : Int.log 2 |x| < 44 :=
    (Int.lt_zpow_iff_log_lt (by norm_num) hpos).1 (by exact_mod_cast hx)
  have hu : (0 : ℚ) < 2 ^ (Int.log 2 |x| - 52) := by positivity
  have hule : (2 : ℚ) ^ (Int.log 2 |x| - 52) ≤ 2 ^ (-9 : Int) :=
    zpow_le_zpow_right₀ (by norm_num) (by omega)
  unfold toDouble
  simp only [if_neg h0]
  have key : (roundHalfEven (x / 2 ^ (Int.log 2 |x| - 52)) : ℚ) * 2 ^ (Int.log 2 |x| - 52) - x =
      ((roundHalfEven (x / 2 ^ (Int.log 2 |x| - 52)) : ℚ) - x / 2 ^ (Int.log 2 |x| - 52)) *
        2 ^ (Int.log 2 |x| - 52) := by
    field_simp
  rw [key, abs_mul, abs_of_pos hu]
  calc |(roundHalfEven (x / 2 ^ (Int.log 2 |x| - 52)) : ℚ) - x / 2 ^ (Int.log 2 |x| - 52)| *
        2 ^ (Int.log 2 |x| - 52)
      ≤ 1 / 2 * 2 ^ (-9 : Int) :=
        mul_le_mul (abs_roundHalfEven_sub_le _) hule hu.le (by norm_num)
    _ = 1 / 1024 := by norm_num

/-- For an integer `n` of magnitude at most `2 ^ 53` the rounded quotient
`n / 1000` has the floor of the exact quotient: an exact quotient that is an
integer is a double, and any other is at least `1 / 1000` away from the
integers around it, more than the rounding moves it. -/
theorem floor_toDouble_div_thousand (n : Int) (h : |n| ≤ 2 ^ 53) :
    ⌊toDouble ((n : ℚ) / 1000)⌋ = n / 1000 := by
  have hb : -9007199254740992 ≤ n ∧ n ≤ 9007199254740992 := by
    have := abs_le.1 h
    norm_num at this
    exact this
  have hdm := Int.emod_add_ediv n 1000
  have hr0 := Int.emod_nonneg n (by norm_num : (1000 : Int) ≠ 0)
  have hr1 := Int.emod_lt_of_pos n (by norm_num : (0 : Int) < 1000)
  have hx : (n : ℚ) / 1000 = (n / 1000 : Int) + (n % 1000 : Int) / 1000 := by
    have : (n : ℚ) = ((n % 1000 + 1000 * (n / 1000) : Int) : ℚ) := by rw [hdm]
    rw [this]
    push_cast
    field_simp
    ring
  by_cases hr : n % 1000 = 0
  · have hk : |n / 1000| < 2 ^ 53 := by
      rw [abs_lt]
      norm_num
      omega
    rw [hx, hr]
    simp only [Int.cast_zero, zero_div, add_zero]
    rw [toDouble_intCast _ hk, Int.floor_intCast]
  · have habs : |(n : ℚ) / 1000| < 2 ^ 44 := by
      rw [abs_lt]
      have h1 : (-9007199254740992 : ℚ) ≤ n := by exact_mod_cast hb.1
      have h2 : (n : ℚ) ≤ 9007199254740992 := by exact_mod_cast hb.2
      constructor
      · rw [lt_div_iff₀ (by norm_num)]
        norm_num
        linarith
      · rw [div_lt_iff₀ (by norm_num)]
        norm_num
        linarith
    have herr := abs_le.1 (abs_toDouble_sub_le _ habs)
    have hr2 : (1 : ℚ) ≤ ((n % 1000 : Int) : ℚ) := by
      have : 1 ≤ n % 1000 := by omega
      exact_mod_cast this
    have hr3 : ((n % 1000 : Int) : ℚ) ≤ 999 := by
      have : n % 1000 ≤ 999 := by omega
      exact_mod_cast this
    rw [Int.floor_eq_iff]
    constructor
    · have : (n / 1000 : Int) + (1 : ℚ) / 1000 ≤ (n : ℚ) / 1000 := by
        rw [hx]
        have : (1 : ℚ) / 1000 ≤ ((n % 1000 : Int) : ℚ) / 1000 := by
          apply div_le_div_of_nonneg_right hr2 (by norm_num)
        linarith
      linarith [herr.1]
    · have : (n : ℚ) / 1000 ≤ (n / 1000 : Int) + (999 : ℚ) / 1000 := by
        rw [hx]
        have : ((n % 1000 : Int) : ℚ) / 1000 ≤ (999 : ℚ) / 1000 := by
          apply div_le_div_of_nonneg_right hr3 (by norm_num)
        linarith
      linarith [herr.2]

/-- For an integer crowd size of magnitude at most `2 ^ 53` and a base radius
between 0 and 24 the sum computed in doubles is the integer that exact
arithmetic gives. -/
theorem crowdRadiusDouble_exact (base n : Int) (hb : 0 ≤ base ∧ base ≤ 24)
    (hn : |n| ≤ 2 ^ 53) :
    toDouble ((base : ℚ) + crowdBonusDouble n) = ((base + crowdBonus n : Int) : ℚ) := by
  have hb2 : -9007199254740992 ≤ n ∧ n ≤ 9007199254740992 := by
    have := abs_le.1 hn
    norm_num at this
    exact this
  have hm : |base + min (n / 1000) 8| < 2 ^ 53 := by
    rw [abs_lt]
    norm_num
    omega
  unfold crowdBonusDouble crowdBonus
  rw [floor_toDouble_div_thousand n hn]
  have : (base : ℚ) + min ((n / 1000 : Int) : ℚ) 8 = ((base + min (n / 1000) 8 : Int) : ℚ) := by
    push_cast
    rfl
  rw [this, toDouble_intCast _ hm]

/-- From 8000 people on the bonus computed in doubles is the cap 8, however
large the size. -/
theorem crowdBonusDouble_large (x : ℚ) (hx : 8000 ≤ x) : crowdBonusDouble x = 8 := by
  have hy : (8 : ℚ) ≤ x / 1000 := by
    rw [le_div_iff₀ (by norm_num)]
    linarith
  have hy0 : x / 1000 ≠ 0 := by
    intro h
    rw [h] at hy
    norm_num at hy
  have hpos : 0 < |x / 1000| := abs_pos.2 hy0
  have habs : |x / 1000| = x / 1000 := abs_of_pos (by linarith)
  have he : 3 ≤ Int.log 2 |x / 1000| :=
    (Int.zpow_le_iff_le_log (by norm_num) hpos).1 (by rw [habs]; norm_num; exact hy)
  have hlow : (2 : ℚ) ^ Int.log 2 |x / 1000| ≤ x / 1000 := by
    have h := Int.zpow_log_le_self (by norm_num : 1 < 2) hpos
    have h' : (2 : ℚ) ^ Int.log 2 |x / 1000| ≤ |x / 1000| := by exact_mod_cast h
    exact h'.trans habs.le
  have hu : (0 : ℚ) < 2 ^ (Int.log 2 |x / 1000| - 52) := by positivity
  have hm : ((2 ^ 52 : Int) : ℚ) * 2 ^ (Int.log 2 |x / 1000| - 52) =
      2 ^ Int.log 2 |x / 1000| := by
    rw [zpow_sub₀ (by norm_num)]
    push_cast
    rw [zpow_ofNat]
    field_simp
    ring
  have hq : ((2 ^ 52 : Int) : ℚ) ≤ x / 1000 / 2 ^ (Int.log 2 |x / 1000| - 52) := by
    rw [le_div_iff₀ hu, hm]
    exact hlow
  have hr : (2 ^ 52 : Int) ≤ roundHalfEven (x / 1000 / 2 ^ (Int.log 2 |x / 1000| - 52)) :=
    le_trans (Int.le_floor.2 hq) (floor_le_roundHalfEven _)
  have h8 : (8 : ℚ) ≤ toDouble (x / 1000) := by
    unfold toDouble
    simp only [if_neg hy0]
    have h3 : (8 : ℚ) ≤ 2 ^ Int.log 2 |x / 1000| := by
      have : (2 : ℚ) ^ (3 : Int) ≤ 2 ^ Int.log 2 |x / 1000| :=
        zpow_le_zpow_right₀ (by norm_num) he
      norm_num at this
      exact this
    have hr' : ((2 ^ 52 : Int) : ℚ) ≤
        (roundHalfEven (x / 1000 / 2 ^ (Int.log 2 |x / 1000| - 52)) : ℚ) := by
      exact_mod_cast hr
    calc (8 : ℚ) ≤ 2 ^ Int.log 2 |x / 1000| := h3
      _ = ((2 ^ 52 : Int) : ℚ) * 2 ^ (Int.log 2 |x / 1000| - 52) := hm.symm
      _ ≤ _ := mul_le_mul_of_nonneg_right hr' hu.le
  have hf : (8 : ℚ) ≤ (⌊toDouble (x / 1000)⌋ : ℚ) := by
    have : (8 : Int) ≤ ⌊toDouble (x / 1000)⌋ := Int.le_floor.2 (by exact_mod_cast h8)
    exact_mod_cast this
  unfold crowdBonusDouble
  exact min_eq_right hf

/-- For a density with an own entry in the style table and an integer crowd
size of magnitude at most `2 ^ 53`, the radius computed in doubles is the
radius of the integer model. -/
theorem getCrowdStyleDouble_radius_own (density : String) (e : CrowdStyleEntry) (n : Int)
    (he : crowdStyles.lookup density = some e) (hn : |n| ≤ 2 ^ 53) :
    (getCrowdStyleDouble density n).radius = some ((e.baseRadius + crowdBonus n : Int) : ℚ) ∧
    (getCrowdStyle density n).radius = Num.int (e.baseRadius + crowdBonus n) := by
  have hb : 0 ≤ e.baseRadius ∧ e.baseRadius ≤ 24 := by
    simp only [crowdStyles, List.lookup] at he
    split at he
    · cases he; decide
    · split at he
      · cases he; decide
      · split at he
        · cases he; decide
        · split at he
          · cases he; decide
          · cases he
  constructor
  · unfold getCrowdStyleDouble getProperty
    simp only [he]
    rw [crowdRadiusDouble_exact _ _ hb hn]
  · unfold getCrowdStyle getProperty
    simp only [he]

/-- The quotient `-2 ^ 70 / 1000` in doubles: the exact quotient
-1180591620717411303.424 lies between `-2 ^ 61` and `-2 ^ 60`, where the
doubles are the multiples of 256. -/
theorem toDouble_huge_quotient :
    toDouble (-(2 : ℚ) ^ 70 / 1000) = -1180591620717411328 := by
  have hz : roundHalfEven (-(2 : ℚ) ^ 70 / 1000 / 2 ^ ((60 : Int) - 52)) =
      -4611686018427388 := by
    apply roundHalfEven_of_floor
    · rw [Int.floor_eq_iff]
      norm_num
    · norm_num
  have h1 : (2 : ℚ) ^ (60 : Int) ≤ |-(2 : ℚ) ^ 70 / 1000| := by
    rw [abs_of_neg (by norm_num)]
    norm_num
  have h2 : |-(2 : ℚ) ^ 70 / 1000| < 2 ^ ((60 : Int) + 1) := by
    rw [abs_of_neg (by norm_num)]
    norm_num
  rw [toDouble_of_exponent _ 60 _ h1 h2 hz]
  norm_num

/-- The sum `24 + -1180591620717411328` in doubles: the exact sum
-1180591620717411304 is not a multiple of 256 and rounds back to
-1180591620717411328. -/
theorem toDouble_huge_sum :
    toDouble (-1180591620717411304) = -1180591620717411328 := by
  have hz : roundHalfEven ((-1180591620717411304 : ℚ) / 2 ^ ((60 : Int) - 52)) =
      -4611686018427388 := by
    apply roundHalfEven_of_floor
    · rw [Int.floor_eq_iff]
      norm_num
    · norm_num
  have h1 : (2 : ℚ) ^ (60 : Int) ≤ |(-1180591620717411304 : ℚ)| := by
    rw [abs_of_neg (by norm_num)]
    norm_num
  have h2 : |(-1180591620717411304 : ℚ)| < 2 ^ ((60 : Int) + 1) := by
    rw [abs_of_neg (by norm_num)]
    norm_num
  rw [toDouble_of_exponent _ 60 _ h1 h2 hz]
  norm_num

/-- The number `-2 ^ 70` is a double. -/
theorem toDouble_huge_input : toDouble (-(2 : ℚ) ^ 70) = -(2 : ℚ) ^ 70 := by
  have hz : roundHalfEven (-(2 : ℚ) ^ 70 / 2 ^ ((70 : Int) - 52)) = -4503599627370496 := by
    apply roundHalfEven_of_floor
    · rw [Int.floor_eq_iff]
      norm_num
    · norm_num
  have h1 : (2 : ℚ) ^ (70 : Int) ≤ |-(2 : ℚ) ^ 70| := by
    rw [abs_of_neg (by norm_num)]
    norm_num
  have h2 : |-(2 : ℚ) ^ 70| < 2 ^ ((70 : Int) + 1) := by
    rw [abs_of_neg (by norm_num)]
    norm_num
  rw [toDouble_of_exponent _ 70 _ h1 h2 hz]
  norm_num

/-- The radius of a critical crowd of size `-2 ^ 70`, computed in doubles. -/
theorem getCrowdStyleDouble_huge :
    (getCrowdStyleDouble "critical" (-(2 : ℚ) ^ 70)).radius = some (-1180591620717411328) := by
  have hb : crowdBonusDouble (-(2 : ℚ) ^ 70) = -1180591620717411328 := by
    unfold crowdBonusDouble
    rw [toDouble_huge_quotient]
    have : ⌊(-1180591620717411328 : ℚ)⌋ = -1180591620717411328 := by
      rw [Int.floor_eq_iff]
      norm_num
    rw [this]
    norm_num
  show some (toDouble (((24 : Int) : ℚ) + crowdBonusDouble (-(2 : ℚ) ^ 70))) = _
  rw [hb]
  norm_num
  exact toDouble_huge_sum

/-- C3 (counterexample): the integer `-2 ^ 70` is a double, and for a critical
crowd of that size the code, computing in doubles, returns the radius
-1180591620717411328, while `24 + min(floor(n / 1000), 8)` is
-1180591620717411280: the quotient `n / 1000` and the sum `24 + bonus` are each
rounded to a multiple of 256. -/
theorem getCrowdStyleDouble_radius_rounded :
    toDouble (-(2 : ℚ) ^ 70) = -(2 : ℚ) ^ 70 ∧
    (getCrowdStyleDouble "critical" (-(2 : ℚ) ^ 70)).radius = some (-1180591620717411328) ∧
    (24 : ℚ) + min (⌊-(2 : ℚ) ^ 70 / 1000⌋ : ℚ) 8 = -1180591620717411280 ∧
    (getCrowdStyleDouble "critical" (-(2 : ℚ) ^ 70)).radius ≠
      some (24 + min (⌊-(2 : ℚ) ^ 70 / 1000⌋ : ℚ) 8) := by
  have hf : ⌊-(2 : ℚ) ^ 70 / 1000⌋ = -1180591620717411304 := by
    rw [Int.floor_eq_iff]
    norm_num
  refine ⟨toDouble_huge_input, getCrowdStyleDouble_huge, ?_, ?_⟩
  · rw [hf]
    norm_num
  · rw [getCrowdStyleDouble_huge, hf]
    norm_num

/-- C3 (amended): for each of the four density categories and every integer
crowd size `n` with `|n| ≤ 2 ^ 53`, the radius the code computes in doubles is
the category's base radius (24, 20, 16, 12) plus `min(floor(n / 1000), 8)`, and
the integer model gives the same radius; critical with 28000 people gives 32
and high with 1200 people gives 21. -/
theorem getCrowdStyle_radius (n : Int) (hn : |n| ≤ 2 ^ 53) :
    (getCrowdStyleDouble "critical" n).radius = some (24 + min (⌊(n : ℚ) / 1000⌋ : ℚ) 8) ∧
    (getCrowdStyleDouble "high" n).radius = some (20 + min (⌊(n : ℚ) / 1000⌋ : ℚ) 8) ∧
    (getCrowdStyleDouble "moderate" n).radius = some (16 + min (⌊(n : ℚ) / 1000⌋ : ℚ) 8) ∧
    (getCrowdStyleDouble "low" n).radius = some (12 + min (⌊(n : ℚ) / 1000⌋ : ℚ) 8) ∧
    (getCrowdStyle "critical" n).radius = Num.int (24 + min ⌊(n : ℚ) / 1000⌋ 8) ∧
    (getCrowdStyle "high" n).radius = Num.int (20 + min ⌊(n : ℚ) / 1000⌋ 8) ∧
    (getCrowdStyle "moderate" n).radius = Num.int (16 + min ⌊(n : ℚ) / 1000⌋ 8) ∧
    (getCrowdStyle "low" n).radius = Num.int (12 + min ⌊(n : ℚ) / 1000⌋ 8) ∧
    (getCrowdStyleDouble "critical" 28000).radius = some 32 ∧
    (getCrowdStyleDouble "high" 1200).radius = some 21 ∧
    (getCrowdStyle "critical" 28000).radius = Num.int 32 ∧
    (getCrowdStyle "high" 1200).radius = Num.int 21 := by
  have key : ∀ (d : String) (e : CrowdStyleEntry), crowdStyles.lookup d = some e →
      (getCrowdStyleDouble d n).radius =
        some ((e.baseRadius : ℚ) + min (⌊(n : ℚ) / 1000⌋ : ℚ) 8) := by
    intro d e he
    rw [(getCrowdStyleDouble_radius_own d e n he hn).1, crowdBonus, ediv_thousand_eq_floor]
    push_cast
    rfl
  have e1 := (getCrowdStyleDouble_radius_own "critical" _ 28000 rfl (by norm_num)).1
  have e2 := (getCrowdStyleDouble_radius_own "high" _ 1200 rfl (by norm_num)).1
  have hi : ∀ b : Int, Num.int (b + min (n / 1000) 8) = Num.int (b + min ⌊(n : ℚ) / 1000⌋ 8) := by
    intro b
    rw [← ediv_thousand_eq_floor]
  refine ⟨?_, ?_, ?_, ?_, hi 24, hi 20, hi 16, hi 12, ?_, ?_, by decide, by decide⟩
  · simpa using key "critical" _ rfl
  · simpa using key "high" _ rfl
  · simpa using key "moderate" _ rfl
  · simpa using key "low" _ rfl
  · rw [show (28000 : ℚ) = ((28000 : Int) : ℚ) by norm_num, e1]
    decide
  · rw [show (1200 : ℚ) = ((1200 : Int) : ℚ) by norm_num, e2]
    decide

/-- Witness for C3 (amended): a critical crowd of 28000 people. -/
theorem getCrowdStyle_radius_witness :
    |(28000 : Int)| ≤ 2 ^ 53 ∧
    (getCrowdStyleDouble "critical" ((28000 : Int) : ℚ)).radius =
      some (24 + min (⌊((28000 : Int) : ℚ) / 1000⌋ : ℚ) 8) ∧
    (getCrowdStyle "critical" 28000).radius =
      Num.int (24 + min ⌊((28000 : Int) : ℚ) / 1000⌋ 8) :=
  ⟨by decide, (getCrowdStyle_radius 28000 (by decide)).1,
    (getCrowdStyle_radius 28000 (by decide)).2.2.2.2.1⟩

/-- C4: for every density category and every crowd size `n ≥ 0` the radius lies
between the category's base radius and that base plus 8, hence between 12 and
32. -/
theorem getCrowdStyle_radius_bounds (density : String) (n : Int)
    (hd : density ∈ densityCategories) (hn : 0 ≤ n) :
    ∃ (e : CrowdStyleEntry) (r : Int),
      crowdStyles.lookup density = some e ∧
      (getCrowdStyle density n).radius = Num.int r ∧
      e.baseRadius ≤ r ∧ r ≤ e.baseRadius + 8 ∧ 12 ≤ r ∧ r ≤ 32 := by
  have hb : 0 ≤ crowdBonus n ∧ crowdBonus n ≤ 8 := by
    unfold crowdBonus
    have : 0 ≤ n / 1000 := Int.ediv_nonneg hn (by decide)
    omega
  simp only [densityCategories, List.mem_cons, List.mem_singleton, List.mem_nil_iff,
    or_false] at hd
  rcases hd with rfl | rfl | rfl | rfl
  · exact ⟨_, 24 + crowdBonus n, rfl, rfl, by simp; omega, by simp; omega, by omega, by omega⟩
  · exact ⟨_, 20 + crowdBonus n, rfl, rfl, by simp; omega, by simp; omega, by omega, by omega⟩
  · exact ⟨_, 16 + crowdBonus n, rfl, rfl, by simp; omega, by simp; omega, by omega, by omega⟩
  · exact ⟨_, 12 + crowdBonus n, rfl, rfl, by simp; omega, by simp; omega, by omega, by omega⟩

/-- Witness for C4: a critical crowd of 28000 people. -/
theorem getCrowdStyle_radius_bounds_witness :
    ∃ (e : CrowdStyleEntry) (r : Int),
      crowdStyles.lookup "critical" = some e ∧
      (getCrowdStyle "critical" 28000).radius = Num.int r ∧
      e.baseRadius ≤ r ∧ r ≤ e.baseRadius + 8 ∧ 12 ≤ r ∧ r ≤ 32 :=
  getCrowdStyle_radius_bounds "critical" 28000 (by decide) (by decide)

/-! ### The crowd panel comparator -/

/-- A risk level that does not name a member of `Object.prototype` gets the
specified rank. -/
theorem riskOrder_rank (level : String) (h : level ∉ objectPrototypeKeys) :
    getPropertyOr riskOrder level 5 = Member.value (specRiskRank level) := by
  by_cases h1 : level = "critical"
  · subst h1; rfl
  by_cases h2 : level = "high"
  · subst h2; rfl
  by_cases h3 : level = "moderate"
  · subst h3; rfl
  by_cases h4 : level = "low"
  · subst h4; rfl
  by_cases h5 : level = "safe"
  · subst h5; rfl
  have b1 : (level == "critical") = false := by simpa using h1
  have b2 : (level == "high") = false := by simpa using h2
  have b3 : (level == "moderate") = false := by simpa using h3
  have b4 : (level == "low") = false := by simpa using h4
  have b5 : (level == "safe") = false := by simpa using h5
  simp [getPropertyOr, getProperty, riskOrder, List.lookup, b1, b2, b3, b4, b5, h,
    specRiskRank, h1, h2, h3, h4, h5]

/-- The comparator on two features whose risk levels do not name members of
`Object.prototype`: the rank difference, else the anomaly flag, else the size
difference. -/
theorem crowdCompare_plain (a b : CrowdFeature)
    (ha : a.properties.risk_level ∉ objectPrototypeKeys)
    (hb : b.properties.risk_level ∉ objectPrototypeKeys) :
    crowdCompare a b = Num.int
      (if specRiskRank a.properties.risk_level ≠ specRiskRank b.properties.risk_level then
        specRiskRank a.properties.risk_level - specRiskRank b.properties.risk_level
      else if b.properties.is_anomalous ≠ a.properties.is_anomalous then
        (if b.properties.is_anomalous then 1 else -1)
      else b.properties.estimated_crowd_size - a.properties.estimated_crowd_size) := by
  unfold crowdCompare
  simp only [riskOrder_rank _ ha, riskOrder_rank _ hb]
  by_cases hr : specRiskRank a.properties.risk_level = specRiskRank b.properties.risk_level
  · simp only [hr, ne_eq, not_true_eq_false, if_false]
    split_ifs <;> rfl
  · have hm : Member.value (specRiskRank a.properties.risk_level) ≠
        Member.value (specRiskRank b.properties.risk_level) := by
      intro h
      exact hr (Member.value.inj h)
    simp only [hm, hr, ne_eq, not_false_eq_true, if_true, rankSub]

/-- The three-level comparison is antisymmetric. -/
theorem lex_antisymm (ra rb na nb : Int) (fa fb : Bool) :
    (if rb ≠ ra then rb - ra
      else if fa ≠ fb then (if fa then (1 : Int) else -1) else na - nb) =
    - (if ra ≠ rb then ra - rb
      else if fb ≠ fa then (if fb then (1 : Int) else -1) else nb - na) := by
  by_cases h : ra = rb
  · subst h
    cases fa <;> cases fb <;> simp
  · have h2 : rb ≠ ra := fun e => h e.symm
    simp [h, h2]

/-- The three-level comparison is transitive. -/
theorem lex_trans (ra rb rc na nb nc : Int) (fa fb fc : Bool)
    (h1 : (if ra ≠ rb then ra - rb
      else if fb ≠ fa then (if fb then (1 : Int) else -1) else nb - na) ≤ 0)
    (h2 : (if rb ≠ rc then rb - rc
      else if fc ≠ fb then (if fc then (1 : Int) else -1) else nc - nb) ≤ 0) :
    (if ra ≠ rc then ra - rc
      else if fc ≠ fa then (if fc then (1 : Int) else -1) else nc - na) ≤ 0 := by
  cases fa <;> cases fb <;> cases fc <;> simp at h1 h2 ⊢ <;>
    split_ifs at h1 h2 ⊢ <;> omega

/-- The three-level comparison is zero exactly on equal keys. -/
theorem lex_eq_zero (ra rb na nb : Int) (fa fb : Bool) :
    (if ra ≠ rb then ra - rb
      else if fb ≠ fa then (if fb then (1 : Int) else -1) else nb - na) = 0 ↔
    ra = rb ∧ fa = fb ∧ na = nb := by
  by_cases h : ra = rb
  · subst h
    cases fa <;> cases fb <;> simp <;> omega
  · simp [h]
    omega

/-- On features whose risk levels do not name members of `Object.prototype`
the comparator is antisymmetric and transitive, and it is zero exactly on equal
rank, equal anomaly flag and equal crowd size. -/
theorem crowdCompare_total_order (a b c : CrowdFeature)
    (ha : a.properties.risk_level ∉ objectPrototypeKeys)
    (hb : b.properties.risk_level ∉ objectPrototypeKeys)
    (hc : c.properties.risk_level ∉ objectPrototypeKeys) :
    sortCompare crowdCompare b a = - sortCompare crowdCompare a b ∧
    (sortCompare crowdCompare a b ≤ 0 → sortCompare crowdCompare b c ≤ 0 →
      sortCompare crowdCompare a c ≤ 0) ∧
    (sortCompare crowdCompare a b = 0 ↔
      specRiskRank a.properties.risk_level = specRiskRank b.properties.risk_level ∧
      a.properties.is_anomalous = b.properties.is_anomalous ∧
      a.properties.estimated_crowd_size = b.properties.estimated_crowd_size) := by
  simp only [sortCompare, crowdCompare_plain a b ha hb, crowdCompare_plain b a hb ha,
    crowdCompare_plain b c hb hc, crowdCompare_plain a c ha hc]
  exact ⟨lex_antisymm _ _ _ _ _ _, lex_trans _ _ _ _ _ _ _ _ _, lex_eq_zero _ _ _ _ _ _⟩

/-- C5 (the code at the failing input): two features with risk levels
`constructor` and `toString` have the same risk rank 5, the same anomaly flag
and the same crowd size, yet the comparator does not return 0 for them: the two
lookups give two different inherited functions and their difference is `NaN`.
Likewise a `constructor` feature and a `critical` one compare as `NaN` in both
directions, so neither is at or before the other. -/
theorem crowdCompare_inherited_nan :
    specRiskRank "constructor" = specRiskRank "toString" ∧
    crowdCompare (sampleCrowd "constructor" false 10) (sampleCrowd "toString" false 10)
      = Num.nan ∧
    crowdCompare (sampleCrowd "constructor" false 10) (sampleCrowd "critical" false 10)
      = Num.nan ∧
    crowdCompare (sampleCrowd "critical" false 10) (sampleCrowd "constructor" false 10)
      = Num.nan := by
  decide

/-! ### The crowd panel order -/

/-- On features whose risk levels do not name members of `Object.prototype`,
the comparator puts `a` at or before `b` exactly when the specified order
does. -/
theorem sortCompare_crowd_iff (a b : CrowdFeature)
    (ha : a.properties.risk_level ∉ objectPrototypeKeys)
    (hb : b.properties.risk_level ∉ objectPrototypeKeys) :
    sortCompare crowdCompare a b ≤ 0 ↔ specCrowdBefore a b := by
  simp only [sortCompare, crowdCompare_plain a b ha hb, specCrowdBefore]
  generalize specRiskRank a.properties.risk_level = ra
  generalize specRiskRank b.properties.risk_level = rb
  by_cases h : ra = rb
  · subst h
    cases a.properties.is_anomalous <;> cases b.properties.is_anomalous <;> simp
  · simp only [ne_eq, h, not_false_eq_true, if_true, false_and, or_false]
    omega

/-- The specified order is total. -/
theorem specCrowdBefore_total (a b : CrowdFeature) :
    specCrowdBefore a b ∨ specCrowdBefore b a := by
  unfold specCrowdBefore
  generalize specRiskRank a.properties.risk_level = ra
  generalize specRiskRank b.properties.risk_level = rb
  cases a.properties.is_anomalous <;> cases b.properties.is_anomalous <;> simp <;> omega

/-- The specified order is transitive. -/
theorem specCrowdBefore_trans (a b c : CrowdFeature) (h1 : specCrowdBefore a b)
    (h2 : specCrowdBefore b c) : specCrowdBefore a c := by
  unfold specCrowdBefore at *
  generalize specRiskRank a.properties.risk_level = ra at *
  generalize specRiskRank b.properties.risk_level = rb at *
  generalize specRiskRank c.properties.risk_level = rc at *
  revert h1 h2
  cases a.properties.is_anomalous <;> cases b.properties.is_anomalous <;>
    cases c.properties.is_anomalous <;> simp <;> omega

instance : IsTotal CrowdFeature specCrowdBefore := ⟨specCrowdBefore_total⟩

instance : IsTrans CrowdFeature specCrowdBefore := ⟨specCrowdBefore_trans⟩

/-- On a list of features whose risk levels do not name members of
`Object.prototype`, the sort of the crowd panel returns a permutation of the
list that is ordered by the specified order. -/
theorem jsSort_crowd_sorted (fs : List CrowdFeature)
    (h : ∀ f ∈ fs, f.properties.risk_level ∉ objectPrototypeKeys) :
    (jsSort crowdCompare fs).Perm fs ∧ (jsSort crowdCompare fs).Sorted specCrowdBefore := by
  refine ⟨List.perm_insertionSort _ _, ?_⟩
  have e := List.map_insertionSort (fun x y => sortCompare crowdCompare x y ≤ 0)
    specCrowdBefore id fs
    (fun a ha b hb => sortCompare_crowd_iff a b (h a ha) (h b hb))
  simp only [List.map_id] at e
  unfold jsSort
  rw [e]
  exact List.sorted_insertionSort _ _

/-- Every feature with a geometry gets its template instance, in order. -/
theorem mapM_crowdItemOf (fs : List CrowdFeature) (h : ∀ f ∈ fs, f.geometry ≠ none) :
    ∃ items, fs.mapM crowdItemOf = Except.ok items ∧ items.map (fun i => i.feature) = fs := by
  induction fs with
  | nil => exact ⟨[], rfl, rfl⟩
  | cons f fs ih =>
    obtain ⟨items, hitems, hmap⟩ := ih (fun g hg => h g (List.mem_cons_of_mem _ hg))
    obtain ⟨g, hg⟩ := Option.ne_none_iff_exists'.mp (h f (List.mem_cons_self _ _))
    refine ⟨{ feature := f, lat := g.lat, lng := g.lng,
              color := getPropertyOr riskColors f.properties.risk_level "#FFA500" } :: items,
            ?_, ?_⟩
    · rw [List.mapM_cons, hitems]
      simp [crowdItemOf, coordinatesOf, hg, Except.map, bind, Except.bind, pure, Except.pure]
    · simp [hmap]

/-- On a page with a crowd panel, for a non-empty collection whose features all
have a geometry, `updateCrowdPanel` completes and lists the features in the
order its sort gives. -/
theorem updateCrowdPanel_lists_sorted (crowds : FeatureCollection CrowdProps) (dom : Dom)
    (fs : List CrowdFeature) (hfs : crowds.features = some fs) (hne : fs ≠ [])
    (hdom : dom.crowdListContainer ≠ none) (hgeo : ∀ f ∈ fs, f.geometry ≠ none) :
    (updateCrowdPanel crowds dom).error = none ∧
    panelFeatures (updateCrowdPanel crowds dom).state = jsSort crowdCompare fs := by
  obtain ⟨c, hc⟩ := Option.ne_none_iff_exists'.mp hdom
  have hsorted : ∀ f ∈ jsSort crowdCompare fs, f.geometry ≠ none := by
    intro f hf
    exact hgeo f ((List.perm_insertionSort _ fs).mem_iff.mp hf)
  obtain ⟨items, hitems, hmap⟩ := mapM_crowdItemOf _ hsorted
  have hlen : fs.length ≠ 0 := by
    intro h0
    exact hne (List.length_eq_zero.mp h0)
  unfold updateCrowdPanel
  simp only [hc, hfs, Option.getD_some, hlen, if_false, hitems]
  cases hcount : dom.crowdCount with
  | none => simp [Outcome.done, panelFeatures, hmap]
  | some badge => simp [Outcome.done, panelFeatures, hmap]

/-- On a page with a crowd panel, for a non-empty collection whose features all
have a geometry and a risk level that does not name a member of
`Object.prototype`, the panel lists a permutation of the features in the
specified order. -/
theorem updateCrowdPanel_plain_order (crowds : FeatureCollection CrowdProps) (dom : Dom)
    (fs : List CrowdFeature) (hfs : crowds.features = some fs) (hne : fs ≠ [])
    (hdom : dom.crowdListContainer ≠ none) (hgeo : ∀ f ∈ fs, f.geometry ≠ none)
    (hplain : ∀ f ∈ fs, f.properties.risk_level ∉ objectPrototypeKeys) :
    (panelFeatures (updateCrowdPanel crowds dom).state).Perm fs ∧
    (panelFeatures (updateCrowdPanel crowds dom).state).Sorted specCrowdBefore := by
  rw [(updateCrowdPanel_lists_sorted crowds dom fs hfs hne hdom hgeo).2]
  exact jsSort_crowd_sorted fs hplain

/-- C6 (the code at the failing input): for the mock crowds the panel lists
Chandni Chowk, Nehru Stadium, Connaught Place, India Gate Lawns, Dwarka; but
for a collection of a `constructor` feature followed by a `critical` one the
panel keeps the `constructor` feature on top, although the specified order
puts the critical one strictly first. -/
theorem updateCrowdPanel_order :
    (panelFeatures (updateCrowdPanel (EmergencyMap.getMockCrowds 0) samplePage).state).map
        (fun f => f.properties.address) =
      ["Chandni Chowk, Delhi", "Nehru Stadium, Delhi", "Connaught Place, Delhi",
       "India Gate Lawns, Delhi", "Dwarka Sector 10 Ground"] ∧
    (panelFeatures (updateCrowdPanel
        { features := some [sampleCrowd "constructor" false 10, sampleCrowd "critical" false 10] }
        samplePage).state).map (fun f => f.properties.risk_level) =
      ["constructor", "critical"] ∧
    specCrowdBefore (sampleCrowd "critical" false 10) (sampleCrowd "constructor" false 10) ∧
    ¬ specCrowdBefore (sampleCrowd "constructor" false 10) (sampleCrowd "critical" false 10) := by
  decide

/-! ### Empty collections -/

/-- C7: on a page that has the three containers, a collection with zero
features or with no `features` field makes `updateIncidentList`,
`updateResourceTable` and `updateCrowdPanel` complete without an exception and
leaves the placeholder (`No active incidents`, `No resources available`,
`No crowd detections`) as the content of the container. -/
theorem placeholders_when_empty (dom : Dom)
    (incidents : FeatureCollection IncidentProps)
    (resources : FeatureCollection ResourceProps)
    (crowds : FeatureCollection CrowdProps)
    (hi : incidents.features = none ∨ incidents.features = some [])
    (hr : resources.features = none ∨ resources.features = some [])
    (hc : crowds.features = none ∨ crowds.features = some [])
    (hdi : dom.incidentListContainer ≠ none)
    (hdr : dom.resourceTableBody ≠ none)
    (hdc : dom.crowdListContainer ≠ none) :
    ((updateIncidentList incidents dom).error = none ∧
      (updateIncidentList incidents dom).state.incidentListContainer =
        some (Html.raw "<p class=\"text-muted text-center\">No active incidents</p>")) ∧
    ((updateResourceTable resources dom).error = none ∧
      (updateResourceTable resources dom).state.resourceTableBody =
        some (Html.raw
          "<tr><td colspan=\"5\" class=\"text-center text-muted\">No resources available</td></tr>")) ∧
    ((updateCrowdPanel crowds dom).error = none ∧
      (updateCrowdPanel crowds dom).state.crowdListContainer =
        some (Html.raw "<p class=\"text-muted text-center small\">No crowd detections</p>")) := by
  obtain ⟨ci, hci⟩ := Option.ne_none_iff_exists'.mp hdi
  obtain ⟨cr, hcr⟩ := Option.ne_none_iff_exists'.mp hdr
  obtain ⟨cc, hcc⟩ := Option.ne_none_iff_exists'.mp hdc
  refine ⟨?_, ?_, ?_⟩
  · rcases hi with h | h <;>
      simp [updateIncidentList, h, hci, Outcome.done, incidentPlaceholder]
  · rcases hr with h | h <;>
      simp [updateResourceTable, h, hcr, Outcome.done, resourcePlaceholder]
  · rcases hc with h | h <;>
      simp [updateCrowdPanel, h, hcc, Outcome.done, crowdPlaceholder]

/-- Witness for C7: the sample page, with an empty incident collection, a
resource collection without `features` and an empty crowd collection. -/
theorem placeholders_when_empty_witness :
    ((updateIncidentList { features := some [] } samplePage).error = none ∧
      (updateIncidentList { features := some [] } samplePage).state.incidentListContainer =
        some (Html.raw "<p class=\"text-muted text-center\">No active incidents</p>")) ∧
    ((updateResourceTable { features := none } samplePage).error = none ∧
      (updateResourceTable { features := none } samplePage).state.resourceTableBody =
        some (Html.raw
          "<tr><td colspan=\"5\" class=\"text-center text-muted\">No resources available</td></tr>")) ∧
    ((updateCrowdPanel { features := some [] } samplePage).error = none ∧
      (updateCrowdPanel { features := some [] } samplePage).state.crowdListContainer =
        some (Html.raw "<p class=\"text-muted text-center small\">No crowd detections</p>")) :=
  placeholders_when_empty samplePage { features := some [] } { features := none }
    { features := some [] } (Or.inr rfl) (Or.inl rfl) (Or.inr rfl)
    (by decide) (by decide) (by decide)

/-- C8: given a collection with zero features, `renderIncidents`,
`renderResources` and `renderCrowds` complete without an exception and leave
their overlay layer empty, whatever it held before; nothing else of the map
instance changes. -/
theorem render_empty_clears (m : EmergencyMap)
    (incidents : FeatureCollection IncidentProps)
    (resources : FeatureCollection ResourceProps)
    (crowds : FeatureCollection CrowdProps)
    (hi : incidents.features = some [])
    (hr : resources.features = some [])
    (hc : crowds.features = some []) :
    EmergencyMap.renderIncidents incidents m =
      { state := { m with incidentsLayer := [] }, error := none } ∧
    EmergencyMap.renderResources resources m =
      { state := { m with resourcesLayer := [] }, error := none } ∧
    EmergencyMap.renderCrowds crowds m =
      { state := { m with crowdLayer := [] }, error := none } := by
  refine ⟨?_, ?_, ?_⟩
  · simp [EmergencyMap.renderIncidents, hi, Outcome.done]
  · simp [EmergencyMap.renderResources, hr, Outcome.done]
  · simp [EmergencyMap.renderCrowds, hc, Outcome.done]

/-- Witness for C8: the sample map, whose three layers hold markers. -/
theorem render_empty_clears_witness :
    sampleMap.incidentsLayer ≠ [] ∧ sampleMap.resourcesLayer ≠ [] ∧
    sampleMap.crowdLayer ≠ [] ∧
    (EmergencyMap.renderIncidents { features := some [] } sampleMap =
      { state := { sampleMap with incidentsLayer := [] }, error := none } ∧
    EmergencyMap.renderResources { features := some [] } sampleMap =
      { state := { sampleMap with resourcesLayer := [] }, error := none } ∧
    EmergencyMap.renderCrowds { features := some [] } sampleMap =
      { state := { sampleMap with crowdLayer := [] }, error := none }) :=
  ⟨by simp [sampleMap], by simp [sampleMap], by simp [sampleMap],
   render_empty_clears sampleMap { features := some [] } { features := some [] }
    { features := some [] } rfl rfl rfl⟩

/-! ### The refresh cycle -/

/-- A property of the state that every iteration of a loop preserves holds
after the loop. -/
theorem forEachFrom_preserves {α σ : Type} (P : σ → Prop) (body : α → σ → Outcome σ)
    (hbody : ∀ x s, P s → P (body x s).state) :
    ∀ (xs : List α) (s : σ), P s → P (forEachFrom body xs s).state := by
  intro xs
  induction xs with
  | nil => intro s hs; exact hs
  | cons x xs ih =>
    intro s hs
    unfold forEachFrom
    split
    · exact ih _ (hbody x s hs)
    · exact hbody x s hs

/-- A property of the state that a step preserves survives sequencing. -/
theorem andThen_preserves {σ : Type} (P : σ → Prop) (r : Outcome σ) (f : σ → Outcome σ)
    (hr : P r.state) (hf : ∀ s, P s → P (f s).state) : P (r.andThen f).state := by
  unfold Outcome.andThen
  split
  · exact hf _ hr
  · exact hr

/-- The method `renderIncidents` does not change the stored collections. -/
theorem renderIncidents_stored (vi : List IncidentFeature) (vc : List CrowdFeature)
    (data : FeatureCollection IncidentProps) (m : EmergencyMap)
    (h : m.activeIncidents = vi ∧ m.activeCrowds = vc) :
    (EmergencyMap.renderIncidents data m).state.activeIncidents = vi ∧
    (EmergencyMap.renderIncidents data m).state.activeCrowds = vc := by
  unfold EmergencyMap.renderIncidents
  cases hf : data.features with
  | none => exact h
  | some fs =>
    simp only
    split
    · exact h
    · refine andThen_preserves
        (fun st : EmergencyMap => st.activeIncidents = vi ∧ st.activeCrowds = vc) _ _ ?_ ?_
      · refine forEachFrom_preserves
          (fun st : EmergencyMap => st.activeIncidents = vi ∧ st.activeCrowds = vc) _ ?_ _ _ h
        intro x s hs
        unfold EmergencyMap.addIncidentMarker
        split <;> exact hs
      · intro s hs
        split
        · split <;> exact hs
        · exact hs

/-- The method `renderResources` does not change the stored collections. -/
theorem renderResources_stored (vi : List IncidentFeature) (vc : List CrowdFeature)
    (data : FeatureCollection ResourceProps) (m : EmergencyMap)
    (h : m.activeIncidents = vi ∧ m.activeCrowds = vc) :
    (EmergencyMap.renderResources data m).state.activeIncidents = vi ∧
    (EmergencyMap.renderResources data m).state.activeCrowds = vc := by
  unfold EmergencyMap.renderResources
  cases hf : data.features with
  | none => exact h
  | some fs =>
    simp only
    split
    · exact h
    · refine forEachFrom_preserves
        (fun st : EmergencyMap => st.activeIncidents = vi ∧ st.activeCrowds = vc) _ ?_ _ _ h
      intro x s hs
      unfold EmergencyMap.addResourceMarker
      split <;> exact hs

/-- The method `renderCrowds` does not change the stored collections. -/
theorem renderCrowds_stored (vi : List IncidentFeature) (vc : List CrowdFeature)
    (data : FeatureCollection CrowdProps) (m : EmergencyMap)
    (h : m.activeIncidents = vi ∧ m.activeCrowds = vc) :
    (EmergencyMap.renderCrowds data m).state.activeIncidents = vi ∧
    (EmergencyMap.renderCrowds data m).state.activeCrowds = vc := by
  unfold EmergencyMap.renderCrowds
  cases hf : data.features with
  | none => exact h
  | some fs =>
    simp only
    split
    · exact h
    · refine forEachFrom_preserves
        (fun st : EmergencyMap => st.activeIncidents = vi ∧ st.activeCrowds = vc) _ ?_ _ _ h
      intro x s hs
      unfold EmergencyMap.addCrowdMarkers
      split <;> exact hs

/-- After the rendering part of a refresh cycle, whether or not it threw, the
map instance stores the features of the incident and crowd collections it was
given. -/
theorem renderCycle_stored (now : Int) (incidents : FeatureCollection IncidentProps)
    (resources : FeatureCollection ResourceProps) (crowds : FeatureCollection CrowdProps)
    (w : World) :
    (EmergencyMap.renderCycle now incidents resources crowds w).state.map.activeIncidents =
      incidents.features.getD [] ∧
    (EmergencyMap.renderCycle now incidents resources crowds w).state.map.activeCrowds =
      crowds.features.getD [] := by
  unfold EmergencyMap.renderCycle
  simp only
  refine andThen_preserves
    (fun st : World => st.map.activeIncidents = incidents.features.getD [] ∧
      st.map.activeCrowds = crowds.features.getD []) _ _ ?_ ?_
  · refine andThen_preserves
      (fun st : World => st.map.activeIncidents = incidents.features.getD [] ∧
        st.map.activeCrowds = crowds.features.getD []) _ _ ?_ (fun s hs => hs)
    refine andThen_preserves
      (fun st : World => st.map.activeIncidents = incidents.features.getD [] ∧
        st.map.activeCrowds = crowds.features.getD []) _ _ ?_ (fun s hs => hs)
    refine andThen_preserves
      (fun st : World => st.map.activeIncidents = incidents.features.getD [] ∧
        st.map.activeCrowds = crowds.features.getD []) _ _ ?_ (fun s hs => hs)
    refine andThen_preserves
      (fun st : World => st.map.activeIncidents = incidents.features.getD [] ∧
        st.map.activeCrowds = crowds.features.getD []) _ _ ?_
      (fun s hs => renderCrowds_stored _ _ crowds s.map hs)
    refine andThen_preserves
      (fun st : World => st.map.activeIncidents = incidents.features.getD [] ∧
        st.map.activeCrowds = crowds.features.getD []) _ _ ?_
      (fun s hs => renderResources_stored _ _ resources s.map hs)
    exact renderIncidents_stored _ _ incidents _ ⟨rfl, rfl⟩
  · intro s hs
    unfold EmergencyMap.summaryToast
    split <;> exact hs

/-- C9: for every combination of outcomes of the three requests, `loadData`
renders and lists three collections, one per dataset, each determined by the
outcome of its own request alone: the response body when the request resolved
with an OK status (and the body decoded), the mock collection of that dataset
when the request rejected or resolved with a non-OK status. The features of
the incident and crowd collections so chosen are what the map instance stores
afterwards. -/
theorem loadData_live_or_mock (now : Int)
    (oi : FetchOutcome (FeatureCollection IncidentProps))
    (ors : FetchOutcome (FeatureCollection ResourceProps))
    (oc : FetchOutcome (FeatureCollection CrowdProps)) (w : World) :
    EmergencyMap.loadData now oi ors oc w =
      EmergencyMap.recover
        (EmergencyMap.renderCycle now (EmergencyMap.fetchIncidents now oi)
          (EmergencyMap.fetchResources ors) (EmergencyMap.fetchCrowds now oc)
          (EmergencyMap.beginLoad w)) ∧
    (EmergencyMap.loadData now oi ors oc w).map.activeIncidents =
      (EmergencyMap.fetchIncidents now oi).features.getD [] ∧
    (EmergencyMap.loadData now oi ors oc w).map.activeCrowds =
      (EmergencyMap.fetchCrowds now oc).features.getD [] ∧
    (∀ body, oi = FetchOutcome.resolved true (some body) →
      EmergencyMap.fetchIncidents now oi = body) ∧
    ((oi = FetchOutcome.rejected ∨ ∃ json, oi = FetchOutcome.resolved false json) →
      EmergencyMap.fetchIncidents now oi = EmergencyMap.getMockIncidents now) ∧
    (∀ body, ors = FetchOutcome.resolved true (some body) →
      EmergencyMap.fetchResources ors = body) ∧
    ((ors = FetchOutcome.rejected ∨ ∃ json, ors = FetchOutcome.resolved false json) →
      EmergencyMap.fetchResources ors = EmergencyMap.getMockResources) ∧
    (∀ body, oc = FetchOutcome.resolved true (some body) →
      EmergencyMap.fetchCrowds now oc = body) ∧
    ((oc = FetchOutcome.rejected ∨ ∃ json, oc = FetchOutcome.resolved false json) →
      EmergencyMap.fetchCrowds now oc = EmergencyMap.getMockCrowds now) := by
  have hs := renderCycle_stored now (EmergencyMap.fetchIncidents now oi)
    (EmergencyMap.fetchResources ors) (EmergencyMap.fetchCrowds now oc)
    (EmergencyMap.beginLoad w)
  have hrec : ∀ r : Outcome World, (EmergencyMap.recover r).map = r.state.map := by
    intro r
    unfold EmergencyMap.recover
    split <;> rfl
  refine ⟨rfl, ?_, ?_, ?_, ?_, ?_, ?_, ?_, ?_⟩
  · unfold EmergencyMap.loadData
    rw [hrec]
    exact hs.1
  · unfold EmergencyMap.loadData
    rw [hrec]
    exact hs.2
  · rintro body rfl; rfl
  · rintro (rfl | ⟨json, rfl⟩) <;> rfl
  · rintro body rfl; rfl
  · rintro (rfl | ⟨json, rfl⟩) <;> rfl
  · rintro body rfl; rfl
  · rintro (rfl | ⟨json, rfl⟩) <;> rfl

/-- Witness for C9: the incidents request rejects, the resources request
resolves with an empty live collection, the crowd request resolves with a
non-OK status; the incidents and crowds stored are the mock ones and the
resources layer is rendered from the live body. -/
theorem loadData_live_or_mock_witness :
    EmergencyMap.fetchIncidents 0 FetchOutcome.rejected = EmergencyMap.getMockIncidents 0 ∧
    EmergencyMap.fetchResources (FetchOutcome.resolved true (some { features := some [] })) =
      { features := some [] } ∧
    EmergencyMap.fetchCrowds 0 (FetchOutcome.resolved false none) =
      EmergencyMap.getMockCrowds 0 :=
  ⟨(loadData_live_or_mock 0 FetchOutcome.rejected
      (FetchOutcome.resolved true (some { features := some [] }))
      (FetchOutcome.resolved false none) sampleWorld).2.2.2.2.1 (Or.inl rfl),
   (loadData_live_or_mock 0 FetchOutcome.rejected
      (FetchOutcome.resolved true (some { features := some [] }))
      (FetchOutcome.resolved false none) sampleWorld).2.2.2.2.2.1 _ rfl,
   (loadData_live_or_mock 0 FetchOutcome.rejected
      (FetchOutcome.resolved true (some { features := some [] }))
      (FetchOutcome.resolved false none) sampleWorld).2.2.2.2.2.2.2.2 (Or.inr ⟨none, rfl⟩)⟩

/-! ### Report submission -/

/-- C10: when the emergency-type field is empty, `submitReport` shows the error
toast `Please select emergency type` and does nothing else, whatever the other
fields hold and whatever the network would answer: no request is issued, the
report modal is not hidden and no refresh is started. -/
theorem submitReport_empty_type (b : Builtins) (mockId : Nat) (post : FetchOutcome Unit)
    (w : World) (h : w.dom.form.emergencyType = "") :
    submitReport b mockId post w =
      { w with dom :=
          { w.dom with toasts :=
              w.dom.toasts ++ [{ message := "Please select emergency type", type := "error" }] } } ∧
    (submitReport b mockId post w).requests = w.requests ∧
    (submitReport b mockId post w).dom.reportModalShown = w.dom.reportModalShown ∧
    (submitReport b mockId post w).map = w.map ∧
    (submitReport b mockId post w).refreshesStarted = w.refreshesStarted := by
  simp [submitReport, h, showToast]

/-- Witness for C10: the sample state, whose form has every field but the
emergency type filled in, with a request that would succeed. -/
theorem submitReport_empty_type_witness :
    sampleWorld.dom.form.emergencyType = "" ∧
    (submitReport sampleBuiltins 7 (FetchOutcome.resolved true (some ())) sampleWorld).dom.toasts =
      [{ message := "Please select emergency type", type := "error" }] ∧
    (submitReport sampleBuiltins 7 (FetchOutcome.resolved true (some ())) sampleWorld).requests =
      [] :=
  ⟨rfl,
   by
    rw [(submitReport_empty_type sampleBuiltins 7 (FetchOutcome.resolved true (some ()))
      sampleWorld rfl).1]
    rfl,
   (submitReport_empty_type sampleBuiltins 7 (FetchOutcome.resolved true (some ()))
      sampleWorld rfl).2.1⟩

/-! ### The transient marker -/

/-- Under the invariant, `addTempMarker` leaves exactly the new marker on the
map, and holds it. -/
theorem addTempMarker_single (lat lng : Rat) (m : EmergencyMap) (h : markerInvariant m) :
    (EmergencyMap.addTempMarker lat lng m).mapLayers = [MapLayer.tempMarker lat lng] ∧
    (EmergencyMap.addTempMarker lat lng m).tempMarker = some (MapLayer.tempMarker lat lng) := by
  rcases h with h | ⟨t, h, ht⟩
  · cases hm : m.tempMarker <;> simp [EmergencyMap.addTempMarker, h, hm]
  · simp [EmergencyMap.addTempMarker, h, ht]

/-- Every call preserves the invariant of the transient marker. -/
theorem apply_markerInvariant (a : MarkerAction) (w : World) (h : markerInvariant w.map) :
    markerInvariant (a.apply w).map := by
  cases a with
  | addTempMarker lat lng =>
    have hs := addTempMarker_single lat lng w.map h
    exact Or.inr ⟨_, hs.1, hs.2⟩
  | clearTempMarker =>
    left
    rcases h with h | ⟨t, h, ht⟩
    · cases hm : w.map.tempMarker <;>
        simp [MarkerAction.apply, EmergencyMap.clearTempMarker, h, hm]
    · simp [MarkerAction.apply, EmergencyMap.clearTempMarker, h, ht]
  | handleMapClick lat lng =>
    have hs := addTempMarker_single lat lng
      { w.map with selectedLocation := some (lat, lng) } h
    right
    refine ⟨MapLayer.tempMarker lat lng, ?_, ?_⟩
    · simp only [MarkerAction.apply, EmergencyMap.handleMapClick]
      split
      · exact hs.1
      · exact hs.1
    · simp only [MarkerAction.apply, EmergencyMap.handleMapClick]
      split
      · exact hs.2
      · exact hs.2
  | showReportModal defaults =>
    left
    rcases h with h | ⟨t, h, ht⟩
    · cases hm : w.map.tempMarker <;>
        simp [MarkerAction.apply, showReportModal, h, hm]
    · simp [MarkerAction.apply, showReportModal, h, ht]
  | hideReportModal => exact h

/-- Every sequence of calls preserves the invariant of the transient marker. -/
theorem runActions_markerInvariant (actions : List MarkerAction) :
    ∀ w : World, markerInvariant w.map → markerInvariant (runActions actions w).map := by
  induction actions with
  | nil => intro w h; exact h
  | cons a rest ih =>
    intro w h
    exact ih (a.apply w) (apply_markerInvariant a w h)

/-- C17: starting from a map with no transient marker, after every sequence of
`addTempMarker`, `clearTempMarker`, `handleMapClick` and `showReportModal`
calls (and of hidings of the report modal) at most one transient marker is on
the map; and a further `addTempMarker(lat, lng)` leaves exactly one on the map,
at `(lat, lng)`, the previous one having been removed. -/
theorem transient_marker_unique (actions : List MarkerAction) (w : World)
    (h : w.map.mapLayers = []) (lat lng : Rat) :
    (runActions actions w).map.mapLayers.length ≤ 1 ∧
    (EmergencyMap.addTempMarker lat lng (runActions actions w).map).mapLayers =
      [MapLayer.tempMarker lat lng] := by
  have hinv := runActions_markerInvariant actions w (Or.inl h)
  refine ⟨?_, (addTempMarker_single lat lng _ hinv).1⟩
  rcases hinv with h0 | ⟨t, h1, _⟩
  · simp [h0]
  · simp [h1]

/-- Witness for C17: two clicks with the modal closed, the report modal shown,
a click with the modal open, then a further marker. -/
theorem transient_marker_unique_witness :
    (runActions
      [MarkerAction.handleMapClick 1 2, MarkerAction.handleMapClick 3 4,
       MarkerAction.showReportModal samplePage.form, MarkerAction.handleMapClick 5 6]
      sampleWorldClosed).map.mapLayers.length ≤ 1 ∧
    (EmergencyMap.addTempMarker 7 8
      (runActions
        [MarkerAction.handleMapClick 1 2, MarkerAction.handleMapClick 3 4,
         MarkerAction.showReportModal samplePage.form, MarkerAction.handleMapClick 5 6]
        sampleWorldClosed).map).mapLayers = [MapLayer.tempMarker 7 8] :=
  transient_marker_unique _ sampleWorldClosed rfl 7 8

/-- C18: a click at `(lat, lng)` records the location and places the transient
marker there; when the report modal is open the coordinate is written, with six
decimals, into the selected-lat, selected-lng and location-input fields of the
report form, and when it is closed the page is left untouched. -/
theorem handleMapClick_effect (lat lng : Rat) (w : World) :
    (EmergencyMap.handleMapClick lat lng w).map.selectedLocation = some (lat, lng) ∧
    (EmergencyMap.handleMapClick lat lng w).map.tempMarker =
      some (MapLayer.tempMarker lat lng) ∧
    MapLayer.tempMarker lat lng ∈ (EmergencyMap.handleMapClick lat lng w).map.mapLayers ∧
    (w.map.isReportModalOpen = true →
      (EmergencyMap.handleMapClick lat lng w).dom.form =
        { w.dom.form with
          selectedLat := toFixed6 lat,
          selectedLng := toFixed6 lng,
          locationInput := "Lat: " ++ toFixed6 lat ++ ", Lng: " ++ toFixed6 lng }) ∧
    (w.map.isReportModalOpen = false →
      (EmergencyMap.handleMapClick lat lng w).dom = w.dom) := by
  cases hopen : w.map.isReportModalOpen <;>
    simp [EmergencyMap.handleMapClick, EmergencyMap.selectLocationForReport,
      EmergencyMap.addTempMarker, hopen, showToast]

/-- The default latitude, with six decimals. -/
theorem toFixed6_default_lat : toFixed6 28.6139 = "28.613900" := by
  have h : Rat.floor ((28.6139 : Rat) * 1000000 + 1 / 2) = 28613900 := by
    show ⌊(28.6139 : Rat) * 1000000 + 1 / 2⌋ = 28613900
    rw [Int.floor_eq_iff]
    norm_num
  have hlt : ¬ ((28.6139 : Rat) < 0) := by norm_num
  unfold toFixed6
  simp only [hlt, if_false, h]
  decide

/-- The default longitude, with six decimals. -/
theorem toFixed6_default_lng : toFixed6 77.209 = "77.209000" := by
  have h : Rat.floor ((77.209 : Rat) * 1000000 + 1 / 2) = 77209000 := by
    show ⌊(77.209 : Rat) * 1000000 + 1 / 2⌋ = 77209000
    rw [Int.floor_eq_iff]
    norm_num
  have hlt : ¬ ((77.209 : Rat) < 0) := by norm_num
  unfold toFixed6
  simp only [hlt, if_false, h]
  decide

/-- Witness for C18: a click with the report modal open and a click with the
report modal closed. -/
theorem handleMapClick_effect_witness :
    (EmergencyMap.handleMapClick 28.6139 77.209 sampleWorld).dom.form.selectedLat =
      "28.613900" ∧
    (EmergencyMap.handleMapClick 28.6139 77.209 sampleWorld).dom.form.selectedLng =
      "77.209000" ∧
    (EmergencyMap.handleMapClick 28.6139 77.209 sampleWorld).dom.form.locationInput =
      "Lat: 28.613900, Lng: 77.209000" ∧
    (EmergencyMap.handleMapClick 28.6139 77.209 sampleWorldClosed).dom = sampleWorldClosed.dom := by
  have hopen := (handleMapClick_effect 28.6139 77.209 sampleWorld).2.2.2.1 rfl
  have hclosed := (handleMapClick_effect 28.6139 77.209 sampleWorldClosed).2.2.2.2 rfl
  rw [hopen, toFixed6_default_lat, toFixed6_default_lng]
  exact ⟨rfl, rfl, by decide, hclosed⟩

/-! ### The summary toast -/

/-- The render cycle is its steps followed by the summary toast. -/
theorem renderCycle_eq_steps (now : Int) (incidents : FeatureCollection IncidentProps)
    (resources : FeatureCollection ResourceProps) (crowds : FeatureCollection CrowdProps)
    (w : World) :
    EmergencyMap.renderCycle now incidents resources crowds w =
      (renderSteps now incidents resources crowds w).andThen
        (fun w2 => Outcome.done (EmergencyMap.summaryToast w2)) := rfl

/-- The function `updateIncidentList` shows no toast. -/
theorem updateIncidentList_toasts (incidents : FeatureCollection IncidentProps) (dom : Dom) :
    (updateIncidentList incidents dom).state.toasts = dom.toasts := by
  unfold updateIncidentList
  simp only
  split
  · split <;> rfl
  · split
    · rfl
    · split <;> rfl

/-- The function `updateResourceTable` shows no toast. -/
theorem updateResourceTable_toasts (resources : FeatureCollection ResourceProps) (dom : Dom) :
    (updateResourceTable resources dom).state.toasts = dom.toasts := by
  unfold updateResourceTable
  simp only
  split
  · split <;> rfl
  · split
    · rfl
    · split <;> rfl

/-- The function `updateCrowdPanel` shows no toast. -/
theorem updateCrowdPanel_toasts (crowds : FeatureCollection CrowdProps) (dom : Dom) :
    (updateCrowdPanel crowds dom).state.toasts = dom.toasts := by
  unfold updateCrowdPanel
  split
  · rfl
  · simp only
    split
    · rfl
    · split
      · rfl
      · split <;> rfl

/-- The function `updateDashboard` shows no toast. -/
theorem updateDashboard_toasts (incidents : FeatureCollection IncidentProps)
    (resources : FeatureCollection ResourceProps) (crowds : FeatureCollection CrowdProps)
    (dom : Dom) :
    (updateDashboard incidents resources crowds dom).state.toasts = dom.toasts := by
  unfold updateDashboard
  split
  · rfl
  · simp only
    split
    · rfl
    · refine andThen_preserves (fun d : Dom => d.toasts = dom.toasts) _ _ ?_ ?_
      · refine andThen_preserves (fun d : Dom => d.toasts = dom.toasts) _ _ ?_ ?_
        · exact updateIncidentList_toasts _ _
        · intro d hd
          exact (updateResourceTable_toasts _ _).trans hd
      · intro d hd
        exact (updateCrowdPanel_toasts _ _).trans hd

/-- The method `updateEmergencyList` shows no toast. -/
theorem updateEmergencyList_toasts (now : Int) (incidents : FeatureCollection IncidentProps)
    (dom : Dom) :
    (EmergencyMap.updateEmergencyList now incidents dom).state.toasts = dom.toasts := by
  unfold EmergencyMap.updateEmergencyList
  split
  · rfl
  · split
    · rfl
    · split
      · rfl
      · split <;> rfl

/-- The steps before the summary toast show no toast. -/
theorem renderSteps_toasts (now : Int) (incidents : FeatureCollection IncidentProps)
    (resources : FeatureCollection ResourceProps) (crowds : FeatureCollection CrowdProps)
    (w : World) :
    (renderSteps now incidents resources crowds w).state.dom.toasts = w.dom.toasts := by
  unfold renderSteps
  simp only
  refine andThen_preserves (fun st : World => st.dom.toasts = w.dom.toasts) _ _ ?_ ?_
  · refine andThen_preserves (fun st : World => st.dom.toasts = w.dom.toasts) _ _ ?_ ?_
    · refine andThen_preserves (fun st : World => st.dom.toasts = w.dom.toasts) _ _ ?_ ?_
      · refine andThen_preserves (fun st : World => st.dom.toasts = w.dom.toasts) _ _ ?_
          (fun s hs => hs)
        refine andThen_preserves (fun st : World => st.dom.toasts = w.dom.toasts) _ _ ?_
          (fun s hs => hs)
        rfl
      · intro s hs
        exact (updateDashboard_toasts _ _ _ _).trans hs
    · intro s hs
      exact (updateEmergencyList_toasts _ _ _).trans hs
  · intro s hs
    have : (updateLastUpdated now (hideLoading s.dom)).state.toasts = s.dom.toasts := by
      unfold updateLastUpdated hideLoading
      split <;> split <;> rfl
    exact this.trans hs

/-- The number of features of a collection is the length of the stored list. -/
theorem featureCount_eq {P : Type} (c : FeatureCollection P) :
    featureCount c = (c.features.getD []).length := by
  unfold featureCount
  cases c.features <;> rfl

/-- C19: after a refresh cycle whose steps complete without an exception,
`loadData` has added the summary toast exactly when the incident collection it
rendered has at least one feature, and no other toast; the number in the toast
is the number of features of that collection, which is 3 when the incidents
request rejected and the mock collection was used. -/
theorem loadData_summary_toast (now : Int)
    (oi : FetchOutcome (FeatureCollection IncidentProps))
    (ors : FetchOutcome (FeatureCollection ResourceProps))
    (oc : FetchOutcome (FeatureCollection CrowdProps)) (w : World)
    (hok : (EmergencyMap.renderCycle now (EmergencyMap.fetchIncidents now oi)
      (EmergencyMap.fetchResources ors) (EmergencyMap.fetchCrowds now oc)
      (EmergencyMap.beginLoad w)).error = none) :
    (EmergencyMap.loadData now oi ors oc w).dom.toasts =
      w.dom.toasts ++
        (if featureCount (EmergencyMap.fetchIncidents now oi) > 0 then
          [{ message := toString (featureCount (EmergencyMap.fetchIncidents now oi)) ++
               " active emergency/emergencies",
             type := "warning" }]
        else []) ∧
    (oi = FetchOutcome.rejected →
      (EmergencyMap.loadData now oi ors oc w).dom.toasts =
        w.dom.toasts ++ [{ message := "3 active emergency/emergencies", type := "warning" }]) := by
  have hstored := (renderCycle_stored now (EmergencyMap.fetchIncidents now oi)
    (EmergencyMap.fetchResources ors) (EmergencyMap.fetchCrowds now oc)
    (EmergencyMap.beginLoad w)).1
  have htoasts := renderSteps_toasts now (EmergencyMap.fetchIncidents now oi)
    (EmergencyMap.fetchResources ors) (EmergencyMap.fetchCrowds now oc)
    (EmergencyMap.beginLoad w)
  have hmain : (EmergencyMap.loadData now oi ors oc w).dom.toasts =
      w.dom.toasts ++
        (if featureCount (EmergencyMap.fetchIncidents now oi) > 0 then
          [{ message := toString (featureCount (EmergencyMap.fetchIncidents now oi)) ++
               " active emergency/emergencies",
             type := "warning" }]
        else []) := by
    unfold EmergencyMap.loadData EmergencyMap.recover
    rw [hok]
    simp only
    rw [renderCycle_eq_steps] at hok hstored ⊢
    generalize renderSteps now (EmergencyMap.fetchIncidents now oi)
      (EmergencyMap.fetchResources ors) (EmergencyMap.fetchCrowds now oc)
      (EmergencyMap.beginLoad w) = steps at hok hstored htoasts ⊢
    have hsteps : steps.error = none := by
      unfold Outcome.andThen at hok
      cases he : steps.error with
      | none => rfl
      | some e => simp [he] at hok
    have hbegin : (EmergencyMap.beginLoad w).dom.toasts = w.dom.toasts := rfl
    simp only [Outcome.andThen, hsteps, Outcome.done] at hstored ⊢
    rw [featureCount_eq]
    unfold EmergencyMap.summaryToast at hstored ⊢
    by_cases hpos : steps.state.map.activeIncidents.length > 0
    · simp only [hpos, if_true] at hstored ⊢
      simp only [showToast, htoasts, hbegin]
      rw [← hstored]
      simp [hpos]
    · simp only [hpos, if_false] at hstored ⊢
      rw [← hstored]
      simp [hpos, htoasts, hbegin]
  refine ⟨hmain, ?_⟩
  intro hrej
  have h3 : featureCount (EmergencyMap.fetchIncidents now FetchOutcome.rejected) = 3 := rfl
  rw [hmain, hrej, h3]
  rfl

/-- Witness for C19: on the sample page, with all three requests rejected, the
cycle completes and the toast announces the three mock incidents. -/
theorem loadData_summary_toast_witness :
    (EmergencyMap.loadData 0 FetchOutcome.rejected FetchOutcome.rejected FetchOutcome.rejected
      sampleWorld).dom.toasts =
      [{ message := "3 active emergency/emergencies", type := "warning" }] :=
  (loadData_summary_toast 0 FetchOutcome.rejected FetchOutcome.rejected FetchOutcome.rejected
    sampleWorld (by decide)).2 rfl

/-! ### The dashboard icon table -/

/-- A resource type that is none of the table keys and does not name a member
of `Object.prototype` gets the default icon class. -/
theorem getResourceIcon_fallback (type : String)
    (hkeys : type ∉ ["ambulance", "fire_truck", "police", "default"])
    (hproto : type ∉ objectPrototypeKeys) :
    getResourceIcon type = Member.value "fa-truck" := by
  simp only [List.mem_cons, List.mem_singleton, List.mem_nil_iff, or_false, not_or] at hkeys
  obtain ⟨h1, h2, h3, h4⟩ := hkeys
  have b1 : (type == "ambulance") = false := by simpa using h1
  have b2 : (type == "fire_truck") = false := by simpa using h2
  have b3 : (type == "police") = false := by simpa using h3
  have b4 : (type == "default") = false := by simpa using h4
  simp [getResourceIcon, getPropertyOr, getProperty, resourceIconClasses, List.lookup,
    b1, b2, b3, b4, hproto]

/-- A resource type that names a member of `Object.prototype` gets that member,
not an icon class. -/
theorem getResourceIcon_inherited (type : String) (h : type ∈ objectPrototypeKeys) :
    getResourceIcon type = Member.inherited type := by
  simp only [objectPrototypeKeys, List.mem_cons, List.mem_singleton, List.mem_nil_iff,
    or_false] at h
  rcases h with h | h | h | h | h | h | h | h | h | h | h | h <;> subst h <;> rfl

/-- C20 (the code at the failing input): the dashboard's `getResourceIcon`
returns `fa-ambulance`, `fa-truck` and `fa-car` for the three known types and
`fa-truck` for an unknown type such as `helicopter`, but for the type
`constructor`, which is none of the three known types, it returns the inherited
constructor function instead of the default `fa-truck`. -/
theorem getResourceIcon_constructor :
    getResourceIcon "ambulance" = Member.value "fa-ambulance" ∧
    getResourceIcon "fire_truck" = Member.value "fa-truck" ∧
    getResourceIcon "police" = Member.value "fa-car" ∧
    getResourceIcon "helicopter" = Member.value "fa-truck" ∧
    "constructor" ∉ ["ambulance", "fire_truck", "police"] ∧
    getResourceIcon "constructor" = Member.inherited "constructor" ∧
    getResourceIcon "constructor" ≠ Member.value "fa-truck" := by
  decide

/-! ### The session -/

/-- A step of the authentication page leaves the session as it is. -/
theorem onPage_session (step : AuthPage → Outcome AuthPage) (w : AuthWorld) :
    (onPage step w).state.session = w.session := rfl

/-- The catch and finally blocks leave the session as it is. -/
theorem settle_session (tried : Outcome AuthWorld) :
    (settle tried).session = tried.state.session := by
  unfold settle
  cases tried.error <;> rfl

/-- C11: when the login request rejects or resolves with a non-OK status,
`login` leaves `currentUser`, `authToken` and the stored token as they were,
and the one toast it shows is an error toast. -/
theorem login_failure_keeps_session (o : FetchOutcome AuthResponse) (w : AuthWorld)
    (h : o = FetchOutcome.rejected ∨ ∃ json, o = FetchOutcome.resolved false json) :
    (login o w).session = w.session ∧
    ∃ message, (login o w).dom.toasts = w.dom.toasts ++ [{ message := message, type := "error" }] := by
  unfold login
  simp only
  split
  · exact ⟨rfl, _, rfl⟩
  · rcases h with rfl | ⟨json, rfl⟩
    · exact ⟨rfl, "Connection error", rfl⟩
    · cases json with
      | none => exact ⟨rfl, "Connection error", rfl⟩
      | some data => exact ⟨rfl, stringOr data.error "Login failed", rfl⟩

/-- Witness for C11: a signed-in state, a rejected request and a 401 response
with an error message. -/
theorem login_failure_keeps_session_witness :
    (login FetchOutcome.rejected sampleSignedIn).session = sampleSignedIn.session ∧
    (login (FetchOutcome.resolved false
        (some { token := none, user := none, error := some "Invalid credentials" }))
      sampleSignedIn).session = sampleSignedIn.session :=
  ⟨(login_failure_keeps_session FetchOutcome.rejected sampleSignedIn (Or.inl rfl)).1,
   (login_failure_keeps_session _ sampleSignedIn (Or.inr ⟨_, rfl⟩)).1⟩

/-- C12: with a username and a password entered, an OK login response carrying
a token and a user makes `login` set `authToken` to that token, store the same
token under the local-storage key `authToken`, and set `currentUser` to that
user. -/
theorem login_success_stores_session (w : AuthWorld) (token : String) (user : User)
    (error : Option String)
    (hu : w.page.loginForm.username ≠ "") (hp : w.page.loginForm.password ≠ "") :
    (login (FetchOutcome.resolved true
        (some { token := some token, user := some user, error := error })) w).session =
      { currentUser := some user, authToken := some token, storedToken := some token } := by
  unfold login
  simp only [hu, hp, or_self, if_false, if_true]
  rw [settle_session]
  refine andThen_preserves
    (fun st : AuthWorld => st.session =
      { currentUser := some user, authToken := some token, storedToken := some token })
    _ _ ?_ (fun s hs => hs)
  refine andThen_preserves
    (fun st : AuthWorld => st.session =
      { currentUser := some user, authToken := some token, storedToken := some token })
    _ _ ?_ ?_
  · refine andThen_preserves
      (fun st : AuthWorld => st.session =
        { currentUser := some user, authToken := some token, storedToken := some token })
      _ _ rfl ?_
    intro st hst
    unfold hideLoginModal
    split <;> exact hst
  · intro st hst
    unfold welcomeToast
    split <;> exact hst

/-- Witness for C12: the sample visitor signs in. -/
theorem login_success_stores_session_witness :
    (login (FetchOutcome.resolved true
        (some { token := some "t-1", user := some sampleUser, error := none }))
      sampleAuthWorld).session =
      { currentUser := some sampleUser, authToken := some "t-1", storedToken := some "t-1" } :=
  login_success_stores_session sampleAuthWorld "t-1" sampleUser none (by decide) (by decide)

/-- C13 (counterexample): the sample visitor registers and the response is OK
and carries a token and a user, yet afterwards no token is stored and there is
no current user. -/
theorem register_does_not_sign_in :
    ¬ ((register (FetchOutcome.resolved true
          (some { token := some "t-1", user := some sampleUser, error := none }))
        sampleAuthWorld).session.storedToken = some "t-1" ∧
      (register (FetchOutcome.resolved true
          (some { token := some "t-1", user := some sampleUser, error := none }))
        sampleAuthWorld).session.currentUser = some sampleUser) := by
  decide

/-- The function `register` never changes the session. -/
theorem register_session (o : FetchOutcome AuthResponse) (w : AuthWorld) :
    (register o w).session = w.session := by
  unfold register
  simp only
  split
  · rfl
  · split
    · rfl
    · split
      · rfl
      · rw [settle_session]
        cases o with
        | rejected => rfl
        | resolved ok json =>
          cases json with
          | none => rfl
          | some data =>
            simp only
            split
            · refine andThen_preserves (fun st : AuthWorld => st.session = w.session) _ _ ?_
                (fun s hs => hs)
              unfold hideRegisterModal
              split <;> rfl
            · rfl

/-- A toast shown in the `try` block is still shown after the catch and finally
blocks. -/
theorem settle_toasts (tried : Outcome AuthWorld) (t : Toast)
    (h : t ∈ tried.state.dom.toasts) : t ∈ (settle tried).dom.toasts := by
  unfold settle
  cases tried.error with
  | none =>
    simp only [hideLoading]
    split <;> exact h
  | some e =>
    simp only [hideLoading, showToast]
    split <;> exact List.mem_append_left _ h

/-- C13 (amended): on an OK registration response (the form being valid),
`register` creates no session: `currentUser`, `authToken` and the stored token
keep their values; it shows the toast `Registration successful! Please login.`
and leaves signing in to `login`. -/
theorem register_keeps_session (w : AuthWorld) (data : AuthResponse)
    (hu : w.page.registerForm.username ≠ "") (he : w.page.registerForm.email ≠ "")
    (hp : w.page.registerForm.password ≠ "")
    (hc : w.page.registerForm.password = w.page.registerForm.confirmPassword)
    (hl : 6 ≤ jsLength w.page.registerForm.password) :
    (register (FetchOutcome.resolved true (some data)) w).session = w.session ∧
    ({ message := "Registration successful! Please login.", type := "success" } : Toast) ∈
      (register (FetchOutcome.resolved true (some data)) w).dom.toasts := by
  refine ⟨register_session _ w, ?_⟩
  have h1 : ¬ (w.page.registerForm.username = "" ∨ w.page.registerForm.email = "" ∨
      w.page.registerForm.password = "") := by
    simp [hu, he, hp]
  have h2 : ¬ (w.page.registerForm.password ≠ w.page.registerForm.confirmPassword) := by
    simpa using hc
  have h3 : ¬ jsLength w.page.registerForm.password < 6 := by omega
  unfold register
  simp only
  rw [if_neg h1, if_neg h2, if_neg h3]
  apply settle_toasts
  simp only [if_true]
  refine andThen_preserves
    (fun st : AuthWorld =>
      ({ message := "Registration successful! Please login.", type := "success" } : Toast) ∈
        st.dom.toasts) _ _ ?_ (fun s hs => hs)
  unfold hideRegisterModal
  split <;> simp [showToast, Outcome.done]

/-- Witness for C13 (amended): the sample visitor registers. -/
theorem register_keeps_session_witness :
    (register (FetchOutcome.resolved true
        (some { token := some "t-1", user := some sampleUser, error := none }))
      sampleAuthWorld).session = sampleAuthWorld.session ∧
    ({ message := "Registration successful! Please login.", type := "success" } : Toast) ∈
      (register (FetchOutcome.resolved true
        (some { token := some "t-1", user := some sampleUser, error := none }))
      sampleAuthWorld).dom.toasts :=
  register_keeps_session sampleAuthWorld _ (by decide) (by decide) (by decide) (by decide)
    (by decide)

/-- After `logout` the session is cleared, whether or not updating the page
threw. -/
theorem logout_session (w : AuthWorld) :
    (logout w).state.session =
      { currentUser := none, authToken := none, storedToken := none } := by
  unfold logout
  exact andThen_preserves
    (fun st : AuthWorld => st.session =
      { currentUser := none, authToken := none, storedToken := none })
    _ _ rfl (fun s hs => hs)

/-- On a page that has every element it writes, `updateUIBasedOnAuth` does not
throw. -/
theorem updateUIBasedOnAuth_complete (s : Session) (p : AuthPage) (h : p.complete) :
    (updateUIBasedOnAuth s p).error = none := by
  obtain ⟨h1, h2, h3, h4, h5, h6, h7, h8⟩ := h
  obtain ⟨a1, e1⟩ := Option.ne_none_iff_exists'.mp h1
  obtain ⟨a2, e2⟩ := Option.ne_none_iff_exists'.mp h2
  obtain ⟨a3, e3⟩ := Option.ne_none_iff_exists'.mp h3
  obtain ⟨a4, e4⟩ := Option.ne_none_iff_exists'.mp h4
  obtain ⟨a5, e5⟩ := Option.ne_none_iff_exists'.mp h5
  obtain ⟨a6, e6⟩ := Option.ne_none_iff_exists'.mp h6
  obtain ⟨a7, e7⟩ := Option.ne_none_iff_exists'.mp h7
  obtain ⟨a8, e8⟩ := Option.ne_none_iff_exists'.mp h8
  unfold updateUIBasedOnAuth
  cases s.currentUser <;>
    simp [writeElement, Outcome.andThen, Outcome.done, e1, e2, e3, e4, e5, e6, e7, e8]

/-- C14: when the profile request rejects, resolves with a non-OK status, or
resolves with a body that does not decode, `validateToken` logs out: afterwards
`authToken` and `currentUser` are null and the stored token is removed. When
the response is OK and carries a profile (on a page that has the elements
`updateUIBasedOnAuth` writes), `currentUser` becomes that profile, and
`authToken` and the stored token are unchanged. -/
theorem validateToken_effect (w : AuthWorld) :
    (∀ o : FetchOutcome User,
      (o = FetchOutcome.rejected ∨ (∃ json, o = FetchOutcome.resolved false json) ∨
        o = FetchOutcome.resolved true none) →
      (validateToken o w).state.session =
        { currentUser := none, authToken := none, storedToken := none }) ∧
    (∀ profile : User, w.page.complete →
      (validateToken (FetchOutcome.resolved true (some profile)) w).error = none ∧
      (validateToken (FetchOutcome.resolved true (some profile)) w).state.session =
        { currentUser := some profile, authToken := w.session.authToken,
          storedToken := w.session.storedToken }) := by
  constructor
  · intro o ho
    rcases ho with rfl | ⟨json, rfl⟩ | rfl
    · exact logout_session _
    · unfold validateToken
      simp only [Bool.false_eq_true, if_false]
      split
      · exact logout_session _
      · exact logout_session _
    · exact logout_session _
  · intro profile hpage
    have hui := updateUIBasedOnAuth_complete
      { currentUser := some profile, authToken := w.session.authToken,
        storedToken := w.session.storedToken } w.page hpage
    unfold validateToken
    simp only [if_true, onPage, Outcome.andThen, hui, Outcome.done]
    exact ⟨trivial, trivial⟩

/-- Witness for C14: the signed-in sample state, with a 401 response and with
an OK response carrying the profile. -/
theorem validateToken_effect_witness :
    (validateToken (FetchOutcome.resolved false none) sampleSignedIn).state.session =
      { currentUser := none, authToken := none, storedToken := none } ∧
    (validateToken (FetchOutcome.resolved true (some sampleUser)) sampleSignedIn).state.session =
      { currentUser := some sampleUser, authToken := some "t-0", storedToken := some "t-0" } :=
  ⟨(validateToken_effect sampleSignedIn).1 _ (Or.inr (Or.inl ⟨none, rfl⟩)),
   ((validateToken_effect sampleSignedIn).2 sampleUser (by decide)).2⟩

/-! ### Permission and role checks -/

/-- Without a current user, or for a user without a permissions object,
`hasPermission` returns `false`; for a permission name that does not name a
member of `Object.prototype` it returns `true` exactly when the permissions
object has that name with the value `true`. -/
theorem hasPermission_plain (permission : String) (user : User) (token stored : Option String)
    (permissions : List (String × Bool)) (h : permission ∉ objectPrototypeKeys) :
    hasPermission permission { currentUser := none, authToken := token, storedToken := stored } =
      Member.value false ∧
    hasPermission permission
        { currentUser := some { user with permissions := none }, authToken := token,
          storedToken := stored } = Member.value false ∧
    hasPermission permission
        { currentUser := some { user with permissions := some permissions }, authToken := token,
          storedToken := stored } =
      Member.value (decide (permissions.lookup permission = some true)) := by
  refine ⟨rfl, rfl, ?_⟩
  simp only [hasPermission, getPropertyOr, getProperty]
  cases hl : permissions.lookup permission with
  | none => simp [h]
  | some v => cases v <;> simp

/-- C15 (the code at the failing input): for the sample user, whose permissions
object holds `dispatch_resources: true` and `manage_users: false`,
`hasPermission` returns `true`, `false`, and `false` for an absent name such as
`view_reports`; but for `constructor`, which is absent from the object too, it
returns the inherited constructor function, a truthy value, instead of
`false`. -/
theorem hasPermission_constructor :
    hasPermission "dispatch_resources" sampleSignedIn.session = Member.value true ∧
    hasPermission "manage_users" sampleSignedIn.session = Member.value false ∧
    hasPermission "view_reports" sampleSignedIn.session = Member.value false ∧
    hasPermission "constructor" sampleAuthWorld.session = Member.value false ∧
    (sampleUser.permissions.getD []).lookup "constructor" = none ∧
    hasPermission "constructor" sampleSignedIn.session = Member.inherited "constructor" ∧
    hasPermission "constructor" sampleSignedIn.session ≠ Member.value false := by
  decide

/-- C16: `hasRole` returns `false` when there is no current user; for a single
role name it returns `true` exactly when the role of the current user equals
it; for a list of role names it returns `true` exactly when the role of the
current user is a member of the list, so the empty list always gives `false`. -/
theorem hasRole_spec (role : RoleArg) (name : String) (roles : List String) (user : User)
    (token stored : Option String) (s : Session) :
    hasRole role { currentUser := none, authToken := token, storedToken := stored } = false ∧
    (hasRole (RoleArg.one name)
        { currentUser := some user, authToken := token, storedToken := stored } = true ↔
      user.role = name) ∧
    (hasRole (RoleArg.many roles)
        { currentUser := some user, authToken := token, storedToken := stored } = true ↔
      user.role ∈ roles) ∧
    hasRole (RoleArg.many []) s = false := by
  refine ⟨rfl, ?_, ?_, ?_⟩
  · simp [hasRole]
  · simp [hasRole]
  · unfold hasRole
    cases s.currentUser <;> simp

/-! ### The report request and its answer -/

/-- C21: with a non-empty emergency type, `submitReport` issues one request,
`POST /api/incidents/report`, whose body has `location` equal to the parsed
selected-lng value followed by the parsed selected-lat value, `severity` equal
to the integer parsed from the severity field, `type`, `location_type`,
`description` and `caller_type` equal to their fields, and `address` equal to
the location-input value, or `Unknown location` when that value is empty. -/
theorem submitReport_request_body (b : Builtins) (mockId : Nat) (post : FetchOutcome Unit)
    (w : World) (h : w.dom.form.emergencyType ≠ "") :
    (submitReport b mockId post w).requests =
      w.requests ++
        [{ method := "POST", url := "http://localhost:5000/api/incidents/report",
           body := some
             { type := w.dom.form.emergencyType,
               location := (b.parseFloat w.dom.form.selectedLng, b.parseFloat w.dom.form.selectedLat),
               location_type := w.dom.form.locationType,
               description := w.dom.form.description,
               severity := b.parseInt w.dom.form.severity,
               caller_type := w.dom.form.callerType,
               address :=
                 if w.dom.form.locationInput = "" then "Unknown location"
                 else w.dom.form.locationInput } }] := by
  unfold submitReport
  rw [if_neg h]
  cases post with
  | rejected => rfl
  | resolved ok json => cases json <;> rfl

/-- Witness for C21: the sample report, whose location input is empty. -/
theorem submitReport_request_body_witness :
    (submitReport sampleBuiltins 7 (FetchOutcome.resolved true (some ())) sampleReportWorld).requests =
      [{ method := "POST", url := "http://localhost:5000/api/incidents/report",
         body := some
           { type := "fire",
             location := (sampleBuiltins.parseFloat "77.2090", sampleBuiltins.parseFloat "28.6139"),
             location_type := "residential",
             description := "smoke on the stairs",
             severity := sampleBuiltins.parseInt "4",
             caller_type := "witness",
             address := "Unknown location" } }] :=
  submitReport_request_body sampleBuiltins 7 (FetchOutcome.resolved true (some ()))
    sampleReportWorld (by decide)

/-- C29: with a non-empty emergency type, when the answer to the report request
decodes as JSON, whatever its status, `submitReport` shows the toast
`Emergency reported successfully!`, hides the report modal and starts a
refresh; when the request rejects or the body does not decode, it shows a
warning toast and a mock success toast, hides the modal and starts no
refresh. -/
theorem submitReport_answer (b : Builtins) (mockId : Nat) (w : World)
    (h : w.dom.form.emergencyType ≠ "") :
    (∀ ok : Bool,
      (submitReport b mockId (FetchOutcome.resolved ok (some ())) w).dom.toasts =
        w.dom.toasts ++ [{ message := "Emergency reported successfully!", type := "success" }] ∧
      (submitReport b mockId (FetchOutcome.resolved ok (some ())) w).dom.reportModalShown = false ∧
      (submitReport b mockId (FetchOutcome.resolved ok (some ())) w).map.isReportModalOpen = false ∧
      (submitReport b mockId (FetchOutcome.resolved ok (some ())) w).refreshesStarted =
        w.refreshesStarted + 1) ∧
    (∀ post : FetchOutcome Unit,
      (post = FetchOutcome.rejected ∨ ∃ ok, post = FetchOutcome.resolved ok none) →
      (submitReport b mockId post w).dom.toasts =
        w.dom.toasts ++
          [{ message := "Failed to submit report. Using mock response.", type := "warning" },
           { message := "Mock: Emergency reported (ID: " ++ toString mockId ++ ")",
             type := "success" }] ∧
      (submitReport b mockId post w).dom.reportModalShown = false ∧
      (submitReport b mockId post w).map.isReportModalOpen = false ∧
      (submitReport b mockId post w).refreshesStarted = w.refreshesStarted) := by
  constructor
  · intro ok
    unfold submitReport
    rw [if_neg h]
    simp [hideReportModal, showToast, hideLoading, showLoading]
  · intro post hpost
    unfold submitReport
    rw [if_neg h]
    rcases hpost with rfl | ⟨ok, rfl⟩ <;>
      simp [hideReportModal, showToast, hideLoading, showLoading]

/-- Witness for C29: the sample report answered with status 500 and a JSON
body, and the sample report whose request rejects. -/
theorem submitReport_answer_witness :
    (submitReport sampleBuiltins 7 (FetchOutcome.resolved false (some ())) sampleReportWorld).dom.toasts =
      [{ message := "Emergency reported successfully!", type := "success" }] ∧
    (submitReport sampleBuiltins 7 FetchOutcome.rejected sampleReportWorld).refreshesStarted = 0 :=
  ⟨((submitReport_answer sampleBuiltins 7 sampleReportWorld (by decide)).1 false).1,
   ((submitReport_answer sampleBuiltins 7 sampleReportWorld (by decide)).2
      FetchOutcome.rejected (Or.inl rfl)).2.2.2⟩

/-! ### Role gating of the controls -/

/-- C22: on a page that has the elements it writes, `updateUIBasedOnAuth`
completes and shows the operator actions exactly for a logged-in user with role
`admin` or `operator`, and the admin actions exactly for a logged-in user with
role `admin`; when no user is logged in the login buttons are shown and the
user menu, the user info card, the operator actions and the admin actions are
hidden. -/
theorem updateUIBasedOnAuth_gates (s : Session) (p : AuthPage) (h : p.complete) :
    (updateUIBasedOnAuth s p).error = none ∧
    ((updateUIBasedOnAuth s p).state.operatorActions = some "block" ↔
      ∃ user, s.currentUser = some user ∧ (user.role = "admin" ∨ user.role = "operator")) ∧
    ((updateUIBasedOnAuth s p).state.operatorActions = some "none" ↔
      ¬ ∃ user, s.currentUser = some user ∧ (user.role = "admin" ∨ user.role = "operator")) ∧
    ((updateUIBasedOnAuth s p).state.adminActions = some "block" ↔
      ∃ user, s.currentUser = some user ∧ user.role = "admin") ∧
    ((updateUIBasedOnAuth s p).state.adminActions = some "none" ↔
      ¬ ∃ user, s.currentUser = some user ∧ user.role = "admin") ∧
    (s.currentUser = none →
      (updateUIBasedOnAuth s p).state.authButtons = some "block" ∧
      (updateUIBasedOnAuth s p).state.userMenu = some "none" ∧
      (updateUIBasedOnAuth s p).state.userInfoCard = some "none" ∧
      (updateUIBasedOnAuth s p).state.operatorActions = some "none" ∧
      (updateUIBasedOnAuth s p).state.adminActions = some "none") := by
  obtain ⟨h1, h2, h3, h4, h5, h6, h7, h8⟩ := h
  obtain ⟨a1, e1⟩ := Option.ne_none_iff_exists'.mp h1
  obtain ⟨a2, e2⟩ := Option.ne_none_iff_exists'.mp h2
  obtain ⟨a3, e3⟩ := Option.ne_none_iff_exists'.mp h3
  obtain ⟨a4, e4⟩ := Option.ne_none_iff_exists'.mp h4
  obtain ⟨a5, e5⟩ := Option.ne_none_iff_exists'.mp h5
  obtain ⟨a6, e6⟩ := Option.ne_none_iff_exists'.mp h6
  obtain ⟨a7, e7⟩ := Option.ne_none_iff_exists'.mp h7
  obtain ⟨a8, e8⟩ := Option.ne_none_iff_exists'.mp h8
  unfold updateUIBasedOnAuth
  cases hu : s.currentUser with
  | none =>
    simp [writeElement, Outcome.andThen, Outcome.done, e1, e2, e3, e4, e5, e6, e7, e8]
  | some user =>
    simp only [writeElement, Outcome.andThen, Outcome.done, e1, e2, e3, e4, e5, e6, e7, e8]
    by_cases ha : user.role = "admin"
    · simp [ha]
    · by_cases ho : user.role = "operator"
      · simp [ho]
      · simp [ha, ho]

/-- Witness for C22: the sample page, for the operator of the sample session
and for no user. -/
theorem updateUIBasedOnAuth_gates_witness :
    (updateUIBasedOnAuth sampleSignedIn.session sampleAuthPage).state.operatorActions =
      some "block" ∧
    (updateUIBasedOnAuth sampleSignedIn.session sampleAuthPage).state.adminActions =
      some "none" ∧
    (updateUIBasedOnAuth sampleAuthWorld.session sampleAuthPage).state.authButtons =
      some "block" :=
  ⟨(updateUIBasedOnAuth_gates sampleSignedIn.session sampleAuthPage (by decide)).2.1.mpr
      ⟨sampleUser, rfl, Or.inr rfl⟩,
   (updateUIBasedOnAuth_gates sampleSignedIn.session sampleAuthPage (by decide)).2.2.2.2.1.mpr
      (by decide),
   ((updateUIBasedOnAuth_gates sampleAuthWorld.session sampleAuthPage (by decide)).2.2.2.2.2
      rfl).1⟩

/-! ### Relative times -/

/-- C25: with `m = floor((now - timestamp) / 60000)`, `getTimeAgo` returns
`just now` when `m < 1` (so for every timestamp in the future), `m min ago`
when `1 ≤ m < 60`, `h hour ago` or `h hours ago` with `h = floor(m / 60)` when
`60 ≤ m < 1440`, and `d day ago` or `d days ago` with `d = floor(m / 1440)`
when `m ≥ 1440`; the plural is used exactly when the number is greater
than 1. -/
theorem getTimeAgo_cases (now timestamp : Int) :
    ((now - timestamp) / 60000 < 1 → getTimeAgo now timestamp = "just now") ∧
    (timestamp > now → getTimeAgo now timestamp = "just now") ∧
    (1 ≤ (now - timestamp) / 60000 → (now - timestamp) / 60000 < 60 →
      getTimeAgo now timestamp = toString ((now - timestamp) / 60000) ++ " min ago") ∧
    (60 ≤ (now - timestamp) / 60000 → (now - timestamp) / 60000 < 1440 →
      getTimeAgo now timestamp =
        toString ((now - timestamp) / 60000 / 60) ++
          (if (now - timestamp) / 60000 / 60 > 1 then " hours ago" else " hour ago")) ∧
    (1440 ≤ (now - timestamp) / 60000 →
      getTimeAgo now timestamp =
        toString ((now - timestamp) / 60000 / 1440) ++
          (if (now - timestamp) / 60000 / 1440 > 1 then " days ago" else " day ago")) := by
  have hjust : (now - timestamp) / 60000 < 1 → getTimeAgo now timestamp = "just now" := by
    intro h
    simp [getTimeAgo, h]
  refine ⟨hjust, ?_, ?_, ?_, ?_⟩
  · intro h
    apply hjust
    omega
  · intro h1 h2
    have : ¬ (now - timestamp) / 60000 < 1 := by omega
    simp [getTimeAgo, this, h2]
  · intro h1 h2
    have a : ¬ (now - timestamp) / 60000 < 1 := by omega
    have b : ¬ (now - timestamp) / 60000 < 60 := by omega
    have c : (now - timestamp) / 60000 / 60 < 24 := by omega
    simp only [getTimeAgo, a, b, c, if_false, if_true]
    split_ifs
    · rw [String.append_assoc, String.append_assoc]
      rfl
    · rw [String.append_assoc, String.append_assoc]
      rfl
  · intro h1
    have a : ¬ (now - timestamp) / 60000 < 1 := by omega
    have b : ¬ (now - timestamp) / 60000 < 60 := by omega
    have c : ¬ (now - timestamp) / 60000 / 60 < 24 := by omega
    have d : (now - timestamp) / 60000 / 60 / 24 = (now - timestamp) / 60000 / 1440 := by
      omega
    simp only [getTimeAgo, a, b, c, if_false, d]
    split_ifs
    · rw [String.append_assoc, String.append_assoc]
      rfl
    · rw [String.append_assoc, String.append_assoc]
      rfl

/-- Witness for C25: a report from the future, and reports 10 minutes, 1 hour,
3 hours, 1 day and 2 days old. -/
theorem getTimeAgo_cases_witness :
    getTimeAgo 0 600000 = "just now" ∧
    getTimeAgo 600000 0 = "10 min ago" ∧
    getTimeAgo 3600000 0 = "1 hour ago" ∧
    getTimeAgo 10800000 0 = "3 hours ago" ∧
    getTimeAgo 86400000 0 = "1 day ago" ∧
    getTimeAgo 172800000 0 = "2 days ago" :=
  ⟨(getTimeAgo_cases 0 600000).2.1 (by decide),
   (getTimeAgo_cases 600000 0).2.2.1 (by decide) (by decide),
   (getTimeAgo_cases 3600000 0).2.2.2.1 (by decide) (by decide),
   (getTimeAgo_cases 10800000 0).2.2.2.1 (by decide) (by decide),
   (getTimeAgo_cases 86400000 0).2.2.2.2 (by decide),
   (getTimeAgo_cases 172800000 0).2.2.2.2 (by decide)⟩

/-! ### Registration and logout -/

/-- C28: `register` issues its request exactly when the username, the email and
the password are non-empty, the password equals the confirmation and the
password has a length of at least 6; in every other case it shows one error
toast and changes nothing else: no request, the same session, the same page. -/
theorem register_request_iff (o : FetchOutcome AuthResponse) (w : AuthWorld) :
    (w.page.registerForm.valid →
      (register o w).requests =
        w.requests ++
          [AuthRequest.register w.page.registerForm.username w.page.registerForm.email
            w.page.registerForm.password w.page.registerForm.phone
            w.page.registerForm.department]) ∧
    (¬ w.page.registerForm.valid →
      ∃ message,
        register o w =
          { w with dom :=
              { w.dom with toasts :=
                  w.dom.toasts ++ [{ message := message, type := "error" }] } }) := by
  constructor
  · rintro ⟨hu, he, hp, hc, hl⟩
    have h1 : ¬ (w.page.registerForm.username = "" ∨ w.page.registerForm.email = "" ∨
        w.page.registerForm.password = "") := by
      simp [hu, he, hp]
    have h2 : ¬ (w.page.registerForm.password ≠ w.page.registerForm.confirmPassword) := by
      simpa using hc
    have h3 : ¬ jsLength w.page.registerForm.password < 6 := by omega
    unfold register
    simp only
    rw [if_neg h1, if_neg h2, if_neg h3]
    have hsettle : ∀ tried : Outcome AuthWorld, (settle tried).requests = tried.state.requests := by
      intro tried
      unfold settle
      cases tried.error <;> rfl
    rw [hsettle]
    cases o with
    | rejected => rfl
    | resolved ok json =>
      cases json with
      | none => rfl
      | some data =>
        simp only
        split
        · refine andThen_preserves (fun st : AuthWorld => st.requests = _) _ _ ?_
            (fun st hst => hst)
          unfold hideRegisterModal
          split <;> rfl
        · rfl
  · intro hinvalid
    unfold register
    simp only
    split
    · exact ⟨_, rfl⟩
    · split
      · exact ⟨_, rfl⟩
      · split
        · exact ⟨_, rfl⟩
        · rename_i h1 h2 h3
          exfalso
          apply hinvalid
          simp only [not_or] at h1
          refine ⟨h1.1, h1.2.1, h1.2.2, ?_, by omega⟩
          simpa using h2

/-- Witness for C28: the sample visitor with a valid form, and with a password
of five characters. -/
theorem register_request_iff_witness :
    (register FetchOutcome.rejected sampleAuthWorld).requests =
      [AuthRequest.register "asha" "asha@example.org" "s3cret!" "" "control room"] ∧
    ∃ message,
      register FetchOutcome.rejected sampleShortPassword =
        { sampleShortPassword with dom :=
            { sampleShortPassword.dom with toasts :=
                sampleShortPassword.dom.toasts ++ [{ message := message, type := "error" }] } } :=
  ⟨(register_request_iff FetchOutcome.rejected sampleAuthWorld).1 (by decide),
   (register_request_iff FetchOutcome.rejected sampleShortPassword).2 (by decide)⟩

/-- C30: from every prior state, after `logout` the current user and the token
are null and the stored token is absent, `hasPermission` and `hasRole` return
`false` for every permission name and every role or list of roles, and a
second `logout` leaves the session as it is (and, on a page that has the
elements it writes, the page too). -/
theorem logout_clears (w : AuthWorld) :
    (logout w).state.session =
      { currentUser := none, authToken := none, storedToken := none } ∧
    (∀ permission : String,
      hasPermission permission (logout w).state.session = Member.value false) ∧
    (∀ role : RoleArg, hasRole role (logout w).state.session = false) ∧
    (logout (logout w).state).state.session = (logout w).state.session ∧
    (w.page.complete →
      (logout w).error = none ∧ (logout (logout w).state).error = none ∧
      (logout (logout w).state).state.page = (logout w).state.page) := by
  have hs := logout_session w
  refine ⟨hs, ?_, ?_, ?_, ?_⟩
  · intro permission
    rw [hs]
    rfl
  · intro role
    rw [hs]
    rfl
  · rw [logout_session, hs]
  · intro h
    obtain ⟨h1, h2, h3, h4, h5, h6, h7, h8⟩ := h
    obtain ⟨a1, e1⟩ := Option.ne_none_iff_exists'.mp h1
    obtain ⟨a2, e2⟩ := Option.ne_none_iff_exists'.mp h2
    obtain ⟨a3, e3⟩ := Option.ne_none_iff_exists'.mp h3
    obtain ⟨a4, e4⟩ := Option.ne_none_iff_exists'.mp h4
    obtain ⟨a5, e5⟩ := Option.ne_none_iff_exists'.mp h5
    simp [logout, onPage, updateUIBasedOnAuth, writeElement, Outcome.andThen, Outcome.done,
      e1, e2, e3, e4, e5]

/-- Witness for C30: the signed-in sample state. -/
theorem logout_clears_witness :
    (logout sampleSignedIn).error = none ∧
    (logout (logout sampleSignedIn).state).error = none ∧
    (logout (logout sampleSignedIn).state).state.page = (logout sampleSignedIn).state.page :=
  (logout_clears sampleSignedIn).2.2.2.2 (by decide)

/-! ### The duplicated colour tables -/

/-- For every integer severity, `getSeverityColor` gives the colour of the
style `getSeverityStyle` gives. -/
theorem getSeverityColor_eq_style (s : Int) :
    getSeverityColor s = (getSeverityStyle s).color := by
  by_cases h5 : s = 5
  · subst h5; rfl
  by_cases h4 : s = 4
  · subst h4; rfl
  by_cases h3 : s = 3
  · subst h3; rfl
  by_cases h2 : s = 2
  · subst h2; rfl
  by_cases h1 : s = 1
  · subst h1; rfl
  have b5 : (s == 5) = false := by simpa using h5
  have b4 : (s == 4) = false := by simpa using h4
  have b3 : (s == 3) = false := by simpa using h3
  have b2 : (s == 2) = false := by simpa using h2
  have b1 : (s == 1) = false := by simpa using h1
  simp [getSeverityColor, getSeverityStyle, severityColors, severityStyles, List.lookup,
    b5, b4, b3, b2, b1, severityStyle3]

/-- For every density that does not name a member of `Object.prototype`,
recognised or not, the header colour of the popup is the colour of the marker
style, whatever the crowd size. -/
theorem crowdPopupColor_eq_style (density : String) (n : Int)
    (h : density ∉ objectPrototypeKeys) :
    ∃ color, crowdPopupColor density = Member.value color ∧
      (getCrowdStyle density n).color = some color := by
  by_cases h1 : density = "critical"
  · subst h1; exact ⟨_, rfl, rfl⟩
  by_cases h2 : density = "high"
  · subst h2; exact ⟨_, rfl, rfl⟩
  by_cases h3 : density = "moderate"
  · subst h3; exact ⟨_, rfl, rfl⟩
  by_cases h4 : density = "low"
  · subst h4; exact ⟨_, rfl, rfl⟩
  have b1 : (density == "critical") = false := by simpa using h1
  have b2 : (density == "high") = false := by simpa using h2
  have b3 : (density == "moderate") = false := by simpa using h3
  have b4 : (density == "low") = false := by simpa using h4
  refine ⟨"#FFA500", ?_, ?_⟩
  · simp [crowdPopupColor, getPropertyOr, getProperty, densityColors, List.lookup,
      b1, b2, b3, b4, h]
  · simp [getCrowdStyle, getProperty, crowdStyles, List.lookup, b1, b2, b3, b4, h,
      crowdStyleModerate]

/-- C24 (the code at the failing input): the severity colour table agrees with
the severity style table on every integer severity, and the popup and the
marker agree on the colour of the four density categories and of an unknown
one such as `dense`; but for the density `constructor` the header colour of the
popup is the inherited constructor function while the marker style has no
colour at all. -/
theorem colour_tables_constructor :
    (∀ s : Int, getSeverityColor s = (getSeverityStyle s).color) ∧
    (crowdPopupColor "critical" = Member.value "#8B0000" ∧
      (getCrowdStyle "critical" 3400).color = some "#8B0000") ∧
    (crowdPopupColor "dense" = Member.value "#FFA500" ∧
      (getCrowdStyle "dense" 3400).color = some "#FFA500") ∧
    crowdPopupColor "constructor" = Member.inherited "constructor" ∧
    (getCrowdStyle "constructor" 3400).color = none :=
  ⟨getSeverityColor_eq_style, by decide, by decide, by decide, by decide⟩

/-! ### The live emergency list -/

/-- Every incident with a geometry gets its template instance, in order, with
the severity `severity || 3` in the badge. -/
theorem mapM_emergencyItemOf (now : Int) (fs : List IncidentFeature)
    (h : ∀ f ∈ fs, f.geometry ≠ none) :
    ∃ items, fs.mapM (EmergencyMap.emergencyItemOf now) = Except.ok items ∧
      items.map (fun i => i.severity) = fs.map (fun f => severityOr f.properties.severity 3) := by
  induction fs with
  | nil => exact ⟨[], rfl, rfl⟩
  | cons f fs ih =>
    obtain ⟨items, hitems, hmap⟩ := ih (fun g hg => h g (List.mem_cons_of_mem _ hg))
    obtain ⟨g, hg⟩ := Option.ne_none_iff_exists'.mp (h f (List.mem_cons_self _ _))
    refine ⟨{ feature := f, lat := g.lat, lng := g.lng,
              severity := severityOr f.properties.severity 3,
              severityColor := getSeverityColor (severityOr f.properties.severity 3),
              timeAgo := getTimeAgo now f.properties.reported_at } :: items, ?_, ?_⟩
    · rw [List.mapM_cons, hitems]
      simp [EmergencyMap.emergencyItemOf, coordinatesOf, hg, Except.map, bind, Except.bind,
        pure, Except.pure]
    · simp [hmap]

/-- On a page with a live emergency list, for a non-empty collection whose
incidents all have a geometry, `updateEmergencyList` completes and the badges
show, top to bottom, `severity || 3` of the incidents in the order its sort
gives. -/
theorem updateEmergencyList_badges (now : Int) (incidents : FeatureCollection IncidentProps)
    (dom : Dom) (fs : List IncidentFeature) (hfs : incidents.features = some fs)
    (hne : fs ≠ []) (hdom : dom.liveEmergencyList ≠ none)
    (hgeo : ∀ f ∈ fs, f.geometry ≠ none) :
    (EmergencyMap.updateEmergencyList now incidents dom).error = none ∧
    listedSeverities (EmergencyMap.updateEmergencyList now incidents dom).state =
      (jsSort EmergencyMap.severityCompare fs).map
        (fun f => severityOr f.properties.severity 3) := by
  obtain ⟨c, hc⟩ := Option.ne_none_iff_exists'.mp hdom
  have hsorted : ∀ f ∈ jsSort EmergencyMap.severityCompare fs, f.geometry ≠ none := by
    intro f hf
    exact hgeo f ((List.perm_insertionSort _ fs).mem_iff.mp hf)
  obtain ⟨items, hitems, hmap⟩ := mapM_emergencyItemOf now _ hsorted
  have hlen : fs.length ≠ 0 := by
    intro h0
    exact hne (List.length_eq_zero.mp h0)
  unfold EmergencyMap.updateEmergencyList
  simp only [hc, hfs, hlen, if_false, hitems]
  simp [Outcome.done, listedSeverities, hmap]

/-- The sort of the live emergency list orders by `severity || 0`, highest
first. -/
theorem jsSort_severity_sorted (fs : List IncidentFeature) :
    (jsSort EmergencyMap.severityCompare fs).Pairwise
      (fun a b => severityOr b.properties.severity 0 ≤ severityOr a.properties.severity 0) := by
  have htotal : IsTotal IncidentFeature
      (fun x y => sortCompare EmergencyMap.severityCompare x y ≤ 0) :=
    ⟨fun a b => by
      simp only [sortCompare, EmergencyMap.severityCompare]
      omega⟩
  have htrans : IsTrans IncidentFeature
      (fun x y => sortCompare EmergencyMap.severityCompare x y ≤ 0) :=
    ⟨fun a b c => by
      simp only [sortCompare, EmergencyMap.severityCompare]
      omega⟩
  have hsorted := List.sorted_insertionSort
    (fun x y => sortCompare EmergencyMap.severityCompare x y ≤ 0) fs
  refine List.Pairwise.imp ?_ hsorted
  intro a b hab
  simp only [sortCompare, EmergencyMap.severityCompare] at hab
  omega

/-- When every incident has a geometry and a severity other than 0, the badges
of the live emergency list are in descending order and there is one per
incident. -/
theorem updateEmergencyList_descending (now : Int)
    (incidents : FeatureCollection IncidentProps) (dom : Dom) (fs : List IncidentFeature)
    (hfs : incidents.features = some fs) (hne : fs ≠ [])
    (hdom : dom.liveEmergencyList ≠ none) (hgeo : ∀ f ∈ fs, f.geometry ≠ none)
    (hsev : ∀ f ∈ fs, ∃ n, f.properties.severity = some n ∧ n ≠ 0) :
    (listedSeverities (EmergencyMap.updateEmergencyList now incidents dom).state).length =
      fs.length ∧
    (listedSeverities (EmergencyMap.updateEmergencyList now incidents dom).state).Pairwise
      (fun x y => y ≤ x) := by
  rw [(updateEmergencyList_badges now incidents dom fs hfs hne hdom hgeo).2]
  constructor
  · rw [List.length_map]
    exact (List.perm_insertionSort _ fs).length_eq
  · rw [List.pairwise_map]
    refine List.Pairwise.imp_of_mem ?_ (jsSort_severity_sorted fs)
    intro a b ha hb hab
    obtain ⟨na, hna, hna0⟩ := hsev a ((List.perm_insertionSort _ fs).mem_iff.mp ha)
    obtain ⟨nb, hnb, hnb0⟩ := hsev b ((List.perm_insertionSort _ fs).mem_iff.mp hb)
    simp only [hna, hnb, severityOr, hna0, hnb0, if_false] at hab ⊢
    exact hab

/-- C23 (the code at the failing input): for the incidents with severities 5,
4 and 4 the badges read 5, 4, 4; but for an incident of severity 2 followed by
one without a severity the badges read 2, then 3: the sort counts the missing
severity as 0 and keeps that incident last, while its badge shows 3. -/
theorem updateEmergencyList_badge_order :
    listedSeverities (EmergencyMap.updateEmergencyList 0
      { features := some [sampleIncident (some 4), sampleIncident (some 5),
                          sampleIncident (some 4)] } samplePage).state = [5, 4, 4] ∧
    listedSeverities (EmergencyMap.updateEmergencyList 0
      { features := some [sampleIncident (some 2), sampleIncident none] } samplePage).state =
      [2, 3] ∧
    ¬ (listedSeverities (EmergencyMap.updateEmergencyList 0
      { features := some [sampleIncident (some 2), sampleIncident none] } samplePage).state).Pairwise
        (fun x y => y ≤ x) := by
  decide

/-! ### Rendering replaces the layer content -/

/-- The loop of `renderIncidents` over incidents that all have a geometry
appends one marker per incident, the same markers whatever the state. -/
theorem forEach_addIncidentMarker (fs : List IncidentFeature)
    (h : ∀ f ∈ fs, f.geometry ≠ none) :
    ∃ ms : List MapLayer, ms.length = fs.length ∧
      ∀ m : EmergencyMap, forEachFrom EmergencyMap.addIncidentMarker fs m =
        Outcome.done { m with incidentsLayer := m.incidentsLayer ++ ms } := by
  induction fs with
  | nil => exact ⟨[], rfl, fun m => by simp [forEachFrom]⟩
  | cons f fs ih =>
    obtain ⟨ms, hlen, hms⟩ := ih (fun g hg => h g (List.mem_cons_of_mem _ hg))
    obtain ⟨g, hg⟩ := Option.ne_none_iff_exists'.mp (h f (List.mem_cons_self _ _))
    refine ⟨MapLayer.incidentMarker g.lat g.lng (severityOr f.properties.severity 3)
      (getSeverityStyle (severityOr f.properties.severity 3)) :: ms, by simp [hlen], ?_⟩
    intro m
    simp [forEachFrom, EmergencyMap.addIncidentMarker, coordinatesOf, hg, Outcome.done, hms]

/-- The loop of `renderResources` over resources that all have a geometry
appends one marker per resource, the same markers whatever the state. -/
theorem forEach_addResourceMarker (fs : List ResourceFeature)
    (h : ∀ f ∈ fs, f.geometry ≠ none) :
    ∃ ms : List MapLayer, ms.length = fs.length ∧
      ∀ m : EmergencyMap, forEachFrom EmergencyMap.addResourceMarker fs m =
        Outcome.done { m with resourcesLayer := m.resourcesLayer ++ ms } := by
  induction fs with
  | nil => exact ⟨[], rfl, fun m => by simp [forEachFrom]⟩
  | cons f fs ih =>
    obtain ⟨ms, hlen, hms⟩ := ih (fun g hg => h g (List.mem_cons_of_mem _ hg))
    obtain ⟨g, hg⟩ := Option.ne_none_iff_exists'.mp (h f (List.mem_cons_self _ _))
    refine ⟨MapLayer.resourceMarker g.lat g.lng
      (EmergencyMap.getResourceIcon f.properties.type) :: ms, by simp [hlen], ?_⟩
    intro m
    simp [forEachFrom, EmergencyMap.addResourceMarker, coordinatesOf, hg, Outcome.done, hms]

/-- The loop of `renderCrowds` over detections that all have a geometry appends
a circle and an icon marker per detection, the same items whatever the
state. -/
theorem forEach_addCrowdMarkers (fs : List CrowdFeature)
    (h : ∀ f ∈ fs, f.geometry ≠ none) :
    ∃ ms : List MapLayer, ms.length = 2 * fs.length ∧
      ∀ m : EmergencyMap, forEachFrom EmergencyMap.addCrowdMarkers fs m =
        Outcome.done { m with crowdLayer := m.crowdLayer ++ ms } := by
  induction fs with
  | nil => exact ⟨[], rfl, fun m => by simp [forEachFrom]⟩
  | cons f fs ih =>
    obtain ⟨ms, hlen, hms⟩ := ih (fun g hg => h g (List.mem_cons_of_mem _ hg))
    obtain ⟨g, hg⟩ := Option.ne_none_iff_exists'.mp (h f (List.mem_cons_self _ _))
    refine ⟨MapLayer.crowdCircle g.lat g.lng
        (getCrowdStyle f.properties.crowd_density f.properties.estimated_crowd_size)
        f.properties.is_anomalous ::
      MapLayer.crowdMarker g.lat g.lng
        (getCrowdStyle f.properties.crowd_density f.properties.estimated_crowd_size).color
        f.properties.is_anomalous :: ms, by simp [hlen]; omega, ?_⟩
    intro m
    simp [forEachFrom, EmergencyMap.addCrowdMarkers, coordinatesOf, hg, Outcome.done, hms]

/-- The bounds of incidents that all have a geometry can be computed. -/
theorem boundsOf_ok (fs : List IncidentFeature) (h : ∀ f ∈ fs, f.geometry ≠ none) :
    ∃ bounds, EmergencyMap.boundsOf fs = Except.ok bounds := by
  unfold EmergencyMap.boundsOf
  induction fs with
  | nil => exact ⟨[], rfl⟩
  | cons f fs ih =>
    obtain ⟨bounds, hb⟩ := ih (fun g hg => h g (List.mem_cons_of_mem _ hg))
    obtain ⟨g, hg⟩ := Option.ne_none_iff_exists'.mp (h f (List.mem_cons_self _ _))
    refine ⟨(g.lat, g.lng) :: bounds, ?_⟩
    rw [List.mapM_cons, hb]
    simp [coordinatesOf, hg, Except.map, bind, Except.bind, pure, Except.pure]

/-- For incidents that all have a geometry, `renderIncidents` completes and the
layer holds one marker per incident, the same markers whatever the state
before. -/
theorem renderIncidents_content (fs : List IncidentFeature) (h : allLocated fs) :
    ∃ ms : List MapLayer, ms.length = fs.length ∧
      ∀ m : EmergencyMap,
        (EmergencyMap.renderIncidents { features := some fs } m).error = none ∧
        (EmergencyMap.renderIncidents { features := some fs } m).state.incidentsLayer = ms := by
  obtain ⟨ms, hlen, hms⟩ := forEach_addIncidentMarker fs h
  obtain ⟨bounds, hb⟩ := boundsOf_ok fs h
  refine ⟨ms, hlen, ?_⟩
  intro m
  unfold EmergencyMap.renderIncidents
  simp only
  by_cases h0 : fs.length = 0
  · have hnil : ms = [] := List.length_eq_zero.mp (hlen.trans h0)
    simp [h0, Outcome.done, hnil]
  · have hpos : fs.length > 0 := by omega
    simp [h0, hms, Outcome.andThen, Outcome.done, hb, hpos]

/-- For a type that does not name a member of `Object.prototype`, the map's
`getResourceIcon` returns an icon of its table. -/
theorem mapResourceIcon_plain (type : String) (h : type ∉ objectPrototypeKeys) :
    ∃ icon, EmergencyMap.getResourceIcon type = Member.value icon := by
  unfold EmergencyMap.getResourceIcon getPropertyOr getProperty
  cases List.lookup type EmergencyMap.resourceIcons with
  | none => simp [h]
  | some icon => exact ⟨icon, rfl⟩

/-- For resources that all have a geometry, `renderResources` completes and the
layer holds one marker per resource, the same markers whatever the state
before; when the resource types have icons, every marker carries an icon. -/
theorem renderResources_content (fs : List ResourceFeature) (h : allLocated fs) :
    ∃ ms : List MapLayer, ms.length = fs.length ∧
      (iconsKnown fs → ∀ l ∈ ms, l.hasIcon) ∧
      ∀ m : EmergencyMap,
        (EmergencyMap.renderResources { features := some fs } m).error = none ∧
        (EmergencyMap.renderResources { features := some fs } m).state.resourcesLayer = ms := by
  have hloop : ∃ ms : List MapLayer, ms.length = fs.length ∧
      (iconsKnown fs → ∀ l ∈ ms, l.hasIcon) ∧
      ∀ m : EmergencyMap, forEachFrom EmergencyMap.addResourceMarker fs m =
        Outcome.done { m with resourcesLayer := m.resourcesLayer ++ ms } := by
    induction fs with
    | nil => exact ⟨[], rfl, fun _ l hl => by simp at hl, fun m => by simp [forEachFrom]⟩
    | cons f fs ih =>
      obtain ⟨ms, hlen, hicon, hms⟩ := ih (fun g hg => h g (List.mem_cons_of_mem _ hg))
      obtain ⟨g, hg⟩ := Option.ne_none_iff_exists'.mp (h f (List.mem_cons_self _ _))
      refine ⟨MapLayer.resourceMarker g.lat g.lng
        (EmergencyMap.getResourceIcon f.properties.type) :: ms, by simp [hlen], ?_, ?_⟩
      · intro hk l hl
        rcases List.mem_cons.mp hl with rfl | hl
        · obtain ⟨icon, hi⟩ := mapResourceIcon_plain _ (hk f (List.mem_cons_self _ _))
          rw [hi]
          trivial
        · exact hicon (fun x hx => hk x (List.mem_cons_of_mem _ hx)) l hl
      · intro m
        simp [forEachFrom, EmergencyMap.addResourceMarker, coordinatesOf, hg, Outcome.done, hms]
  obtain ⟨ms, hlen, hicon, hms⟩ := hloop
  refine ⟨ms, hlen, hicon, ?_⟩
  intro m
  unfold EmergencyMap.renderResources
  simp only
  by_cases h0 : fs.length = 0
  · have hnil : ms = [] := List.length_eq_zero.mp (hlen.trans h0)
    simp [h0, Outcome.done, hnil]
  · simp [h0, hms, Outcome.done]

/-- For detections that all have a geometry, `renderCrowds` completes and the
layer holds two items per detection, the same items whatever the state
before. -/
theorem renderCrowds_content (fs : List CrowdFeature) (h : allLocated fs) :
    ∃ ms : List MapLayer, ms.length = 2 * fs.length ∧
      ∀ m : EmergencyMap,
        (EmergencyMap.renderCrowds { features := some fs } m).error = none ∧
        (EmergencyMap.renderCrowds { features := some fs } m).state.crowdLayer = ms := by
  obtain ⟨ms, hlen, hms⟩ := forEach_addCrowdMarkers fs h
  refine ⟨ms, hlen, ?_⟩
  intro m
  unfold EmergencyMap.renderCrowds
  simp only
  by_cases h0 : fs.length = 0
  · have hnil : ms = [] := List.length_eq_zero.mp (by omega)
    simp [h0, Outcome.done, hnil]
  · simp [h0, hms, Outcome.done]

/-- C26: for collections whose features all have a geometry (and whose resource
types have an icon), whatever the layers held before, `renderIncidents` leaves
exactly one marker per incident in the incidents layer, `renderResources`
exactly one marker per resource, each with its icon, in the resources layer and
`renderCrowds` exactly two items per detection in the crowd layer; rendering
the same collection a second time leaves the same layer content. -/
theorem render_replaces (m : EmergencyMap) (incidents : List IncidentFeature)
    (resources : List ResourceFeature) (crowds : List CrowdFeature)
    (hi : allLocated incidents) (hr : allLocated resources) (hicons : iconsKnown resources)
    (hc : allLocated crowds) :
    ((EmergencyMap.renderIncidents { features := some incidents } m).error = none ∧
      (EmergencyMap.renderIncidents { features := some incidents } m).state.incidentsLayer.length =
        incidents.length ∧
      (EmergencyMap.renderIncidents { features := some incidents }
        (EmergencyMap.renderIncidents { features := some incidents } m).state).state.incidentsLayer =
        (EmergencyMap.renderIncidents { features := some incidents } m).state.incidentsLayer) ∧
    ((EmergencyMap.renderResources { features := some resources } m).error = none ∧
      (EmergencyMap.renderResources { features := some resources } m).state.resourcesLayer.length =
        resources.length ∧
      (∀ l ∈ (EmergencyMap.renderResources { features := some resources } m).state.resourcesLayer,
        l.hasIcon) ∧
      (EmergencyMap.renderResources { features := some resources }
        (EmergencyMap.renderResources { features := some resources } m).state).state.resourcesLayer =
        (EmergencyMap.renderResources { features := some resources } m).state.resourcesLayer) ∧
    ((EmergencyMap.renderCrowds { features := some crowds } m).error = none ∧
      (EmergencyMap.renderCrowds { features := some crowds } m).state.crowdLayer.length =
        2 * crowds.length ∧
      (EmergencyMap.renderCrowds { features := some crowds }
        (EmergencyMap.renderCrowds { features := some crowds } m).state).state.crowdLayer =
        (EmergencyMap.renderCrowds { features := some crowds } m).state.crowdLayer) := by
  obtain ⟨mi, hli, hmi⟩ := renderIncidents_content incidents hi
  obtain ⟨mr, hlr, hir, hmr⟩ := renderResources_content resources hr
  obtain ⟨mc, hlc, hmc⟩ := renderCrowds_content crowds hc
  refine ⟨⟨(hmi m).1, ?_, ?_⟩, ⟨(hmr m).1, ?_, ?_, ?_⟩, ⟨(hmc m).1, ?_, ?_⟩⟩
  · rw [(hmi m).2, hli]
  · rw [(hmi _).2, (hmi m).2]
  · rw [(hmr m).2, hlr]
  · rw [(hmr m).2]
    exact hir hicons
  · rw [(hmr _).2, (hmr m).2]
  · rw [(hmc m).2, hlc]
  · rw [(hmc _).2, (hmc m).2]

/-- Witness for C26: the three mock collections rendered onto the sample map,
whose layers hold the markers of an earlier refresh. -/
theorem render_replaces_witness :
    (EmergencyMap.renderIncidents
      { features := some ((EmergencyMap.getMockIncidents 0).features.getD []) }
      sampleMap).state.incidentsLayer.length = 3 ∧
    (EmergencyMap.renderResources
      { features := some (EmergencyMap.getMockResources.features.getD []) }
      sampleMap).state.resourcesLayer.length = 2 ∧
    (EmergencyMap.renderCrowds
      { features := some ((EmergencyMap.getMockCrowds 0).features.getD []) }
      sampleMap).state.crowdLayer.length = 10 :=
  ⟨(render_replaces sampleMap ((EmergencyMap.getMockIncidents 0).features.getD [])
      (EmergencyMap.getMockResources.features.getD [])
      ((EmergencyMap.getMockCrowds 0).features.getD [])
      (by decide) (by decide) (by decide) (by decide)).1.2.1,
   (render_replaces sampleMap ((EmergencyMap.getMockIncidents 0).features.getD [])
      (EmergencyMap.getMockResources.features.getD [])
      ((EmergencyMap.getMockCrowds 0).features.getD [])
      (by decide) (by decide) (by decide) (by decide)).2.1.2.1,
   (render_replaces sampleMap ((EmergencyMap.getMockIncidents 0).features.getD [])
      (EmergencyMap.getMockResources.features.getD [])
      ((EmergencyMap.getMockCrowds 0).features.getD [])
      (by decide) (by decide) (by decide) (by decide)).2.2.2.1⟩

/-! ### Sorting a copy -/

/-- Creating an array leaves the arrays that exist as they are. -/
theorem read_alloc {α : Type} (store : ArrayStore α) (content : List α) (a : Nat)
    (h : a < store.cells.length) : (store.alloc content).read a = store.read a := by
  simp [ArrayStore.alloc, ArrayStore.read, List.getElem?_append_left h]

/-- A newly created array has the content it was created with. -/
theorem read_alloc_fresh {α : Type} (store : ArrayStore α) (content : List α) :
    (store.alloc content).read store.fresh = content := by
  simp [ArrayStore.alloc, ArrayStore.read, ArrayStore.fresh]

/-- Sorting an array in place leaves every other array as it is. -/
theorem read_sortInPlace_ne {α : Type} (cmp : α → α → Num) (store : ArrayStore α)
    (a b : Nat) (h : a ≠ b) : (store.sortInPlace cmp b).read a = store.read a := by
  simp [ArrayStore.sortInPlace, ArrayStore.read, List.getElem?_set_ne (Ne.symm h)]

/-- Sorting an array in place replaces its content by the sorted content. -/
theorem read_sortInPlace_self {α : Type} (cmp : α → α → Num) (store : ArrayStore α)
    (b : Nat) (h : b < store.cells.length) :
    (store.sortInPlace cmp b).read b = jsSort cmp (store.read b) := by
  simp [ArrayStore.sortInPlace, ArrayStore.read, h]

/-- Sorting a fresh copy leaves the arrays that exist as they are. -/
theorem read_sortedCopy {α : Type} (cmp : α → α → Num) (store : ArrayStore α)
    (content : List α) (a : Nat) (h : a < store.cells.length) :
    ((store.alloc content).sortInPlace cmp store.fresh).read a = store.read a := by
  rw [read_sortInPlace_ne _ _ _ _ (by unfold ArrayStore.fresh; omega), read_alloc _ _ _ h]

/-- The sorted copy holds the sorted content. -/
theorem read_sortedCopy_fresh {α : Type} (cmp : α → α → Num) (store : ArrayStore α)
    (content : List α) :
    ((store.alloc content).sortInPlace cmp store.fresh).read store.fresh =
      jsSort cmp content := by
  rw [read_sortInPlace_self _ _ _ (by simp [ArrayStore.alloc, ArrayStore.fresh]),
    read_alloc_fresh]

/-- The store after a sorted copy has one array more. -/
theorem length_sortedCopy {α : Type} (cmp : α → α → Num) (store : ArrayStore α)
    (content : List α) :
    ((store.alloc content).sortInPlace cmp store.fresh).cells.length =
      store.cells.length + 1 := by
  simp [ArrayStore.alloc, ArrayStore.sortInPlace]

/-- The function `updateCrowdPanel` leaves every array that exists before the
call as it is. -/
theorem updateCrowdPanelInStore_frame (features : Option Nat)
    (store : ArrayStore CrowdFeature) (dom : Dom) (a : Nat) (ha : a < store.cells.length) :
    (updateCrowdPanelInStore features store dom).2.read a = store.read a := by
  have h1 : (if features.isSome = true then store else store.alloc []).read a =
      store.read a := by
    split
    · rfl
    · exact read_alloc _ _ _ ha
  have l1 : a < (if features.isSome = true then store else store.alloc []).cells.length := by
    split
    · exact ha
    · simp only [ArrayStore.alloc, List.length_append, List.length_singleton]
      omega
  unfold updateCrowdPanelInStore
  generalize (if features.isSome = true then store else store.alloc []) = store1 at h1 l1 ⊢
  split
  · rfl
  · simp only
    split
    · exact h1
    · split
      · simp only [read_sortedCopy _ _ _ _ l1, h1]
      · split
        · simp only [read_sortedCopy _ _ _ _ l1, h1]
        · simp only
          rw [read_alloc _ _ _ (by rw [length_sortedCopy]; omega),
            read_sortedCopy _ _ _ _ l1, h1]

/-- With the array `crowds.features` in the store, the page gets what
`updateCrowdPanel` gives on the content of that array. -/
theorem updateCrowdPanelInStore_page (features : Option Nat)
    (store : ArrayStore CrowdFeature) (dom : Dom)
    (hv : ∀ array, features = some array → array < store.cells.length) :
    (updateCrowdPanelInStore features store dom).1 =
      updateCrowdPanel { features := features.map store.read } dom := by
  unfold updateCrowdPanelInStore updateCrowdPanel
  cases hc : dom.crowdListContainer with
  | none => rfl
  | some c =>
    cases features with
    | none => simp [read_alloc_fresh]
    | some array =>
      have hlt := hv array rfl
      simp only [Option.isSome_some, if_true, Option.getD_some, Option.map_some']
      by_cases h0 : (store.read array).length = 0
      · simp [h0]
      · simp only [h0, if_false, read_sortedCopy_fresh]
        cases (jsSort crowdCompare (store.read array)).mapM crowdItemOf with
        | error e => rfl
        | ok items =>
          simp only
          cases dom.crowdCount with
          | none => rfl
          | some badge =>
            simp only
            rw [read_alloc_fresh, read_alloc _ _ _ (by rw [length_sortedCopy]; omega),
              read_sortedCopy _ _ _ _ hlt]

/-- The method `updateEmergencyList` leaves every array that exists before the
call as it is. -/
theorem updateEmergencyListInStore_frame (now : Int) (features : Option Nat)
    (store : ArrayStore IncidentFeature) (dom : Dom) (a : Nat)
    (ha : a < store.cells.length) :
    (updateEmergencyListInStore now features store dom).2.read a = store.read a := by
  unfold updateEmergencyListInStore
  split
  · rfl
  · split
    · rfl
    · simp only
      split
      · rfl
      · split
        · simp only [read_sortedCopy _ _ _ _ ha]
        · simp only [read_sortedCopy _ _ _ _ ha]

/-- With the array `incidents.features` in the store, the page gets what
`updateEmergencyList` gives on the content of that array. -/
theorem updateEmergencyListInStore_page (now : Int) (features : Option Nat)
    (store : ArrayStore IncidentFeature) (dom : Dom) :
    (updateEmergencyListInStore now features store dom).1 =
      EmergencyMap.updateEmergencyList now { features := features.map store.read } dom := by
  unfold updateEmergencyListInStore EmergencyMap.updateEmergencyList
  cases hc : dom.liveEmergencyList with
  | none => rfl
  | some c =>
    cases features with
    | none => rfl
    | some array =>
      simp only [Option.map_some']
      by_cases h0 : (store.read array).length = 0
      · simp [h0]
      · simp only [h0, if_false, read_sortedCopy_fresh]
        cases (jsSort EmergencyMap.severityCompare (store.read array)).mapM
            (EmergencyMap.emergencyItemOf now) with
        | error e => rfl
        | ok items => rfl

/-- C27: `updateCrowdPanel` and `updateEmergencyList` sort a copy: with the
arrays kept in a store, the array of features passed in holds the same elements
in the same order after the call as before it, and the call writes to the page
exactly what the sort of that content gives. -/
theorem sort_leaves_features (now : Int) (dom : Dom)
    (crowdStore : ArrayStore CrowdFeature) (crowds : Nat)
    (incidentStore : ArrayStore IncidentFeature) (incidents : Nat)
    (hc : crowds < crowdStore.cells.length) (hi : incidents < incidentStore.cells.length) :
    ((updateCrowdPanelInStore (some crowds) crowdStore dom).2.read crowds =
        crowdStore.read crowds ∧
      (updateCrowdPanelInStore (some crowds) crowdStore dom).1 =
        updateCrowdPanel { features := some (crowdStore.read crowds) } dom) ∧
    ((updateEmergencyListInStore now (some incidents) incidentStore dom).2.read incidents =
        incidentStore.read incidents ∧
      (updateEmergencyListInStore now (some incidents) incidentStore dom).1 =
        EmergencyMap.updateEmergencyList now
          { features := some (incidentStore.read incidents) } dom) :=
  ⟨⟨updateCrowdPanelInStore_frame _ _ _ _ hc,
    updateCrowdPanelInStore_page _ _ _ (fun array h => by cases h; exact hc)⟩,
   ⟨updateEmergencyListInStore_frame _ _ _ _ _ hi,
    updateEmergencyListInStore_page _ _ _ _⟩⟩

/-- Witness for C27: the mock collections, which are not in sorted order. -/
theorem sort_leaves_features_witness :
    (updateCrowdPanelInStore (some 0) sampleCrowdStore samplePage).2.read 0 =
      (EmergencyMap.getMockCrowds 0).features.getD [] ∧
    (updateEmergencyListInStore 0 (some 0) sampleIncidentStore samplePage).2.read 0 =
      (EmergencyMap.getMockIncidents 0).features.getD [] :=
  ⟨(sort_leaves_features 0 samplePage sampleCrowdStore 0 sampleIncidentStore 0
      (by decide) (by decide)).1.1,
   (sort_leaves_features 0 samplePage sampleCrowdStore 0 sampleIncidentStore 0
      (by decide) (by decide)).2.1⟩

end GisEmergency
